import Mathlib

/-!
# Tavolo weight-detection system: the orchestrator state machine

A shallow embedding of `TavoloSystem` (src/TavoloSystem.cpp) and of the parts of
its collaborators that it calls: `Device`, `WeightSensor`, `LedActuator`,
`DisplayManager` and `EdgeCommunication`.

Conventions of the embedding.

* Every C++ object is a structure of its member variables; a member function is a
  function from the object (and its arguments) to the updated object.
* `float` values are rationals. The two `float` subtractions of the source round their
  result to binary32 (`floatSub`); comparisons and `abs` are exact. Infinities and NaN
  are not modelled, the literal `0.9` is the rational 9/10.
* `unsigned long` values are naturals; subtraction and addition are taken modulo 2^32
  where the source computes them on `unsigned long`.
* What the code reads from outside during one call (`millis()`, the MQTT client's
  connection flag, the result of a publish) is an `Env` argument; all the reads of one
  call see the same `Env`, except that the `millis()` read after a publish sees the
  clock `publishDelay` later. A pass of `loop` reads more (the HX711, the Wi-Fi status, the
  results of the MQTT client, the messages that arrive): that is a `LoopEnv`.
* What the code sends outside (serial lines, pin writes, the HX711 tare, MQTT
  publishes, invocations of registered user callbacks) is appended to a list of
  `Effect`s. A `std::function` member is a `Bool`: whether a callback is registered.
-/

namespace Tavolo

/-! ## Data model -/

/-- Number of values of the 32-bit `unsigned long` of the target. -/
def ULONG_MODULUS : Nat := 4294967296

/-- Unsigned 32-bit subtraction `a - b`. -/
def ulongSub (a b : Nat) : Nat :=
  (a % ULONG_MODULUS + (ULONG_MODULUS - b % ULONG_MODULUS)) % ULONG_MODULUS

/-- Unsigned 32-bit addition `a + b`. -/
def ulongAdd (a b : Nat) : Nat :=
  (a + b) % ULONG_MODULUS

/-- Rounding of a rational to the nearest integer, a tie to the even one. -/
def roundHalfEven (x : ℚ) : Int :=
  let f := ⌊x⌋
  let r := x - f
  if r < 1 / 2 then f else if 1 / 2 < r then f + 1 else if f % 2 = 0 then f else f + 1

/-- Rounding of a real value to `float` (IEEE 754 binary32, round to nearest, ties to
even): the value is rounded to a multiple of the unit in the last place of its binade,
2^(e - 23) for 2^e ≤ |q| < 2^(e + 1), and 2^(-149) below 2^(-126). A value beyond the
range of binary32 is not turned into an infinity. -/
def roundBinary32 (q : ℚ) : ℚ :=
  if q = 0 then 0
  else
    let e := max (Int.log 2 |q|) (-126)
    let ulp : ℚ := 2 ^ (e - 23)
    roundHalfEven (q / ulp) * ulp

/-- The operator `-` on two `float` values: the difference, rounded to `float`. -/
def floatSub (a b : ℚ) : ℚ :=
  roundBinary32 (a - b)

/-- Answers of the surroundings during one call. -/
structure Env where
  /-- The value `millis()` returns. -/
  millis : Nat
  /-- The value `mqttClient.connected()` returns. -/
  mqttConnected : Bool
  /-- The value `mqttClient.publish(...)` returns. -/
  publishOk : Bool
  /-- The milliseconds that pass between the `millis()` read before
  `edgeCommunication->sendWeightData(data)` and the one after it. -/
  publishDelay : Nat
  deriving DecidableEq, Repr

/-- The value of `millis()` as an `unsigned long`. -/
def Env.now (env : Env) : Nat := env.millis % ULONG_MODULUS

/-- The value of `millis()` as an `unsigned long`, read after
`edgeCommunication->sendWeightData(data)` has returned. -/
def Env.nowAfterSend (env : Env) : Nat := (env.millis + env.publishDelay) % ULONG_MODULUS

/-- `Device::DeviceState` (src/Device.h). -/
inductive DeviceState where
  | INITIALIZING
  | READY
  | ACTIVE
  | ERROR
  | MAINTENANCE
  deriving DecidableEq, Repr

/-- `TavoloSystem::SystemState` (src/TavoloSystem.h). -/
inductive SystemState where
  | INITIALIZING
  | CALIBRATING
  | IDLE
  | MEASURING
  | THRESHOLD_EXCEEDED
  | COMMUNICATION_ERROR
  | MAINTENANCE
  deriving DecidableEq, Repr

/-- `LedActuator::BlinkPattern` (src/LedActuator.h). -/
inductive BlinkPattern where
  | OFF
  | ON
  | SLOW_BLINK
  | FAST_BLINK
  | PULSE
  deriving DecidableEq, Repr

/-- `DisplayManager::DisplayMode` (src/DisplayManager.h). -/
inductive DisplayMode where
  | BOOT
  | WEIGHT_DISPLAY
  | STATUS_MESSAGE
  | ERROR_MESSAGE
  deriving DecidableEq, Repr

/-- `EdgeCommunication::ConnectionState` (src/EdgeCommunication.h). -/
inductive ConnectionState where
  | DISCONNECTED
  | CONNECTING
  | CONNECTED
  | ERROR
  deriving DecidableEq, Repr

/-- `EdgeCommunication::EdgeCommand` (src/EdgeCommunication.h). -/
structure EdgeCommand where
  command : String
  value : String
  timestamp : Nat
  deriving DecidableEq, Repr

/-- `EdgeCommunication::WeightData` (src/EdgeCommunication.h). -/
structure WeightData where
  weight : ℚ
  timestamp : Nat
  deviceId : String
  deriving DecidableEq

/-- What a call sends to the outside world, in the order it is sent. -/
inductive Effect where
  /-- `Serial.print` of a text. -/
  | print (text : String)
  /-- `Serial.println` of a text. -/
  | println (text : String)
  /-- `Serial.print` of a `float`. -/
  | printFloat (value : ℚ)
  /-- `digitalWrite(pin, HIGH / LOW)`. -/
  | digitalWrite (pin : Int) (high : Bool)
  /-- `scale.tare()` of the HX711 driver. -/
  | scaleTare
  /-- `mqttClient.publish` of a weight message on a topic. -/
  | publishWeight (topic : String) (data : WeightData)
  /-- Invocation of `Device::onStateChangeCallback`. -/
  | deviceStateChange (oldState newState : DeviceState)
  /-- Invocation of `TavoloSystem::onWeightChangeCallback`. -/
  | weightChange (weight : ℚ)
  /-- Invocation of `TavoloSystem::onThresholdStateChangeCallback`. -/
  | thresholdStateChange (exceeded : Bool)
  /-- `analogWrite(pin, value)`. -/
  | analogWrite (pin : Int) (value : Int)
  /-- `lcd.setCursor(0, row)` followed by `lcd.print(text)`. -/
  | lcdPrint (row : Nat) (text : String)
  /-- `mqttClient.connect(clientId)`. -/
  | mqttConnect (clientId : String)
  /-- `mqttClient.subscribe(topic)`. -/
  | mqttSubscribe (topic : String)
  /-- `mqttClient.publish` of a status update on a topic. -/
  | publishStatus (topic : String) (deviceId : String) (status : String) (timestamp : Nat)
  /-- `mqttClient.publish` of a heartbeat on a topic. -/
  | publishHeartbeat (topic : String) (deviceId : String) (timestamp : Nat)
  deriving DecidableEq

/-- Member variables of `Device` (src/Device.h). -/
structure Device where
  deviceMacAddress : String
  deviceId : String
  currentState : DeviceState
  onStateChangeCallback : Bool
  deriving DecidableEq

/-- Member variables of `WeightSensor` and of its base `Sensor`
(src/WeightSensor.h, src/Sensor.h); the HX711 driver object is outside. -/
structure WeightSensor where
  pin : Int
  initialized : Bool
  onDataCallback : Bool
  clockPin : Int
  calibrationFactor : ℚ
  calibrated : Bool
  lastReadTime : Nat
  lastWeight : ℚ
  weightThreshold : ℚ
  deriving DecidableEq

/-- Member variables of `LedActuator` and of its base `Actuator`
(src/LedActuator.h, src/Actuator.h). -/
structure LedActuator where
  pin : Int
  initialized : Bool
  currentState : Bool
  onStateChangeCallback : Bool
  currentPattern : BlinkPattern
  lastToggleTime : Nat
  ledState : Bool
  brightness : Int
  fadeDirection : Bool
  deriving DecidableEq

/-- Member variables of `DisplayManager` (src/DisplayManager.h); the LCD driver
object is outside. -/
structure DisplayManager where
  currentMode : DisplayMode
  lastUpdate : Nat
  messageTimeout : Nat
  needsUpdate : Bool
  line1Content : String
  line2Content : String
  line3Content : String
  line4Content : String
  deriving DecidableEq

/-- Member variables of `EdgeCommunication` (src/EdgeCommunication.h); the Wi-Fi and
MQTT client objects are outside. -/
structure EdgeCommunication where
  mqttServer : String
  mqttPort : Int
  clientId : String
  deviceId : String
  weightTopic : String
  commandTopic : String
  statusTopic : String
  currentState : ConnectionState
  lastConnectionAttempt : Nat
  lastHeartbeat : Nat
  onCommandCallback : Bool
  onConnectionStateCallback : Bool
  deriving DecidableEq

/-- `TavoloSystem::SystemConfig` (src/TavoloSystem.h). -/
structure SystemConfig where
  weightThreshold : ℚ
  measurementInterval : Nat
  calibrationFactor : ℚ
  autoTare : Bool
  deriving DecidableEq

/-- Member variables of `TavoloSystem` (src/TavoloSystem.h), with its base `Device`,
the four components it owns, and the effects sent so far. -/
structure TavoloSystem extends Device where
  weightSensor : WeightSensor
  ledActuator : LedActuator
  displayManager : DisplayManager
  edgeCommunication : EdgeCommunication
  currentSystemState : SystemState
  config : SystemConfig
  currentWeight : ℚ
  lastReportedWeight : ℚ
  lastMeasurementTime : Nat
  lastReportTime : Nat
  thresholdExceeded : Bool
  onWeightChangeCallback : Bool
  onThresholdStateChangeCallback : Bool
  effects : List Effect
  deriving DecidableEq

/-- `REPORT_INTERVAL` (src/TavoloSystem.h). -/
def REPORT_INTERVAL : Nat := 5000

/-- `WEIGHT_REPORT_THRESHOLD` (src/TavoloSystem.h). -/
def WEIGHT_REPORT_THRESHOLD : ℚ := 5

/-- `READ_INTERVAL_MS` (src/WeightSensor.h). -/
def READ_INTERVAL_MS : Nat := 100

/-! ## Device (src/Device.cpp) -/

/-- `Device::getStateString`. -/
def Device.getStateString (d : Device) : String :=
  match d.currentState with
  | .INITIALIZING => "INITIALIZING"
  | .READY => "READY"
  | .ACTIVE => "ACTIVE"
  | .ERROR => "ERROR"
  | .MAINTENANCE => "MAINTENANCE"

/-- `Device::notifyStateChange`: the log line (both names are read from
`currentState`, which the caller has already set), then the callback. -/
def Device.notifyStateChange (d : Device) (oldState newState : DeviceState) :
    Device × List Effect :=
  let line1 := [Effect.print "Device state changed: ", Effect.print d.getStateString,
    Effect.print " -> "]
  let temp := d.currentState
  let d1 : Device := { d with currentState := newState }
  let line2 := [Effect.println d1.getStateString]
  let d2 : Device := { d1 with currentState := temp }
  let call := if d2.onStateChangeCallback then [Effect.deviceStateChange oldState newState]
    else []
  (d2, line1 ++ line2 ++ call)

/-- `Device::setState`. -/
def Device.setState (d : Device) (newState : DeviceState) : Device × List Effect :=
  let oldState := d.currentState
  if oldState ≠ newState then
    Device.notifyStateChange { d with currentState := newState } oldState newState
  else
    (d, [])

/-! ## WeightSensor (src/WeightSensor.cpp) -/

/-- `WeightSensor::isReady`. -/
def WeightSensor.isReady (s : WeightSensor) : Bool :=
  s.initialized && s.calibrated

/-- `WeightSensor::tare`. -/
def WeightSensor.tare (s : WeightSensor) : WeightSensor × List Effect :=
  if !s.initialized then
    (s, [Effect.println "Error: Cannot tare - sensor not initialized"])
  else
    (s, [Effect.println "Performing tare...", Effect.scaleTare,
      Effect.println "Tare completed."])

/-- `WeightSensor::hasNewData`. -/
def WeightSensor.hasNewData (s : WeightSensor) (env : Env) : Bool :=
  decide (ulongSub env.now s.lastReadTime < READ_INTERVAL_MS) && s.initialized && s.calibrated

/-! ## LedActuator (src/LedActuator.cpp, src/Actuator.h) -/

/-- `Actuator::isInitialized`. -/
def LedActuator.isInitialized (led : LedActuator) : Bool :=
  led.initialized

/-- `LedActuator::writeLed`. -/
def LedActuator.writeLed (led : LedActuator) (state : Bool) : LedActuator × List Effect :=
  ({ led with ledState := state }, [Effect.digitalWrite led.pin state])

/-- `LedActuator::setPattern`. -/
def LedActuator.setPattern (led : LedActuator) (env : Env) (pattern : BlinkPattern) :
    LedActuator × List Effect :=
  if led.currentPattern ≠ pattern then
    let led1 : LedActuator := { led with currentPattern := pattern, lastToggleTime := env.now }
    let head := Effect.print "LED pattern changed to: "
    match pattern with
    | .OFF =>
      let r := led1.writeLed false
      (r.1, [head, Effect.println "OFF"] ++ r.2)
    | .ON =>
      let r := led1.writeLed true
      (r.1, [head, Effect.println "ON"] ++ r.2)
    | .SLOW_BLINK => (led1, [head, Effect.println "SLOW_BLINK"])
    | .FAST_BLINK => (led1, [head, Effect.println "FAST_BLINK"])
    | .PULSE =>
      ({ led1 with brightness := 0, fadeDirection := true }, [head, Effect.println "PULSE"])
  else
    (led, [])

/-! ## DisplayManager (src/DisplayManager.cpp) -/

/-- `DisplayManager::centerText`: the loops that add blanks are written as the number
of blanks they add. -/
def DisplayManager.centerText (text : String) (width : Nat) : String :=
  if text.length ≥ width then
    text.take width
  else
    let padding := (width - text.length) / 2
    let result := String.mk (List.replicate padding ' ') ++ text
    result ++ String.mk (List.replicate (width - result.length) ' ')

/-- `DisplayManager::setMode`. -/
def DisplayManager.setMode (dm : DisplayManager) (mode : DisplayMode) :
    DisplayManager × List Effect :=
  if dm.currentMode ≠ mode then
    let dm1 : DisplayManager := { dm with currentMode := mode, needsUpdate := true }
    let name := match mode with
      | .BOOT => "BOOT"
      | .WEIGHT_DISPLAY => "WEIGHT_DISPLAY"
      | .STATUS_MESSAGE => "STATUS_MESSAGE"
      | .ERROR_MESSAGE => "ERROR_MESSAGE"
    (dm1, [Effect.print "Display mode changed to: ", Effect.println name])
  else
    (dm, [])

/-- `DisplayManager::showStatusMessage`. -/
def DisplayManager.showStatusMessage (dm : DisplayManager) (env : Env) (message : String)
    (timeout : Nat) : DisplayManager × List Effect :=
  let dm1 : DisplayManager := { dm with
    line1Content := DisplayManager.centerText "STATUS" 20
    line2Content := DisplayManager.centerText (message.take 20) 20
    line3Content := ""
    line4Content := DisplayManager.centerText "Press any key..." 20 }
  let r := dm1.setMode .STATUS_MESSAGE
  ({ r.1 with messageTimeout := ulongAdd env.now timeout }, r.2)

/-- `DisplayManager::showErrorMessage`. -/
def DisplayManager.showErrorMessage (dm : DisplayManager) (env : Env) (error : String)
    (timeout : Nat) : DisplayManager × List Effect :=
  let dm1 : DisplayManager := { dm with
    line1Content := DisplayManager.centerText "ERROR" 20
    line2Content := DisplayManager.centerText (error.take 20) 20
    line3Content := ""
    line4Content := DisplayManager.centerText "Check system..." 20 }
  let r := dm1.setMode .ERROR_MESSAGE
  ({ r.1 with messageTimeout := ulongAdd env.now timeout }, r.2)

/-! ## EdgeCommunication (src/EdgeCommunication.cpp) -/

/-- `EdgeCommunication::isConnected`. -/
def EdgeCommunication.isConnected (ec : EdgeCommunication) (env : Env) : Bool :=
  decide (ec.currentState = .CONNECTED) && env.mqttConnected

/-- `EdgeCommunication::sendWeightData`: the returned flag and the effects; the JSON
document is the `WeightData` it is built from. -/
def EdgeCommunication.sendWeightData (ec : EdgeCommunication) (env : Env) (data : WeightData) :
    Bool × List Effect :=
  if !ec.isConnected env then
    (false, [Effect.println "Cannot send weight data: not connected"])
  else
    let success := env.publishOk
    let sent := [Effect.publishWeight ec.weightTopic data]
    if success then
      (success, sent ++ [Effect.print "Weight data sent: ", Effect.printFloat data.weight,
        Effect.println "g"])
    else
      (success, sent ++ [Effect.println "Failed to send weight data"])

/-! ## TavoloSystem (src/TavoloSystem.cpp) -/

/-- Appends effects to the ones sent so far. -/
def TavoloSystem.emit (sys : TavoloSystem) (es : List Effect) : TavoloSystem :=
  { sys with effects := sys.effects ++ es }

/-- The call `setState(newState)` of the base `Device`, inside the system. -/
def TavoloSystem.setState (sys : TavoloSystem) (newState : DeviceState) : TavoloSystem :=
  let r := sys.toDevice.setState newState
  { sys with toDevice := r.1, effects := sys.effects ++ r.2 }

/-- The call `ledActuator->setPattern(pattern)`, inside the system. -/
def TavoloSystem.ledActuator_setPattern (sys : TavoloSystem) (env : Env)
    (pattern : BlinkPattern) : TavoloSystem :=
  let r := sys.ledActuator.setPattern env pattern
  { sys with ledActuator := r.1, effects := sys.effects ++ r.2 }

/-- The call `displayManager->showStatusMessage(message, timeout)`, inside the system. -/
def TavoloSystem.displayManager_showStatusMessage (sys : TavoloSystem) (env : Env)
    (message : String) (timeout : Nat) : TavoloSystem :=
  let r := sys.displayManager.showStatusMessage env message timeout
  { sys with displayManager := r.1, effects := sys.effects ++ r.2 }

/-- The call `displayManager->showErrorMessage(error, timeout)`, inside the system. -/
def TavoloSystem.displayManager_showErrorMessage (sys : TavoloSystem) (env : Env)
    (error : String) (timeout : Nat) : TavoloSystem :=
  let r := sys.displayManager.showErrorMessage env error timeout
  { sys with displayManager := r.1, effects := sys.effects ++ r.2 }

/-- The call `weightSensor->tare()`, inside the system. -/
def TavoloSystem.weightSensor_tare (sys : TavoloSystem) : TavoloSystem :=
  let r := sys.weightSensor.tare
  { sys with weightSensor := r.1, effects := sys.effects ++ r.2 }

/-- `TavoloSystem::stateToString`. -/
def stateToString (state : SystemState) : String :=
  match state with
  | .INITIALIZING => "INITIALIZING"
  | .CALIBRATING => "CALIBRATING"
  | .IDLE => "IDLE"
  | .MEASURING => "MEASURING"
  | .THRESHOLD_EXCEEDED => "THRESHOLD_EXCEEDED"
  | .COMMUNICATION_ERROR => "COMMUNICATION_ERROR"
  | .MAINTENANCE => "MAINTENANCE"

/-- `TavoloSystem::tare`. -/
def TavoloSystem.tare (sys : TavoloSystem) (env : Env) : TavoloSystem :=
  sys.weightSensor_tare.displayManager_showStatusMessage env "Tare Complete" 2000

/-- `TavoloSystem::handleStateEntry`. -/
def TavoloSystem.handleStateEntry (sys : TavoloSystem) (env : Env) (state : SystemState) :
    TavoloSystem :=
  match state with
  | .INITIALIZING =>
    (sys.ledActuator_setPattern env .FAST_BLINK).setState .INITIALIZING
  | .CALIBRATING =>
    let s1 := sys.ledActuator_setPattern env .PULSE
    let s2 := s1.displayManager_showStatusMessage env "Calibrating..." 3000
    if s2.config.autoTare then s2.tare env else s2
  | .IDLE =>
    (sys.ledActuator_setPattern env .OFF).setState .READY
  | .MEASURING =>
    sys.setState .ACTIVE
  | .THRESHOLD_EXCEEDED =>
    let s1 := sys.ledActuator_setPattern env .ON
    if s1.onThresholdStateChangeCallback then s1.emit [Effect.thresholdStateChange true] else s1
  | .COMMUNICATION_ERROR =>
    let s1 := sys.ledActuator_setPattern env .FAST_BLINK
    let s2 := s1.displayManager_showErrorMessage env "Comm Error" 5000
    s2.setState .ERROR
  | .MAINTENANCE =>
    let s1 := sys.ledActuator_setPattern env .SLOW_BLINK
    let s2 := s1.displayManager_showStatusMessage env "Maintenance Mode" 0
    s2.setState .MAINTENANCE

/-- `TavoloSystem::handleStateExit`. -/
def TavoloSystem.handleStateExit (sys : TavoloSystem) (state : SystemState) : TavoloSystem :=
  match state with
  | .THRESHOLD_EXCEEDED =>
    if sys.onThresholdStateChangeCallback then sys.emit [Effect.thresholdStateChange false]
    else sys
  | _ => sys

/-- The four serial prints that end `TavoloSystem::changeSystemState`. -/
def transitionLog (oldState newState : SystemState) : List Effect :=
  [Effect.print "System state changed: ", Effect.print (stateToString oldState),
    Effect.print " -> ", Effect.println (stateToString newState)]

/-- `TavoloSystem::changeSystemState`. -/
def TavoloSystem.changeSystemState (sys : TavoloSystem) (env : Env) (newState : SystemState) :
    TavoloSystem :=
  if sys.currentSystemState ≠ newState then
    let oldState := sys.currentSystemState
    let s1 := sys.handleStateExit oldState
    let s2 : TavoloSystem := { s1 with currentSystemState := newState }
    let s3 := s2.handleStateEntry env newState
    s3.emit (transitionLog oldState newState)
  else
    sys

/-- `TavoloSystem::checkThreshold`. -/
def TavoloSystem.checkThreshold (sys : TavoloSystem) (env : Env) : TavoloSystem :=
  let wasExceeded := sys.thresholdExceeded
  let s1 : TavoloSystem :=
    { sys with thresholdExceeded := decide (sys.currentWeight > sys.config.weightThreshold) }
  if s1.thresholdExceeded ≠ wasExceeded then
    if s1.thresholdExceeded then
      s1.changeSystemState env .THRESHOLD_EXCEEDED
    else if s1.currentSystemState = .THRESHOLD_EXCEEDED then
      s1.changeSystemState env .MEASURING
    else
      s1
  else
    s1

/-- `TavoloSystem::updateStateMachine`. -/
def TavoloSystem.updateStateMachine (sys : TavoloSystem) (env : Env) : TavoloSystem :=
  match sys.currentSystemState with
  | .INITIALIZING =>
    if sys.weightSensor.isReady && sys.ledActuator.isInitialized then
      sys.changeSystemState env .CALIBRATING
    else sys
  | .CALIBRATING =>
    if env.now > 5000 then sys.changeSystemState env .IDLE else sys
  | .IDLE =>
    if sys.weightSensor.hasNewData env then sys.changeSystemState env .MEASURING else sys
  | .MEASURING =>
    sys.checkThreshold env
  | .THRESHOLD_EXCEEDED =>
    if sys.currentWeight < sys.config.weightThreshold * (9 / 10) then
      sys.changeSystemState env .MEASURING
    else sys
  | .COMMUNICATION_ERROR =>
    if sys.edgeCommunication.isConnected env then sys.changeSystemState env .MEASURING
    else sys
  | .MAINTENANCE => sys

/-- `TavoloSystem::shouldReportWeight`. -/
def TavoloSystem.shouldReportWeight (sys : TavoloSystem) (env : Env) : Bool :=
  let currentTime := env.now
  if ulongSub currentTime sys.lastReportTime ≥ REPORT_INTERVAL then
    true
  else if |floatSub sys.currentWeight sys.lastReportedWeight| ≥ WEIGHT_REPORT_THRESHOLD then
    true
  else
    false

/-- `TavoloSystem::reportWeightData`. -/
def TavoloSystem.reportWeightData (sys : TavoloSystem) (env : Env) : TavoloSystem :=
  if sys.edgeCommunication.isConnected env then
    let data : WeightData :=
      { weight := sys.currentWeight, timestamp := env.now, deviceId := sys.deviceId }
    let r := sys.edgeCommunication.sendWeightData env data
    let s1 := sys.emit r.2
    if r.1 then
      { s1 with lastReportedWeight := s1.currentWeight, lastReportTime := env.nowAfterSend }
    else
      s1
  else
    sys

/-- `TavoloSystem::onWeightDataReceived`. -/
def TavoloSystem.onWeightDataReceived (sys : TavoloSystem) (env : Env) (weight : ℚ) :
    TavoloSystem :=
  let s1 : TavoloSystem := { sys with currentWeight := weight, lastMeasurementTime := env.now }
  let s2 := if s1.onWeightChangeCallback then s1.emit [Effect.weightChange weight] else s1
  if s2.shouldReportWeight env then s2.reportWeightData env else s2

/-- `TavoloSystem::setWeightThreshold`. -/
def TavoloSystem.setWeightThreshold (sys : TavoloSystem) (threshold : ℚ) : TavoloSystem :=
  let s1 : TavoloSystem := { sys with config := { sys.config with weightThreshold := threshold } }
  s1.emit [Effect.print "Weight threshold updated to: ", Effect.printFloat threshold,
    Effect.println "g"]

/-- `TavoloSystem::calibrate`. -/
def TavoloSystem.calibrate (sys : TavoloSystem) (env : Env) : TavoloSystem :=
  sys.changeSystemState env .CALIBRATING

/-- `TavoloSystem::startMeasurement`. -/
def TavoloSystem.startMeasurement (sys : TavoloSystem) (env : Env) : TavoloSystem :=
  if sys.currentSystemState = .IDLE then sys.changeSystemState env .MEASURING else sys

/-- `TavoloSystem::stopMeasurement`. -/
def TavoloSystem.stopMeasurement (sys : TavoloSystem) (env : Env) : TavoloSystem :=
  if sys.currentSystemState = .MEASURING ∨ sys.currentSystemState = .THRESHOLD_EXCEEDED then
    sys.changeSystemState env .IDLE
  else sys

/-- The four serial prints that open `TavoloSystem::onEdgeCommandReceived`. -/
def commandLog (command : EdgeCommand) : List Effect :=
  [Effect.print "Received edge command: ", Effect.print command.command, Effect.print " = ",
    Effect.println command.value]

/-- `TavoloSystem::onEdgeCommandReceived`. The conversion `String::toFloat` of the
Arduino core is the parameter `toFloat`. -/
def TavoloSystem.onEdgeCommandReceived (sys : TavoloSystem) (toFloat : String → ℚ) (env : Env)
    (command : EdgeCommand) : TavoloSystem :=
  let s0 := sys.emit (commandLog command)
  if command.command = "SET_THRESHOLD" then
    let newThreshold := toFloat command.value
    s0.setWeightThreshold newThreshold
  else if command.command = "LED_ON" then
    s0.ledActuator_setPattern env .ON
  else if command.command = "LED_OFF" then
    s0.ledActuator_setPattern env .OFF
  else if command.command = "TARE" then
    s0.tare env
  else if command.command = "CALIBRATE" then
    s0.calibrate env
  else if command.command = "MAINTENANCE" then
    s0.changeSystemState env .MAINTENANCE
  else if command.command = "RESUME" then
    s0.changeSystemState env .IDLE
  else
    s0

/-- `TavoloSystem::onConnectionStateChanged`. -/
def TavoloSystem.onConnectionStateChanged (sys : TavoloSystem) (env : Env)
    (state : ConnectionState) : TavoloSystem :=
  if state = .ERROR then
    if sys.currentSystemState ≠ .COMMUNICATION_ERROR then
      sys.changeSystemState env .COMMUNICATION_ERROR
    else sys
  else if state = .CONNECTED then
    if sys.currentSystemState = .COMMUNICATION_ERROR then
      sys.changeSystemState env .IDLE
    else sys
  else
    sys

/-! ## Construction (src/TavoloSystem.cpp, constructors of the components) -/

/-- `Device::Device`; `macAddress` is what `WiFi.macAddress()` returns. -/
def Device.construct (macAddress : String) : Device :=
  { deviceMacAddress := macAddress
    deviceId := ("TAVOLO_" ++ macAddress).replace ":" ""
    currentState := .INITIALIZING
    onStateChangeCallback := false }

/-- `WeightSensor::WeightSensor` with the member initialisers of the class. -/
def WeightSensor.construct (dataPin clockPin : Int) (calibrationFactor : ℚ) : WeightSensor :=
  { pin := dataPin
    initialized := false
    onDataCallback := false
    clockPin := clockPin
    calibrationFactor := calibrationFactor
    calibrated := false
    lastReadTime := 0
    lastWeight := 0
    weightThreshold := 1 }

/-- `LedActuator::LedActuator` with the member initialisers of the class. -/
def LedActuator.construct (ledPin : Int) : LedActuator :=
  { pin := ledPin
    initialized := false
    currentState := false
    onStateChangeCallback := false
    currentPattern := .OFF
    lastToggleTime := 0
    ledState := false
    brightness := 255
    fadeDirection := true }

/-- `DisplayManager::DisplayManager` with the member initialisers of the class. -/
def DisplayManager.construct : DisplayManager :=
  { currentMode := .BOOT
    lastUpdate := 0
    messageTimeout := 0
    needsUpdate := true
    line1Content := ""
    line2Content := ""
    line3Content := ""
    line4Content := "" }

/-- `EdgeCommunication::EdgeCommunication` with `setupTopics`. -/
def EdgeCommunication.construct (deviceId : String) : EdgeCommunication × List Effect :=
  let baseTopicName := deviceId.replace ":" "_"
  let weightTopic := "tavolo/" ++ baseTopicName ++ "/weight"
  let commandTopic := "tavolo/" ++ baseTopicName ++ "/command"
  let statusTopic := "tavolo/" ++ baseTopicName ++ "/status"
  ({ mqttServer := "broker.hivemq.com"
     mqttPort := 1883
     clientId := "tavolo_" ++ deviceId
     deviceId := deviceId
     weightTopic := weightTopic
     commandTopic := commandTopic
     statusTopic := statusTopic
     currentState := .DISCONNECTED
     lastConnectionAttempt := 0
     lastHeartbeat := 0
     onCommandCallback := false
     onConnectionStateCallback := false },
   [Effect.println "MQTT Topics configured:", Effect.println ("Weight: " ++ weightTopic),
     Effect.println ("Command: " ++ commandTopic), Effect.println ("Status: " ++ statusTopic)])

/-- `TavoloSystem::TavoloSystem` with `setupEventCallbacks` and the member initialisers
of the class. The LCD address goes to the LCD driver object only. -/
def TavoloSystem.construct (macAddress : String) (weightDataPin weightClockPin ledPin : Int) :
    TavoloSystem :=
  let device := Device.construct macAddress
  let config : SystemConfig :=
    { weightThreshold := 100, measurementInterval := 500, calibrationFactor := 42 / 100,
      autoTare := true }
  let edge := EdgeCommunication.construct device.deviceId
  { toDevice := device
    weightSensor :=
      { WeightSensor.construct weightDataPin weightClockPin config.calibrationFactor with
        onDataCallback := true }
    ledActuator := LedActuator.construct ledPin
    displayManager := DisplayManager.construct
    edgeCommunication :=
      { edge.1 with onCommandCallback := true, onConnectionStateCallback := true }
    currentSystemState := .INITIALIZING
    config := config
    currentWeight := 0
    lastReportedWeight := 0
    lastMeasurementTime := 0
    lastReportTime := 0
    thresholdExceeded := false
    onWeightChangeCallback := false
    onThresholdStateChangeCallback := false
    effects := edge.2 }

/-! ## The fields outside the entry and exit actions -/

/-- The fields of the system that no entry or exit action writes. -/
structure Core where
  currentSystemState : SystemState
  config : SystemConfig
  currentWeight : ℚ
  lastReportedWeight : ℚ
  lastMeasurementTime : Nat
  lastReportTime : Nat
  thresholdExceeded : Bool
  weightSensor : WeightSensor
  edgeCommunication : EdgeCommunication
  onWeightChangeCallback : Bool
  onThresholdStateChangeCallback : Bool

/-- The part of a system that entry and exit actions leave alone. -/
def TavoloSystem.core (s : TavoloSystem) : Core :=
  { currentSystemState := s.currentSystemState
    config := s.config
    currentWeight := s.currentWeight
    lastReportedWeight := s.lastReportedWeight
    lastMeasurementTime := s.lastMeasurementTime
    lastReportTime := s.lastReportTime
    thresholdExceeded := s.thresholdExceeded
    weightSensor := s.weightSensor
    edgeCommunication := s.edgeCommunication
    onWeightChangeCallback := s.onWeightChangeCallback
    onThresholdStateChangeCallback := s.onThresholdStateChangeCallback }

/-! ## One pass of `loop` (src/TavoloSystem.cpp and the `update` of each component) -/

/-- A message `mqttClient.loop()` hands to `mqttCallback`: the topic, the payload as
text, and what `deserializeJson` and the three field reads of `onMqttMessage` make of it
(the text of the error when parsing fails). -/
structure MqttMessage where
  topic : String
  payload : String
  parsed : Except String EdgeCommand

/-- Answers of the surroundings during one pass of `loop`, beyond those of `Env`. The
MQTT client is connected at the start of the pass as `mqttConnected` says, and from a
successful `mqttClient.connect` on it is connected. -/
structure LoopEnv extends Env where
  /-- The value `scale.is_ready()` returns. -/
  scaleReady : Bool
  /-- The value `scale.get_units(3)` returns. -/
  scaleUnits : ℚ
  /-- Whether `WiFi.status()` is `WL_CONNECTED`. -/
  wifiConnected : Bool
  /-- The value `mqttClient.connect(clientId)` returns. -/
  mqttConnectOk : Bool
  /-- The value `mqttClient.subscribe(commandTopic)` returns. -/
  mqttSubscribeOk : Bool
  /-- The value `mqttClient.state()` returns. -/
  mqttState : Int
  /-- The messages `mqttClient.loop()` delivers, in order. -/
  incoming : List MqttMessage

/-- `RECONNECT_INTERVAL` (src/EdgeCommunication.h). -/
def RECONNECT_INTERVAL : Nat := 5000

/-- `HEARTBEAT_INTERVAL` (src/EdgeCommunication.h). -/
def HEARTBEAT_INTERVAL : Nat := 30000

/-- `SLOW_BLINK_INTERVAL` (src/LedActuator.h). -/
def SLOW_BLINK_INTERVAL : Nat := 500

/-- `FAST_BLINK_INTERVAL` (src/LedActuator.h). -/
def FAST_BLINK_INTERVAL : Nat := 100

/-- `PULSE_INTERVAL` (src/LedActuator.h). -/
def PULSE_INTERVAL : Nat := 20

/-- `UPDATE_INTERVAL` (src/DisplayManager.h). -/
def UPDATE_INTERVAL : Nat := 200

/-- `WeightSensor::read`: the value returned and the serial output. -/
def WeightSensor.read (ws : WeightSensor) (env : LoopEnv) : ℚ × List Effect :=
  if !ws.initialized || !ws.calibrated then
    (0, [Effect.println "Warning: Weight sensor not properly initialized"])
  else if env.scaleReady then
    let weight := env.scaleUnits
    (if weight < 0 then 0 else weight, [])
  else
    (ws.lastWeight, [])

/-- `WeightSensor::shouldTriggerCallback`. -/
def WeightSensor.shouldTriggerCallback (ws : WeightSensor) (newWeight : ℚ) : Bool :=
  decide (|floatSub newWeight ws.lastWeight| ≥ ws.weightThreshold)

/-- `WeightSensor::update`, inside the system: `notifyDataReady` calls the registered
data callback, which is `onWeightDataReceived`. -/
def TavoloSystem.weightSensor_update (sys : TavoloSystem) (env : LoopEnv) : TavoloSystem :=
  let currentTime := env.now
  if ulongSub currentTime sys.weightSensor.lastReadTime ≥ READ_INTERVAL_MS then
    if sys.weightSensor.isReady && env.scaleReady then
      let r := sys.weightSensor.read env
      let newWeight := r.1
      let s1 := sys.emit r.2
      let s2 :=
        if s1.weightSensor.shouldTriggerCallback newWeight then
          let s3 : TavoloSystem :=
            { s1 with weightSensor := { s1.weightSensor with lastWeight := newWeight } }
          if s3.weightSensor.onDataCallback then s3.onWeightDataReceived env.toEnv newWeight
          else s3
        else s1
      { s2 with weightSensor := { s2.weightSensor with lastReadTime := currentTime } }
    else sys
  else sys

/-- `LedActuator::writeLedPWM`. -/
def LedActuator.writeLedPWM (led : LedActuator) (value : Int) : List Effect :=
  [Effect.analogWrite led.pin value]

/-- `LedActuator::updateBlinkPattern`. -/
def LedActuator.updateBlinkPattern (led : LedActuator) (env : Env) :
    LedActuator × List Effect :=
  let currentTime := env.now
  let interval :=
    if led.currentPattern = .SLOW_BLINK then SLOW_BLINK_INTERVAL else FAST_BLINK_INTERVAL
  if ulongSub currentTime led.lastToggleTime ≥ interval then
    let led1 : LedActuator := { led with ledState := !led.ledState }
    let r := led1.writeLed led1.ledState
    ({ r.1 with lastToggleTime := currentTime }, r.2)
  else
    (led, [])

/-- `LedActuator::updatePulsePattern`. -/
def LedActuator.updatePulsePattern (led : LedActuator) (env : Env) :
    LedActuator × List Effect :=
  let currentTime := env.now
  if ulongSub currentTime led.lastToggleTime ≥ PULSE_INTERVAL then
    let led1 : LedActuator :=
      if led.fadeDirection then
        let b := led.brightness + 5
        if b ≥ 255 then { led with brightness := 255, fadeDirection := false }
        else { led with brightness := b }
      else
        let b := led.brightness - 5
        if b ≤ 0 then { led with brightness := 0, fadeDirection := true }
        else { led with brightness := b }
    ({ led1 with lastToggleTime := currentTime }, led1.writeLedPWM led1.brightness)
  else
    (led, [])

/-- `LedActuator::update`. -/
def LedActuator.update (led : LedActuator) (env : Env) : LedActuator × List Effect :=
  if !led.initialized then (led, [])
  else
    match led.currentPattern with
    | .OFF => (led, [])
    | .ON => (led, [])
    | .SLOW_BLINK => led.updateBlinkPattern env
    | .FAST_BLINK => led.updateBlinkPattern env
    | .PULSE => led.updatePulsePattern env

/-- `DisplayManager::updateDisplay`. -/
def DisplayManager.updateDisplay (dm : DisplayManager) : List Effect :=
  [Effect.lcdPrint 0 dm.line1Content, Effect.lcdPrint 1 dm.line2Content,
    Effect.lcdPrint 2 dm.line3Content, Effect.lcdPrint 3 dm.line4Content]

/-- `DisplayManager::update`. -/
def DisplayManager.update (dm : DisplayManager) (env : Env) : DisplayManager × List Effect :=
  let currentTime := env.now
  let r1 : DisplayManager × List Effect :=
    if dm.messageTimeout > 0 ∧ currentTime ≥ dm.messageTimeout then
      ({ dm with messageTimeout := 0 } : DisplayManager).setMode .WEIGHT_DISPLAY
    else (dm, [])
  if r1.1.needsUpdate ∨ ulongSub currentTime r1.1.lastUpdate ≥ UPDATE_INTERVAL then
    ({ r1.1 with lastUpdate := currentTime, needsUpdate := false },
      r1.2 ++ r1.1.updateDisplay)
  else r1

/-- `DisplayManager::formatWeight`. The conversion `String(value, decimalPlaces)` of the
Arduino core is the parameter `formatFloat`. -/
def DisplayManager.formatWeight (formatFloat : ℚ → Nat → String) (weight : ℚ) : String :=
  if weight < 1000 then formatFloat weight 1 ++ " g"
  else formatFloat (weight / 1000) 2 ++ " kg"

/-- `DisplayManager::showWeightData` with `formatWeightDisplay`. -/
def DisplayManager.showWeightData (dm : DisplayManager) (formatFloat : ℚ → Nat → String)
    (weight : ℚ) (status : String) : DisplayManager × List Effect :=
  let dm1 : DisplayManager := { dm with
    line1Content := DisplayManager.centerText "TAVOLO WEIGHT" 20
    line2Content := DisplayManager.centerText (DisplayManager.formatWeight formatFloat weight) 20
    line3Content := DisplayManager.centerText ("Status: " ++ status) 20
    line4Content := DisplayManager.centerText "Connected to Edge" 20 }
  dm1.setMode .WEIGHT_DISPLAY

/-- The calls `ledActuator->update()` of `loop`, inside the system. -/
def TavoloSystem.ledActuator_update (sys : TavoloSystem) (env : Env) : TavoloSystem :=
  let r := sys.ledActuator.update env
  { sys with ledActuator := r.1, effects := sys.effects ++ r.2 }

/-- The call `displayManager->update()` of `loop`, inside the system. -/
def TavoloSystem.displayManager_update (sys : TavoloSystem) (env : Env) : TavoloSystem :=
  let r := sys.displayManager.update env
  { sys with displayManager := r.1, effects := sys.effects ++ r.2 }

/-- `EdgeCommunication::setConnectionState`, inside the system: the registered
connection-state callback is `onConnectionStateChanged`. -/
def TavoloSystem.edgeCommunication_setConnectionState (sys : TavoloSystem) (env : Env)
    (newState : ConnectionState) : TavoloSystem :=
  if sys.edgeCommunication.currentState ≠ newState then
    let name := match newState with
      | .DISCONNECTED => "DISCONNECTED"
      | .CONNECTING => "CONNECTING"
      | .CONNECTED => "CONNECTED"
      | .ERROR => "ERROR"
    let s1 : TavoloSystem :=
      { sys with
        edgeCommunication := { sys.edgeCommunication with currentState := newState }
        effects := sys.effects ++
          [Effect.print "Edge connection state changed to: ", Effect.println name] }
    if s1.edgeCommunication.onConnectionStateCallback then
      s1.onConnectionStateChanged env newState
    else s1
  else sys

/-- `EdgeCommunication::sendStatusUpdate`, inside the system; the returned flag is not
used by any caller. -/
def TavoloSystem.edgeCommunication_sendStatusUpdate (sys : TavoloSystem) (env : Env)
    (status : String) : TavoloSystem :=
  if !sys.edgeCommunication.isConnected env then sys
  else
    sys.emit [Effect.publishStatus sys.edgeCommunication.statusTopic
      sys.edgeCommunication.deviceId status env.now]

/-- `EdgeCommunication::sendHeartbeat`, inside the system. -/
def TavoloSystem.edgeCommunication_sendHeartbeat (sys : TavoloSystem) (env : Env) :
    TavoloSystem :=
  sys.emit [Effect.publishHeartbeat sys.edgeCommunication.statusTopic
    sys.edgeCommunication.deviceId env.now]

/-- `EdgeCommunication::connect`, inside the system: the system after the call and
whether the MQTT client is connected after it. -/
def TavoloSystem.edgeCommunication_connect (sys : TavoloSystem) (env : LoopEnv) :
    TavoloSystem × Bool :=
  if !env.wifiConnected then
    let s1 := sys.emit [Effect.println "WiFi not connected, cannot connect to MQTT"]
    (s1.edgeCommunication_setConnectionState env.toEnv .ERROR, env.mqttConnected)
  else
    let s1 := sys.edgeCommunication_setConnectionState env.toEnv .CONNECTING
    let s2 := s1.emit [Effect.print "Connecting to MQTT broker: ",
      Effect.println s1.edgeCommunication.mqttServer,
      Effect.mqttConnect s1.edgeCommunication.clientId]
    if env.mqttConnectOk then
      let online : Env := { env.toEnv with mqttConnected := true }
      let s3 := s2.emit [Effect.println "Connected to MQTT broker",
        Effect.mqttSubscribe s2.edgeCommunication.commandTopic]
      let s4 :=
        if env.mqttSubscribeOk then
          s3.emit [Effect.print "Subscribed to: ",
            Effect.println s3.edgeCommunication.commandTopic]
        else s3
      let s5 := s4.edgeCommunication_setConnectionState online .CONNECTED
      (s5.edgeCommunication_sendStatusUpdate online "CONNECTED", true)
    else
      let s3 := s2.emit [Effect.print "Failed to connect to MQTT. State: ",
        Effect.println (toString env.mqttState)]
      (s3.edgeCommunication_setConnectionState env.toEnv .ERROR, env.mqttConnected)

/-- `EdgeCommunication::onMqttMessage`, inside the system: the registered command
callback is `onEdgeCommandReceived`. -/
def TavoloSystem.edgeCommunication_onMqttMessage (sys : TavoloSystem) (toFloat : String → ℚ)
    (env : Env) (message : MqttMessage) : TavoloSystem :=
  let s1 := sys.emit [Effect.print "Received MQTT message on topic: ",
    Effect.println message.topic, Effect.print "Message: ", Effect.println message.payload]
  match message.parsed with
  | .error text => s1.emit [Effect.print "Failed to parse JSON: ", Effect.println text]
  | .ok command =>
    if s1.edgeCommunication.onCommandCallback then s1.onEdgeCommandReceived toFloat env command
    else s1

/-- `EdgeCommunication::update`, inside the system: the system after the call and whether
the MQTT client is connected after it. -/
def TavoloSystem.edgeCommunication_update (sys : TavoloSystem) (toFloat : String → ℚ)
    (env : LoopEnv) : TavoloSystem × Bool :=
  let currentTime := env.now
  if env.mqttConnected then
    let s1 := env.incoming.foldl
      (fun s message => s.edgeCommunication_onMqttMessage toFloat env.toEnv message) sys
    if ulongSub currentTime s1.edgeCommunication.lastHeartbeat ≥ HEARTBEAT_INTERVAL then
      let s2 := s1.edgeCommunication_sendHeartbeat env.toEnv
      ({ s2 with edgeCommunication :=
          { s2.edgeCommunication with lastHeartbeat := currentTime } }, true)
    else (s1, true)
  else
    let s1 := sys.edgeCommunication_setConnectionState env.toEnv .DISCONNECTED
    if ulongSub currentTime s1.edgeCommunication.lastConnectionAttempt ≥ RECONNECT_INTERVAL then
      let s2 := s1.emit [Effect.println "Attempting to reconnect to MQTT..."]
      let r := s2.edgeCommunication_connect env
      ({ r.1 with edgeCommunication :=
          { r.1.edgeCommunication with lastConnectionAttempt := currentTime } }, r.2)
    else (s1, false)

/-- `TavoloSystem::updateDisplay`. -/
def TavoloSystem.updateDisplay (sys : TavoloSystem) (formatFloat : ℚ → Nat → String) :
    TavoloSystem :=
  if sys.currentSystemState = .MEASURING ∨ sys.currentSystemState = .THRESHOLD_EXCEEDED ∨
      sys.currentSystemState = .IDLE then
    let status := if sys.thresholdExceeded then "OVER LIMIT" else "NORMAL"
    let r := sys.displayManager.showWeightData formatFloat sys.currentWeight status
    { sys with displayManager := r.1, effects := sys.effects ++ r.2 }
  else sys

/-- `TavoloSystem::loop`. `Device::loop`, `updateMeasurements` and `updateCommunication`
have empty bodies. From the adapter update on, the MQTT client is connected as that
update left it. -/
def TavoloSystem.loop (sys : TavoloSystem) (toFloat : String → ℚ)
    (formatFloat : ℚ → Nat → String) (env : LoopEnv) : TavoloSystem :=
  let s1 := sys.weightSensor_update env
  let s2 := s1.ledActuator_update env.toEnv
  let s3 := s2.displayManager_update env.toEnv
  let r := s3.edgeCommunication_update toFloat env
  let after : Env := { env.toEnv with mqttConnected := r.2 }
  let s4 := r.1.updateStateMachine after
  s4.updateDisplay formatFloat

/-! ## Events that drive the orchestrator -/

/-- What can happen to the orchestrator between two moments: a state-machine tick of
`loop`, one of the three callbacks wired in `setupEventCallbacks`, or a call of one of
its public operations. -/
inductive Event where
  /-- `updateStateMachine()` -/
  | tick (env : Env)
  /-- `onWeightDataReceived(weight)` -/
  | weightData (env : Env) (weight : ℚ)
  /-- `onEdgeCommandReceived(command)` -/
  | command (env : Env) (command : EdgeCommand)
  /-- `onConnectionStateChanged(state)` -/
  | connectionState (env : Env) (state : ConnectionState)
  /-- `startMeasurement()` -/
  | startMeasurement (env : Env)
  /-- `stopMeasurement()` -/
  | stopMeasurement (env : Env)
  /-- `calibrate()` -/
  | calibrate (env : Env)
  /-- `tare()` -/
  | tare (env : Env)
  /-- `setWeightThreshold(threshold)` -/
  | setWeightThreshold (threshold : ℚ)

/-- Whether the event is a state-machine tick or a sensor sample. -/
def Event.isTickOrSample : Event → Bool
  | .tick _ => true
  | .weightData _ _ => true
  | _ => false

/-- The system after one event. -/
def TavoloSystem.step (sys : TavoloSystem) (toFloat : String → ℚ) : Event → TavoloSystem
  | .tick env => sys.updateStateMachine env
  | .weightData env weight => sys.onWeightDataReceived env weight
  | .command env command => sys.onEdgeCommandReceived toFloat env command
  | .connectionState env state => sys.onConnectionStateChanged env state
  | .startMeasurement env => sys.startMeasurement env
  | .stopMeasurement env => sys.stopMeasurement env
  | .calibrate env => sys.calibrate env
  | .tare env => sys.tare env
  | .setWeightThreshold threshold => sys.setWeightThreshold threshold

/-- The system after a sequence of events, the first of the list first. -/
def TavoloSystem.run (sys : TavoloSystem) (toFloat : String → ℚ) (events : List Event) :
    TavoloSystem :=
  events.foldl (fun s ev => s.step toFloat ev) sys

/-! ## The program around the orchestrator -/

/-- The connection-state callback is registered, and while the system is in
`COMMUNICATION_ERROR` the adapter is not in `CONNECTED`. -/
def TavoloSystem.errorMeansNotConnected (sys : TavoloSystem) : Prop :=
  sys.edgeCommunication.onConnectionStateCallback = true ∧
  (sys.currentSystemState = .COMMUNICATION_ERROR →
    sys.edgeCommunication.currentState ≠ .CONNECTED)

/-! ## Reading the effects -/

/-- The weight messages published, in order. -/
def weightPublishes (es : List Effect) : List WeightData :=
  es.filterMap fun e =>
    match e with
    | .publishWeight _ data => some data
    | _ => none

/-- The values passed to the threshold-state-changed callback, in order. -/
def thresholdEvents (es : List Effect) : List Bool :=
  es.filterMap fun e =>
    match e with
    | .thresholdStateChange exceeded => some exceeded
    | _ => none

/-- The threshold events expected of a change of the system state from `old` to `new`:
`false` on leaving `THRESHOLD_EXCEEDED`, `true` on entering it, nothing otherwise (in
particular nothing when the state stays what it was). -/
def thresholdEventsOfChange (old new : SystemState) : List Bool :=
  (if old = .THRESHOLD_EXCEEDED ∧ new ≠ .THRESHOLD_EXCEEDED then [false] else []) ++
  (if new = .THRESHOLD_EXCEEDED ∧ old ≠ .THRESHOLD_EXCEEDED then [true] else [])

/-- The reporting memory of `b` is that of `a`: the same last reported weight, the same
last report time, and the same weight messages published so far. -/
def SameReports (a b : TavoloSystem) : Prop :=
  b.lastReportedWeight = a.lastReportedWeight ∧ b.lastReportTime = a.lastReportTime ∧
    weightPublishes b.effects = weightPublishes a.effects

/-- Whether `weightSensor->update()` hands a sample to the data callback in this pass:
the read interval has elapsed, the sensor and the HX711 are ready, the reading differs
from the last delivered one by the notification threshold, and a callback is
registered. -/
def TavoloSystem.sampleDelivered (sys : TavoloSystem) (env : LoopEnv) : Bool :=
  decide (ulongSub env.now sys.weightSensor.lastReadTime ≥ READ_INTERVAL_MS) &&
    (sys.weightSensor.isReady && env.scaleReady) &&
    sys.weightSensor.shouldTriggerCallback (sys.weightSensor.read env).1 &&
    sys.weightSensor.onDataCallback

/-- The calls of `WeightSensor::tare` recorded in the effects, in order: `true` for a call
that tared the HX711 (it prints "Performing tare..." first) and `false` for a call refused
because the sensor was not initialised (it prints the error line instead). -/
def sensorTares (es : List Effect) : List Bool :=
  es.filterMap fun e =>
    match e with
    | .println text =>
      if text = "Performing tare..." then some true
      else if text = "Error: Cannot tare - sensor not initialized" then some false
      else none
    | _ => none

/-! ## A concrete system -/

/-- A system as the constructor leaves it, for a board with MAC address
24:6F:28:AA:BB:CC, the load cell on pins 4 and 5 and the LED on pin 2. -/
def exampleSystem : TavoloSystem :=
  TavoloSystem.construct "24:6F:28:AA:BB:CC" 4 5 2

/-- A call at 6000 ms, MQTT client connected, publishes succeed. -/
def exampleEnv : Env :=
  { millis := 6000, mqttConnected := true, publishOk := true, publishDelay := 0 }

/-- The example system in `MEASURING` (threshold 100, flag false, weight 0). -/
def exampleMeasuring : TavoloSystem :=
  { exampleSystem with currentSystemState := .MEASURING }

/-- The example system in the given state with weight 95, inside the dead-band of its
threshold 100, and the `thresholdExceeded` flag set. -/
def exampleDeadBand (state : SystemState) : TavoloSystem :=
  { exampleSystem with currentSystemState := state, currentWeight := 95,
                       thresholdExceeded := true }

/-- The example system in `IDLE` with the sensor begun and last read at 5950 ms. -/
def exampleIdle : TavoloSystem :=
  { exampleSystem with
    currentSystemState := .IDLE
    weightSensor := { exampleSystem.weightSensor with
      initialized := true, calibrated := true, lastReadTime := 5950 } }

/-- The example system in `COMMUNICATION_ERROR` while the adapter is in `CONNECTED`. -/
def exampleCommError : TavoloSystem :=
  { exampleSystem with
    currentSystemState := .COMMUNICATION_ERROR
    edgeCommunication := { exampleSystem.edgeCommunication with currentState := .CONNECTED } }

/-- The example system in `MAINTENANCE`. -/
def exampleMaintenance : TavoloSystem :=
  { exampleSystem with currentSystemState := .MAINTENANCE }

/-- A stand-in for `String::toFloat` that knows the text 200. -/
def exampleToFloat (text : String) : ℚ :=
  if text = "200" then 200 else 0

/-- A command with the given tag and value, stamped 6000 ms. -/
def exampleCommand (tag value : String) : EdgeCommand :=
  { command := tag, value := value, timestamp := 6000 }

/-- The example system in `MEASURING` with weight 2, last report of weight 0 at
4294963296 ms (4000 ms before the 32-bit clock wraps), adapter in `CONNECTED`. -/
def exampleReporting : TavoloSystem :=
  { exampleSystem with
    currentSystemState := .MEASURING
    currentWeight := 2
    lastReportedWeight := 0
    lastReportTime := 4294963296
    edgeCommunication := { exampleSystem.edgeCommunication with currentState := .CONNECTED } }

/-- A call 100 ms after the 32-bit clock has wrapped, MQTT client connected, publishes
succeed. -/
def exampleEnvWrapped : Env :=
  { millis := 4294967396, mqttConnected := true, publishOk := true, publishDelay := 0 }

/-- A call 2000 ms after the 32-bit clock has wrapped, MQTT client connected, publishes
succeed. -/
def exampleEnvLate : Env :=
  { millis := 4294969296, mqttConnected := true, publishOk := true, publishDelay := 0 }

/-- A call at 6000 ms with the MQTT client disconnected. -/
def exampleEnvOffline : Env :=
  { millis := 6000, mqttConnected := false, publishOk := false, publishDelay := 0 }

/-- The example system as constructed (nothing reported yet: last reported weight 0 at
time 0), in `MEASURING`, with the adapter in `CONNECTED`. -/
def exampleConnected : TavoloSystem :=
  { exampleSystem with
    currentSystemState := .MEASURING
    edgeCommunication := { exampleSystem.edgeCommunication with currentState := .CONNECTED } }

/-- A call at the given clock value, MQTT client connected, publishes succeed within the
same millisecond. -/
def onlineAt (millis : Nat) : Env :=
  { millis := millis, mqttConnected := true, publishOk := true, publishDelay := 0 }

/-- The example system in `CALIBRATING`. -/
def exampleCalibrating : TavoloSystem :=
  { exampleSystem with currentSystemState := .CALIBRATING }

/-- The example system in `MEASURING` with a threshold-state-changed callback
registered. -/
def exampleWatched : TavoloSystem :=
  { exampleSystem with currentSystemState := .MEASURING, onThresholdStateChangeCallback := true }

/-- A stand-in for `String(value, decimalPlaces)` that writes the integer part only. -/
def exampleFormatFloat (value : ℚ) (_decimalPlaces : Nat) : String :=
  toString value.floor

/-- A pass of `loop` at 6050 ms: MQTT client connected, publishes succeed, no message
arrives, and the HX711 has no conversion ready. -/
def exampleLoopEnv : LoopEnv :=
  { millis := 6050, mqttConnected := true, publishOk := true, publishDelay := 0,
    scaleReady := false,
    scaleUnits := 60, wifiConnected := true, mqttConnectOk := true, mqttSubscribeOk := true,
    mqttState := 0, incoming := [] }

/-- The pass of `exampleLoopEnv` with a conversion of 60 ready in the HX711. -/
def exampleLoopEnvReady : LoopEnv :=
  { exampleLoopEnv with scaleReady := true }

/-- The example system with the adapter in `CONNECTED`, the sensor begun, a weight of 50
measured and nothing reported yet. -/
def examplePending : TavoloSystem :=
  { exampleConnected with
    currentWeight := 50
    weightSensor := { exampleConnected.weightSensor with
      initialized := true, calibrated := true, lastWeight := 50 } }

/-- The example system in `MEASURING` with weight 80, below 0.9 times its threshold 100. -/
def exampleRelaxing : TavoloSystem :=
  { exampleSystem with currentSystemState := .MEASURING, currentWeight := 80 }

/-- The pass of `exampleLoopEnv` with a conversion of 0.5 ready in the HX711. -/
def exampleQuietRead : LoopEnv :=
  { exampleLoopEnv with scaleReady := true, scaleUnits := 1 / 2 }

/-- The example system in `MEASURING` with `autoTare` switched off. -/
def exampleManualTare : TavoloSystem :=
  { exampleSystem with
    currentSystemState := .MEASURING
    config := { exampleSystem.config with autoTare := false } }

/-- The example system with the adapter in `CONNECTED`, the `float` 5.00000048 (which is
5 + 2^(-21)) as current weight and the `float` 6.00000021e-07 (which is 10555312 * 2^(-44))
as last reported weight, reported at 6000 ms. -/
def exampleRounding : TavoloSystem :=
  { exampleConnected with
    currentWeight := 10485761 / 2097152
    lastReportedWeight := 659707 / 1099511627776
    lastReportTime := 6000 }

/-- A call at the given clock value, MQTT client connected, publishes succeed and take
`delay` milliseconds. -/
def sendingAt (millis delay : Nat) : Env :=
  { millis := millis, mqttConnected := true, publishOk := true, publishDelay := delay }

/-! ## Rounding to `float` -/

/-- An integer rounds to itself. -/
theorem roundHalfEven_intCast (n : ℤ) : roundHalfEven (n : ℚ) = n := by
  unfold roundHalfEven
  simp

/-- A value less than half a unit above an integer rounds down to it. -/
theorem roundHalfEven_of_lt_half (x : ℚ) (f : ℤ) (h1 : (f : ℚ) ≤ x) (h2 : x - f < 1 / 2) :
    roundHalfEven x = f := by
  have hf : ⌊x⌋ = f := Int.floor_eq_iff.mpr ⟨h1, by linarith⟩
  unfold roundHalfEven
  simp only [hf]
  rw [if_pos h2]

/-- A value more than half a unit above an integer and below the next rounds up. -/
theorem roundHalfEven_of_gt_half (x : ℚ) (f : ℤ) (h1 : 1 / 2 < x - f) (h2 : x < f + 1) :
    roundHalfEven x = f + 1 := by
  have hf : ⌊x⌋ = f := Int.floor_eq_iff.mpr ⟨by linarith, h2⟩
  unfold roundHalfEven
  simp only [hf]
  rw [if_neg (by linarith), if_pos h1]

/-- The binade of a value that lies between two consecutive powers of two. -/
theorem log_two_eq (q : ℚ) (e : ℤ) (h1 : (2 : ℚ) ^ e ≤ q) (h2 : q < 2 ^ (e + 1)) :
    Int.log 2 q = e := by
  have hq : 0 < q := lt_of_lt_of_le (by positivity) h1
  have a : e ≤ Int.log 2 q := (Int.zpow_le_iff_le_log (by norm_num) hq).mp (by exact_mod_cast h1)
  have b : Int.log 2 q < e + 1 := (Int.lt_zpow_iff_log_lt (by norm_num) hq).mp (by exact_mod_cast h2)
  omega

/-- Rounding to `float` of a value in the binade `e ≥ -126`, from the rounding of its
quotient by the unit in the last place. -/
theorem roundBinary32_eq (q : ℚ) (e m : ℤ) (h1 : (2 : ℚ) ^ e ≤ |q|) (h2 : |q| < 2 ^ (e + 1))
    (he : -126 ≤ e) (hm : roundHalfEven (q / 2 ^ (e - 23)) = m) :
    roundBinary32 q = m * 2 ^ (e - 23) := by
  have hq : q ≠ 0 := by
    intro h0
    rw [h0, abs_zero] at h1
    exact absurd h1 (not_le.mpr (by positivity))
  unfold roundBinary32
  rw [if_neg hq]
  dsimp only
  rw [log_two_eq |q| e h1 h2, max_eq_left he, hm]

/-- A multiple of the unit in the last place of its binade is a `float`: it rounds to
itself. -/
theorem roundBinary32_of_multiple (q : ℚ) (e m : ℤ) (h1 : (2 : ℚ) ^ e ≤ |q|)
    (h2 : |q| < 2 ^ (e + 1)) (he : -126 ≤ e) (hm : q = m * 2 ^ (e - 23)) :
    roundBinary32 q = q := by
  have hu : (2 : ℚ) ^ (e - 23) ≠ 0 := by positivity
  rw [roundBinary32_eq q e m h1 h2 he, ← hm]
  rw [hm, mul_div_assoc, div_self hu, mul_one]
  exact roundHalfEven_intCast m

/-- Rounding does not go below an integer that is below the value. -/
theorem roundHalfEven_ge_of_intCast_le (x : ℚ) (k : ℤ) (h : (k : ℚ) ≤ x) :
    k ≤ roundHalfEven x := by
  have hf : k ≤ ⌊x⌋ := Int.le_floor.mpr h
  unfold roundHalfEven
  dsimp only
  split_ifs <;> omega

/-- Rounding does not go above an integer that is above the value. -/
theorem roundHalfEven_le_of_le_intCast (x : ℚ) (k : ℤ) (h : x ≤ (k : ℚ)) :
    roundHalfEven x ≤ k := by
  have hfx : (⌊x⌋ : ℚ) ≤ x := Int.floor_le x
  unfold roundHalfEven
  dsimp only
  by_cases hr : x - ⌊x⌋ < 1 / 2
  · rw [if_pos hr]
    exact_mod_cast hfx.trans h
  · have h1 : (⌊x⌋ : ℚ) < k := by linarith
    have h2 : ⌊x⌋ < k := by exact_mod_cast h1
    rw [if_neg hr]
    split_ifs <;> omega

/-- Rounding to `float` does not take a value of absolute value 5 or more below 5. -/
theorem five_le_abs_roundBinary32 (x : ℚ) (h : 5 ≤ |x|) : 5 ≤ |roundBinary32 x| := by
  have hx : x ≠ 0 := by
    intro h0
    rw [h0, abs_zero] at h
    norm_num at h
  have hpos : 0 < |x| := abs_pos.mpr hx
  have hlog : 2 ≤ Int.log 2 |x| :=
    (Int.zpow_le_iff_le_log (by norm_num) hpos).mp (by norm_num; linarith)
  have hle : (2 : ℚ) ^ Int.log 2 |x| ≤ |x| := by
    exact_mod_cast Int.zpow_log_le_self (b := 2) (by norm_num) hpos
  unfold roundBinary32
  rw [if_neg hx]
  dsimp only
  rw [max_eq_left (by omega)]
  generalize Int.log 2 |x| = e at hlog hle
  have hupos : (0 : ℚ) < 2 ^ (e - 23) := by positivity
  rw [abs_mul, abs_of_pos hupos]
  obtain ⟨K, hK1, hK2⟩ : ∃ K : ℤ, 5 ≤ (K : ℚ) * 2 ^ (e - 23) ∧ (K : ℚ) * 2 ^ (e - 23) ≤ |x| := by
    rcases eq_or_lt_of_le hlog with h2 | h3
    · refine ⟨10485760, ?_, ?_⟩
      · rw [← h2]
        norm_num
      · rw [← h2]
        norm_num
        exact h
    · refine ⟨8388608, ?_, ?_⟩
      · have h8 : (2 : ℚ) ^ (3 : ℤ) ≤ 2 ^ e := zpow_le_zpow_right₀ (by norm_num) (by omega)
        have he : (8388608 : ℚ) * 2 ^ (e - 23) = 2 ^ e := by
          rw [zpow_sub₀ (by norm_num)]
          norm_num
          field_simp
        push_cast
        rw [he]
        norm_num at h8
        linarith
      · have he : (8388608 : ℚ) * 2 ^ (e - 23) = 2 ^ e := by
          rw [zpow_sub₀ (by norm_num)]
          norm_num
          field_simp
        push_cast
        rw [he]
        exact hle
  have hr : (K : ℚ) ≤ |((roundHalfEven (x / 2 ^ (e - 23)) : ℤ) : ℚ)| := by
    rcases le_or_lt 0 x with hx0 | hx0
    · rw [abs_of_nonneg hx0] at hK2
      have h1 : (K : ℚ) ≤ x / 2 ^ (e - 23) := (le_div_iff₀ hupos).mpr hK2
      have h2 := roundHalfEven_ge_of_intCast_le _ _ h1
      have h3 : (K : ℚ) ≤ ((roundHalfEven (x / 2 ^ (e - 23)) : ℤ) : ℚ) := by exact_mod_cast h2
      exact h3.trans (le_abs_self _)
    · rw [abs_of_neg hx0] at hK2
      have h1 : x / 2 ^ (e - 23) ≤ ((-K : ℤ) : ℚ) := by
        rw [div_le_iff₀ hupos]
        push_cast
        linarith
      have h2 := roundHalfEven_le_of_le_intCast _ _ h1
      have h3 : (K : ℚ) ≤ -((roundHalfEven (x / 2 ^ (e - 23)) : ℤ) : ℚ) := by
        have : K ≤ -roundHalfEven (x / 2 ^ (e - 23)) := by omega
        exact_mod_cast this
      exact h3.trans (neg_le_abs _)
  calc (5 : ℚ) ≤ (K : ℚ) * 2 ^ (e - 23) := hK1
    _ ≤ |((roundHalfEven (x / 2 ^ (e - 23)) : ℤ) : ℚ)| * 2 ^ (e - 23) :=
        mul_le_mul_of_nonneg_right hr hupos.le

/-- Two values at least 5 apart: their `float` difference is at least 5 in absolute
value. -/
theorem five_le_abs_floatSub (a b : ℚ) (h : 5 ≤ |a - b|) : 5 ≤ |floatSub a b| :=
  five_le_abs_roundBinary32 (a - b) h

/-- The values 2 and -2 are `float` values. -/
theorem roundBinary32_two : roundBinary32 2 = 2 ∧ roundBinary32 (-2) = -2 := by
  constructor
  · exact roundBinary32_of_multiple 2 1 8388608 (by norm_num) (by norm_num) (by norm_num)
      (by norm_num)
  · exact roundBinary32_of_multiple (-2) 1 (-8388608) (by norm_num) (by norm_num) (by norm_num)
      (by norm_num)

/-- The values 4 and 10 are `float` values. -/
theorem roundBinary32_four_ten : roundBinary32 4 = 4 ∧ roundBinary32 10 = 10 := by
  constructor
  · exact roundBinary32_of_multiple 4 2 8388608 (by norm_num) (by norm_num) (by norm_num)
      (by norm_num)
  · exact roundBinary32_of_multiple 10 3 10485760 (by norm_num) (by norm_num) (by norm_num)
      (by norm_num)

/-- The value 1/2 is a `float` value. -/
theorem roundBinary32_half : roundBinary32 (1 / 2) = 1 / 2 :=
  roundBinary32_of_multiple (1 / 2) (-1) 8388608 (by norm_num [abs_of_pos])
    (by norm_num [abs_of_pos]) (by norm_num) (by norm_num)

/-- Subtracting 0 from a `float` gives that `float`. -/
theorem floatSub_zero_right (a : ℚ) (h : roundBinary32 a = a) : floatSub a 0 = a := by
  unfold floatSub
  rw [sub_zero, h]

/-- Two values whose difference is 2 or -2: the `float` difference is that difference. -/
theorem floatSub_of_abs_eq_two (a b : ℚ) (h : |a - b| = 2) : |floatSub a b| = 2 := by
  unfold floatSub
  rcases abs_eq (by norm_num : (0 : ℚ) ≤ 2) |>.mp h with h2 | h2
  · rw [h2, roundBinary32_two.1]
    norm_num
  · rw [h2, roundBinary32_two.2]
    norm_num

/-! ## Framing lemmas -/

section Frame

variable (sys : TavoloSystem) (env : Env)

@[simp] theorem emit_currentSystemState (es : List Effect) :
    (sys.emit es).currentSystemState = sys.currentSystemState := rfl

@[simp] theorem emit_thresholdExceeded (es : List Effect) :
    (sys.emit es).thresholdExceeded = sys.thresholdExceeded := rfl

@[simp] theorem emit_config (es : List Effect) : (sys.emit es).config = sys.config := rfl

@[simp] theorem emit_currentWeight (es : List Effect) :
    (sys.emit es).currentWeight = sys.currentWeight := rfl

@[simp] theorem emit_edgeCommunication (es : List Effect) :
    (sys.emit es).edgeCommunication = sys.edgeCommunication := rfl

@[simp] theorem emit_weightSensor (es : List Effect) :
    (sys.emit es).weightSensor = sys.weightSensor := rfl

theorem handleStateExit_core (state : SystemState) :
    (sys.handleStateExit state).core = sys.core := by
  cases state <;> simp [TavoloSystem.handleStateExit]
  split <;> rfl

theorem handleStateEntry_core (state : SystemState) :
    (sys.handleStateEntry env state).core = sys.core := by
  cases state <;>
    simp only [TavoloSystem.handleStateEntry, TavoloSystem.ledActuator_setPattern,
      TavoloSystem.setState, TavoloSystem.displayManager_showStatusMessage,
      TavoloSystem.displayManager_showErrorMessage, TavoloSystem.tare,
      TavoloSystem.weightSensor_tare, WeightSensor.tare] <;>
    first
      | rfl
      | (split <;> first | rfl | (split <;> rfl))

theorem changeSystemState_core (newState : SystemState) :
    (sys.changeSystemState env newState).core =
      { sys.core with currentSystemState := newState } := by
  unfold TavoloSystem.changeSystemState
  split
  · have h1 := handleStateExit_core sys sys.currentSystemState
    have h2 := handleStateEntry_core
      { sys.handleStateExit sys.currentSystemState with currentSystemState := newState }
      env newState
    show (TavoloSystem.handleStateEntry _ env newState).core = _
    rw [h2, ← h1]
    rfl
  · rename_i h
    have h' : sys.currentSystemState = newState := not_not.mp h
    rw [← h']
    rfl

@[simp] theorem changeSystemState_currentSystemState (newState : SystemState) :
    (sys.changeSystemState env newState).currentSystemState = newState :=
  congrArg Core.currentSystemState (changeSystemState_core sys env newState)

@[simp] theorem changeSystemState_config (newState : SystemState) :
    (sys.changeSystemState env newState).config = sys.config :=
  congrArg Core.config (changeSystemState_core sys env newState)

@[simp] theorem changeSystemState_currentWeight (newState : SystemState) :
    (sys.changeSystemState env newState).currentWeight = sys.currentWeight :=
  congrArg Core.currentWeight (changeSystemState_core sys env newState)

@[simp] theorem changeSystemState_thresholdExceeded (newState : SystemState) :
    (sys.changeSystemState env newState).thresholdExceeded = sys.thresholdExceeded :=
  congrArg Core.thresholdExceeded (changeSystemState_core sys env newState)

@[simp] theorem changeSystemState_weightSensor (newState : SystemState) :
    (sys.changeSystemState env newState).weightSensor = sys.weightSensor :=
  congrArg Core.weightSensor (changeSystemState_core sys env newState)

theorem onWeightDataReceived_frame (weight : ℚ) :
    (sys.onWeightDataReceived env weight).currentSystemState = sys.currentSystemState ∧
    (sys.onWeightDataReceived env weight).config = sys.config ∧
    (sys.onWeightDataReceived env weight).currentWeight = weight ∧
    (sys.onWeightDataReceived env weight).thresholdExceeded = sys.thresholdExceeded ∧
    (sys.onWeightDataReceived env weight).weightSensor = sys.weightSensor ∧
    (sys.onWeightDataReceived env weight).edgeCommunication = sys.edgeCommunication := by
  unfold TavoloSystem.onWeightDataReceived TavoloSystem.reportWeightData
  dsimp only
  repeat' split
  all_goals exact ⟨rfl, rfl, rfl, rfl, rfl, rfl⟩

@[simp] theorem onWeightDataReceived_currentSystemState (weight : ℚ) :
    (sys.onWeightDataReceived env weight).currentSystemState = sys.currentSystemState :=
  (onWeightDataReceived_frame sys env weight).1

@[simp] theorem onWeightDataReceived_config (weight : ℚ) :
    (sys.onWeightDataReceived env weight).config = sys.config :=
  (onWeightDataReceived_frame sys env weight).2.1

@[simp] theorem onWeightDataReceived_currentWeight (weight : ℚ) :
    (sys.onWeightDataReceived env weight).currentWeight = weight :=
  (onWeightDataReceived_frame sys env weight).2.2.1

@[simp] theorem onWeightDataReceived_thresholdExceeded (weight : ℚ) :
    (sys.onWeightDataReceived env weight).thresholdExceeded = sys.thresholdExceeded :=
  (onWeightDataReceived_frame sys env weight).2.2.2.1

@[simp] theorem onWeightDataReceived_weightSensor (weight : ℚ) :
    (sys.onWeightDataReceived env weight).weightSensor = sys.weightSensor :=
  (onWeightDataReceived_frame sys env weight).2.2.2.2.1

@[simp] theorem onWeightDataReceived_edgeCommunication (weight : ℚ) :
    (sys.onWeightDataReceived env weight).edgeCommunication = sys.edgeCommunication :=
  (onWeightDataReceived_frame sys env weight).2.2.2.2.2

theorem checkThreshold_frame :
    (sys.checkThreshold env).config = sys.config ∧
    (sys.checkThreshold env).currentWeight = sys.currentWeight ∧
    (sys.checkThreshold env).thresholdExceeded =
      decide (sys.currentWeight > sys.config.weightThreshold) := by
  unfold TavoloSystem.checkThreshold
  dsimp only
  repeat' split
  all_goals simp

/-- One tick in `MEASURING`: the state moves to `THRESHOLD_EXCEEDED` exactly when the
weight is above the threshold and the stored flag was false. -/
theorem updateStateMachine_measuring (h : sys.currentSystemState = .MEASURING) :
    (sys.updateStateMachine env).currentSystemState =
      (if sys.currentWeight > sys.config.weightThreshold ∧ sys.thresholdExceeded = false
        then SystemState.THRESHOLD_EXCEEDED else SystemState.MEASURING) ∧
    (sys.updateStateMachine env).config = sys.config ∧
    (sys.updateStateMachine env).currentWeight = sys.currentWeight ∧
    (sys.updateStateMachine env).thresholdExceeded =
      decide (sys.currentWeight > sys.config.weightThreshold) := by
  have hu : sys.updateStateMachine env = sys.checkThreshold env := by
    unfold TavoloSystem.updateStateMachine
    rw [h]
  rw [hu]
  refine ⟨?_, checkThreshold_frame sys env⟩
  unfold TavoloSystem.checkThreshold
  dsimp only
  by_cases hw : sys.currentWeight > sys.config.weightThreshold <;>
    cases hf : sys.thresholdExceeded <;> simp [hw, hf, h]

/-- One tick in `THRESHOLD_EXCEEDED`: the state moves to `MEASURING` exactly when the
weight is below nine tenths of the threshold. -/
theorem updateStateMachine_exceeded (h : sys.currentSystemState = .THRESHOLD_EXCEEDED) :
    (sys.updateStateMachine env).currentSystemState =
      (if sys.currentWeight < sys.config.weightThreshold * (9 / 10)
        then SystemState.MEASURING else SystemState.THRESHOLD_EXCEEDED) ∧
    (sys.updateStateMachine env).config = sys.config ∧
    (sys.updateStateMachine env).currentWeight = sys.currentWeight ∧
    (sys.updateStateMachine env).thresholdExceeded = sys.thresholdExceeded := by
  unfold TavoloSystem.updateStateMachine
  rw [h]
  dsimp only
  split <;> simp [h]

theorem updateStateMachine_idle (h : sys.currentSystemState = .IDLE) :
    (sys.updateStateMachine env).currentSystemState =
      (if sys.weightSensor.hasNewData env then SystemState.MEASURING else SystemState.IDLE) ∧
    (sys.updateStateMachine env).config = sys.config ∧
    (sys.updateStateMachine env).currentWeight = sys.currentWeight ∧
    (sys.updateStateMachine env).thresholdExceeded = sys.thresholdExceeded := by
  unfold TavoloSystem.updateStateMachine
  rw [h]
  dsimp only
  split <;> simp [h]

theorem updateStateMachine_communication_error
    (h : sys.currentSystemState = .COMMUNICATION_ERROR) :
    (sys.updateStateMachine env).currentSystemState =
      (if sys.edgeCommunication.isConnected env then SystemState.MEASURING
        else SystemState.COMMUNICATION_ERROR) := by
  unfold TavoloSystem.updateStateMachine
  rw [h]
  dsimp only
  split <;> simp [h]

theorem updateStateMachine_maintenance (h : sys.currentSystemState = .MAINTENANCE) :
    sys.updateStateMachine env = sys := by
  unfold TavoloSystem.updateStateMachine
  rw [h]

/-- The system state after a command, by tag. -/
theorem onEdgeCommandReceived_currentSystemState (toFloat : String → ℚ) (cmd : EdgeCommand) :
    (sys.onEdgeCommandReceived toFloat env cmd).currentSystemState =
      if cmd.command = "CALIBRATE" then SystemState.CALIBRATING
      else if cmd.command = "MAINTENANCE" then SystemState.MAINTENANCE
      else if cmd.command = "RESUME" then SystemState.IDLE
      else sys.currentSystemState := by
  unfold TavoloSystem.onEdgeCommandReceived
  dsimp only
  by_cases h1 : cmd.command = "SET_THRESHOLD"
  · rw [if_pos h1]
    simp [h1]
    rfl
  rw [if_neg h1]
  by_cases h2 : cmd.command = "LED_ON"
  · rw [if_pos h2]
    simp [h2]
    rfl
  rw [if_neg h2]
  by_cases h3 : cmd.command = "LED_OFF"
  · rw [if_pos h3]
    simp [h3]
    rfl
  rw [if_neg h3]
  by_cases h4 : cmd.command = "TARE"
  · rw [if_pos h4]
    simp [h4]
    rfl
  rw [if_neg h4]
  by_cases h5 : cmd.command = "CALIBRATE"
  · rw [if_pos h5, if_pos h5]
    exact changeSystemState_currentSystemState _ _ _
  rw [if_neg h5, if_neg h5]
  by_cases h6 : cmd.command = "MAINTENANCE"
  · rw [if_pos h6, if_pos h6]
    exact changeSystemState_currentSystemState _ _ _
  rw [if_neg h6, if_neg h6]
  by_cases h7 : cmd.command = "RESUME"
  · rw [if_pos h7, if_pos h7]
    exact changeSystemState_currentSystemState _ _ _
  rw [if_neg h7, if_neg h7]
  rfl

/-- The command `SET_THRESHOLD` is the receipt log followed by `setWeightThreshold`. -/
theorem onEdgeCommandReceived_set_threshold (toFloat : String → ℚ) (cmd : EdgeCommand)
    (h : cmd.command = "SET_THRESHOLD") :
    sys.onEdgeCommandReceived toFloat env cmd =
      (sys.emit (commandLog cmd)).setWeightThreshold (toFloat cmd.value) := by
  unfold TavoloSystem.onEdgeCommandReceived
  dsimp only
  rw [if_pos h]

/-- A transition does not read the effects sent so far: it appends to them. -/
theorem changeSystemState_effects_prefix (X : SystemState) (p : List Effect) :
    ({ sys with effects := p } : TavoloSystem).changeSystemState env X =
      { ({ sys with effects := [] } : TavoloSystem).changeSystemState env X with
        effects := p ++
          (({ sys with effects := [] } : TavoloSystem).changeSystemState env X).effects } := by
  obtain ⟨dev, ws, led, dm, ec, S, cfg, cw, lrw, lmt, lrt, te, cb1, cb2, es⟩ := sys
  by_cases h : S = X
  · subst h
    simp [TavoloSystem.changeSystemState]
  · cases X <;> cases S <;> first
    | exact absurd rfl h
    | (simp [TavoloSystem.changeSystemState, TavoloSystem.handleStateExit,
        TavoloSystem.handleStateEntry, TavoloSystem.ledActuator_setPattern,
        TavoloSystem.setState, TavoloSystem.displayManager_showStatusMessage,
        TavoloSystem.displayManager_showErrorMessage, TavoloSystem.tare,
        TavoloSystem.weightSensor_tare, TavoloSystem.emit] <;>
       (try split) <;> (try split) <;> simp)

end Frame

/-! ## C1: self-transitions -/

/-- C1. Calling `changeSystemState(S)` while the current system state is already `S`
returns the system unchanged, all members and the effects sent so far included, so no
threshold-state-changed event and no transition log is emitted; and calling
`changeSystemState(S)` twice in a row, from any state, gives what calling it once
gives. -/
theorem changeSystemState_self_is_noop (sys : TavoloSystem) (env env2 : Env) (S : SystemState) :
    (sys.currentSystemState = S →
      sys.changeSystemState env S = sys ∧
      (sys.changeSystemState env S).effects = sys.effects) ∧
    (sys.changeSystemState env S).changeSystemState env2 S = sys.changeSystemState env S := by
  have self : ∀ (t : TavoloSystem) (e : Env), t.currentSystemState = S →
      t.changeSystemState e S = t := by
    intro t e ht
    unfold TavoloSystem.changeSystemState
    rw [if_neg (not_not.mpr ht)]
  refine ⟨fun h => ?_, ?_⟩
  · rw [self sys env h]
    exact ⟨rfl, rfl⟩
  · exact self _ env2 (changeSystemState_currentSystemState sys env S)

/-- C1 at a concrete input: the constructed system is in `INITIALIZING`, and asking for
`INITIALIZING` again changes nothing. -/
theorem changeSystemState_self_is_noop_witness :
    exampleSystem.currentSystemState = .INITIALIZING ∧
    exampleSystem.changeSystemState exampleEnv .INITIALIZING = exampleSystem ∧
    (exampleSystem.changeSystemState exampleEnv .INITIALIZING).effects =
      exampleSystem.effects :=
  ⟨rfl, (changeSystemState_self_is_noop exampleSystem exampleEnv exampleEnv .INITIALIZING).1 rfl⟩

/-! ## C2: the hysteresis sequence -/

/-- C2. For every threshold `T > 0`, from `MEASURING`, delivering the weights `0`,
`T + 1`, `0.95 T`, `0.85 T` (each through `onWeightDataReceived`) with one
`updateStateMachine` tick after each gives the states `MEASURING`,
`THRESHOLD_EXCEEDED`, `THRESHOLD_EXCEEDED`, `MEASURING`. The first tick, at weight 0,
clears the `thresholdExceeded` flag, so the sequence holds whatever the flag was at the
start, in particular when it was false. -/
theorem hysteresis_weight_sequence (sys : TavoloSystem) (e1 e2 e3 e4 e5 e6 e7 e8 : Env)
    (hT : 0 < sys.config.weightThreshold)
    (hs : sys.currentSystemState = .MEASURING) :
    let T := sys.config.weightThreshold
    let s1 := (sys.onWeightDataReceived e1 0).updateStateMachine e2
    let s2 := (s1.onWeightDataReceived e3 (T + 1)).updateStateMachine e4
    let s3 := (s2.onWeightDataReceived e5 (95 / 100 * T)).updateStateMachine e6
    let s4 := (s3.onWeightDataReceived e7 (85 / 100 * T)).updateStateMachine e8
    [s1.currentSystemState, s2.currentSystemState, s3.currentSystemState,
      s4.currentSystemState] =
    [.MEASURING, .THRESHOLD_EXCEEDED, .THRESHOLD_EXCEEDED, .MEASURING] := by
  intro T s1 s2 s3 s4
  -- first sample and tick
  obtain ⟨a1, a2, a3, a4⟩ := updateStateMachine_measuring (sys.onWeightDataReceived e1 0) e2
    (by simp [hs])
  simp only [onWeightDataReceived_config, onWeightDataReceived_currentWeight,
    onWeightDataReceived_thresholdExceeded] at a1 a2 a3 a4
  have h1 : s1.currentSystemState = .MEASURING := by
    rw [a1, if_neg]
    intro hc
    exact absurd hc.1 (not_lt.mpr hT.le)
  have f1 : s1.thresholdExceeded = false := by
    rw [a4]
    exact decide_eq_false (not_lt.mpr hT.le)
  have c1 : s1.config.weightThreshold = T := by rw [a2]
  -- second sample and tick
  obtain ⟨b1, b2, b3, b4⟩ := updateStateMachine_measuring (s1.onWeightDataReceived e3 (T + 1)) e4
    (by simp [h1])
  simp only [onWeightDataReceived_config, onWeightDataReceived_currentWeight,
    onWeightDataReceived_thresholdExceeded, c1, f1] at b1 b2 b3 b4
  have h2 : s2.currentSystemState = .THRESHOLD_EXCEEDED := by
    rw [b1, if_pos]
    exact ⟨by linarith, trivial⟩
  have c2 : s2.config.weightThreshold = T := by rw [b2, a2]
  -- third sample and tick
  obtain ⟨d1, d2, d3, d4⟩ := updateStateMachine_exceeded
    (s2.onWeightDataReceived e5 (95 / 100 * T)) e6 (by simp [h2])
  simp only [onWeightDataReceived_config, onWeightDataReceived_currentWeight,
    onWeightDataReceived_thresholdExceeded, c2] at d1 d2 d3 d4
  have h3 : s3.currentSystemState = .THRESHOLD_EXCEEDED := by
    rw [d1, if_neg]
    intro hc
    linarith
  have c3 : s3.config.weightThreshold = T := by rw [d2, c2]
  -- fourth sample and tick
  obtain ⟨g1, g2, g3, g4⟩ := updateStateMachine_exceeded
    (s3.onWeightDataReceived e7 (85 / 100 * T)) e8 (by simp [h3])
  simp only [onWeightDataReceived_config, onWeightDataReceived_currentWeight,
    onWeightDataReceived_thresholdExceeded, c3] at g1 g2 g3 g4
  have h4 : s4.currentSystemState = .MEASURING := by
    rw [g1, if_pos]
    linarith
  rw [h1, h2, h3, h4]

/-- C2 at a concrete input: threshold 100, weights 0, 101, 95, 85. -/
theorem hysteresis_weight_sequence_witness :
    (0 : ℚ) < exampleMeasuring.config.weightThreshold ∧
    exampleMeasuring.currentSystemState = .MEASURING ∧
    (let T := exampleMeasuring.config.weightThreshold
     let s1 := (exampleMeasuring.onWeightDataReceived exampleEnv 0).updateStateMachine exampleEnv
     let s2 := (s1.onWeightDataReceived exampleEnv (T + 1)).updateStateMachine exampleEnv
     let s3 := (s2.onWeightDataReceived exampleEnv (95 / 100 * T)).updateStateMachine exampleEnv
     let s4 := (s3.onWeightDataReceived exampleEnv (85 / 100 * T)).updateStateMachine exampleEnv
     [s1.currentSystemState, s2.currentSystemState, s3.currentSystemState,
       s4.currentSystemState] =
     [.MEASURING, .THRESHOLD_EXCEEDED, .THRESHOLD_EXCEEDED, .MEASURING]) :=
  have hT : (0 : ℚ) < exampleMeasuring.config.weightThreshold := by
    show (0 : ℚ) < 100
    norm_num
  ⟨hT, rfl, hysteresis_weight_sequence exampleMeasuring exampleEnv exampleEnv exampleEnv
    exampleEnv exampleEnv exampleEnv exampleEnv exampleEnv hT rfl⟩

/-! ## C3: entering `THRESHOLD_EXCEEDED` from `MEASURING` -/

/-- From `MEASURING` with the flag false: a sample above the threshold and a tick enter
`THRESHOLD_EXCEEDED`; a sample below nine tenths of the threshold and a tick relax to
`MEASURING` and leave the `thresholdExceeded` flag true; after a further sample above the
threshold the tick keeps the state `MEASURING`. -/
theorem relax_then_exceed_trace (sys : TavoloSystem) (e1 e2 e3 e4 e5 e6 : Env) (w1 w2 w3 : ℚ)
    (hs : sys.currentSystemState = .MEASURING) (hf : sys.thresholdExceeded = false)
    (hw1 : sys.config.weightThreshold < w1)
    (hw2 : w2 < sys.config.weightThreshold * (9 / 10))
    (hw3 : sys.config.weightThreshold < w3) :
    let s1 := (sys.onWeightDataReceived e1 w1).updateStateMachine e2
    let s2 := (s1.onWeightDataReceived e3 w2).updateStateMachine e4
    let s3 := s2.onWeightDataReceived e5 w3
    s1.currentSystemState = .THRESHOLD_EXCEEDED ∧
    s2.currentSystemState = .MEASURING ∧ s2.thresholdExceeded = true ∧
    s3.currentSystemState = .MEASURING ∧ s3.currentWeight > s3.config.weightThreshold ∧
    (s3.updateStateMachine e6).currentSystemState = .MEASURING := by
  intro s1 s2 s3
  obtain ⟨a1, a2, a3, a4⟩ := updateStateMachine_measuring (sys.onWeightDataReceived e1 w1) e2
    (by simp [hs])
  simp only [onWeightDataReceived_config, onWeightDataReceived_currentWeight,
    onWeightDataReceived_thresholdExceeded] at a1 a2 a3 a4
  have h1 : s1.currentSystemState = .THRESHOLD_EXCEEDED := by
    rw [a1, if_pos]
    exact ⟨hw1, hf⟩
  have f1 : s1.thresholdExceeded = true := by
    rw [a4]
    exact decide_eq_true hw1
  obtain ⟨b1, b2, b3, b4⟩ := updateStateMachine_exceeded (s1.onWeightDataReceived e3 w2) e4
    (by simp [h1])
  simp only [onWeightDataReceived_config, onWeightDataReceived_currentWeight,
    onWeightDataReceived_thresholdExceeded] at b1 b2 b3 b4
  have c1 : s1.config = sys.config := a2
  have h2 : s2.currentSystemState = .MEASURING := by
    rw [b1, if_pos]
    rw [c1]
    exact hw2
  have f2 : s2.thresholdExceeded = true := b4.trans f1
  have c2 : s2.config = sys.config := b2.trans c1
  have h3 : s3.currentSystemState = .MEASURING :=
    (onWeightDataReceived_currentSystemState s2 e5 w3).trans h2
  have c3 : s3.config = sys.config := (onWeightDataReceived_config s2 e5 w3).trans c2
  have w3' : s3.currentWeight = w3 := onWeightDataReceived_currentWeight s2 e5 w3
  have f3 : s3.thresholdExceeded = true :=
    (onWeightDataReceived_thresholdExceeded s2 e5 w3).trans f2
  refine ⟨h1, h2, f2, h3, ?_, ?_⟩
  · rw [w3', c3]
    exact hw3
  rw [(updateStateMachine_measuring s3 e6 h3).1, if_neg]
  rw [f3]
  simp

/-- C3, the code at the failing input. Threshold 100, start in `MEASURING` with the flag
false. A sample of 150 and a tick give `THRESHOLD_EXCEEDED`; a sample of 80 and a tick
relax to `MEASURING` through the 0.9 rule, which leaves the `thresholdExceeded` flag
true; after a further sample of 150 (above the threshold, still 100) the next tick
leaves the state `MEASURING` instead of moving to `THRESHOLD_EXCEEDED`. -/
theorem measuring_above_threshold_stale_flag_stays :
    exampleMeasuring.config.weightThreshold = 100 ∧
    (let s1 := (exampleMeasuring.onWeightDataReceived exampleEnv 150).updateStateMachine exampleEnv
     let s2 := (s1.onWeightDataReceived exampleEnv 80).updateStateMachine exampleEnv
     let s3 := s2.onWeightDataReceived exampleEnv 150
     s1.currentSystemState = .THRESHOLD_EXCEEDED ∧
     s2.currentSystemState = .MEASURING ∧ s2.thresholdExceeded = true ∧
     s3.currentSystemState = .MEASURING ∧ s3.currentWeight > s3.config.weightThreshold ∧
     (s3.updateStateMachine exampleEnv).currentSystemState = .MEASURING) :=
  ⟨rfl, relax_then_exceed_trace exampleMeasuring exampleEnv exampleEnv exampleEnv exampleEnv
    exampleEnv exampleEnv 150 80 150 rfl rfl
    (by show (100 : ℚ) < 150; norm_num)
    (by show (80 : ℚ) < 100 * (9 / 10); norm_num)
    (by show (100 : ℚ) < 150; norm_num)⟩

/-! ## C4: the dead-band -/

/-- C4. For every threshold `T` and every weight `w` with `0.9 T ≤ w ≤ T` (which
leaves room for a weight only when `T ≥ 0`, so in particular for every `T > 0`), a tick
from `MEASURING` leaves the state `MEASURING` and a tick from `THRESHOLD_EXCEEDED`
leaves the state `THRESHOLD_EXCEEDED`, whatever the stored flag is. -/
theorem dead_band_is_sticky (sys : TavoloSystem) (env : Env)
    (hlo : 9 / 10 * sys.config.weightThreshold ≤ sys.currentWeight)
    (hhi : sys.currentWeight ≤ sys.config.weightThreshold) :
    (sys.currentSystemState = .MEASURING →
      (sys.updateStateMachine env).currentSystemState = .MEASURING) ∧
    (sys.currentSystemState = .THRESHOLD_EXCEEDED →
      (sys.updateStateMachine env).currentSystemState = .THRESHOLD_EXCEEDED) := by
  constructor
  · intro h
    rw [(updateStateMachine_measuring sys env h).1, if_neg]
    intro hc
    exact absurd hc.1 (not_lt.mpr hhi)
  · intro h
    rw [(updateStateMachine_exceeded sys env h).1, if_neg]
    intro hc
    linarith

/-- C4 at a concrete input: threshold 100 and weight 95, from `MEASURING` and from
`THRESHOLD_EXCEEDED`. -/
theorem dead_band_is_sticky_witness :
    ((9 / 10 * (100 : ℚ) ≤ 95 ∧ (95 : ℚ) ≤ 100) ∧
      (exampleDeadBand .MEASURING).config.weightThreshold = 100 ∧
      (exampleDeadBand .MEASURING).currentWeight = 95 ∧
      (exampleDeadBand .MEASURING).currentSystemState = .MEASURING ∧
      ((exampleDeadBand .MEASURING).updateStateMachine exampleEnv).currentSystemState =
        .MEASURING) ∧
    ((exampleDeadBand .THRESHOLD_EXCEEDED).config.weightThreshold = 100 ∧
      (exampleDeadBand .THRESHOLD_EXCEEDED).currentWeight = 95 ∧
      (exampleDeadBand .THRESHOLD_EXCEEDED).currentSystemState = .THRESHOLD_EXCEEDED ∧
      ((exampleDeadBand .THRESHOLD_EXCEEDED).updateStateMachine exampleEnv).currentSystemState =
        .THRESHOLD_EXCEEDED) :=
  have hlo : 9 / 10 * (100 : ℚ) ≤ 95 := by norm_num
  have hhi : (95 : ℚ) ≤ 100 := by norm_num
  ⟨⟨⟨hlo, hhi⟩, rfl, rfl, rfl,
    (dead_band_is_sticky (exampleDeadBand .MEASURING) exampleEnv hlo hhi).1 rfl⟩,
   ⟨rfl, rfl, rfl,
    (dead_band_is_sticky (exampleDeadBand .THRESHOLD_EXCEEDED) exampleEnv hlo hhi).2 rfl⟩⟩

/-! ## C5: communication-error preemption -/

/-- C5. From every system state, handling the connection notification `ERROR` puts the
system in `COMMUNICATION_ERROR`, and handling a following `CONNECTED` notification puts
it in `IDLE`, whatever the state was before. -/
theorem error_preempts_then_connected_resets (sys : TavoloSystem) (e1 e2 : Env) :
    (sys.onConnectionStateChanged e1 .ERROR).currentSystemState = .COMMUNICATION_ERROR ∧
    ((sys.onConnectionStateChanged e1 .ERROR).onConnectionStateChanged e2
      .CONNECTED).currentSystemState = .IDLE := by
  have h1 : (sys.onConnectionStateChanged e1 .ERROR).currentSystemState =
      .COMMUNICATION_ERROR := by
    unfold TavoloSystem.onConnectionStateChanged
    rw [if_pos rfl]
    split
    · exact changeSystemState_currentSystemState sys e1 _
    · rename_i h
      exact not_not.mp h
  refine ⟨h1, ?_⟩
  generalize sys.onConnectionStateChanged e1 .ERROR = t at h1
  unfold TavoloSystem.onConnectionStateChanged
  rw [if_neg (by decide), if_pos rfl, if_pos h1]
  exact changeSystemState_currentSystemState t e2 _

/-! ## C6: the tick in `COMMUNICATION_ERROR` -/

/-- A system with the adapter of `sys` and the state of `sys`. -/
theorem errorMeansNotConnected_of_same (sys t : TavoloSystem)
    (hec : t.edgeCommunication = sys.edgeCommunication)
    (hs : t.currentSystemState = sys.currentSystemState)
    (h : sys.errorMeansNotConnected) : t.errorMeansNotConnected := by
  unfold TavoloSystem.errorMeansNotConnected at h ⊢
  rw [hec, hs]
  exact h

theorem errorMeansNotConnected_onWeightDataReceived (sys : TavoloSystem) (env : Env) (w : ℚ)
    (h : sys.errorMeansNotConnected) : (sys.onWeightDataReceived env w).errorMeansNotConnected :=
  errorMeansNotConnected_of_same sys _ (onWeightDataReceived_edgeCommunication sys env w)
    (onWeightDataReceived_currentSystemState sys env w) h

/-- C7. Start in `IDLE` with threshold 100, the flag false and the sensor reporting new
data. After a weight sample of 150 the first tick gives `MEASURING` and the second
`THRESHOLD_EXCEEDED`; the command `SET_THRESHOLD` with value 200 sets the threshold to 200
and leaves the state `THRESHOLD_EXCEEDED` and the weight 150; the next tick gives
`MEASURING`. The text 200 is read by `toFloat` as the number 200. -/
theorem threshold_scenario (sys : TavoloSystem) (toFloat : String → ℚ)
    (e0 e1 e2 e3 e4 : Env) (timestamp : Nat)
    (hs : sys.currentSystemState = .IDLE)
    (hT : sys.config.weightThreshold = 100)
    (hf : sys.thresholdExceeded = false)
    (hnew : sys.weightSensor.hasNewData e1 = true)
    (hparse : toFloat "200" = 200) :
    let s0 := sys.onWeightDataReceived e0 150
    let s1 := s0.updateStateMachine e1
    let s2 := s1.updateStateMachine e2
    let s3 := s2.onEdgeCommandReceived toFloat e3
      { command := "SET_THRESHOLD", value := "200", timestamp := timestamp }
    let s4 := s3.updateStateMachine e4
    s1.currentSystemState = .MEASURING ∧
    s2.currentSystemState = .THRESHOLD_EXCEEDED ∧
    s3.config.weightThreshold = 200 ∧
    s3.currentSystemState = .THRESHOLD_EXCEEDED ∧
    s3.currentWeight = 150 ∧
    s4.currentSystemState = .MEASURING := by
  intro s0 s1 s2 s3 s4
  -- the sample
  have k0 : s0.currentSystemState = .IDLE :=
    (onWeightDataReceived_currentSystemState sys e0 150).trans hs
  have c0 : s0.config.weightThreshold = 100 := by
    rw [onWeightDataReceived_config sys e0 150, hT]
  have w0 : s0.currentWeight = 150 := onWeightDataReceived_currentWeight sys e0 150
  have f0 : s0.thresholdExceeded = false :=
    (onWeightDataReceived_thresholdExceeded sys e0 150).trans hf
  have n0 : s0.weightSensor.hasNewData e1 = true := by
    rw [onWeightDataReceived_weightSensor sys e0 150, hnew]
  -- first tick
  obtain ⟨a1, a2, a3, a4⟩ := updateStateMachine_idle s0 e1 k0
  have k1 : s1.currentSystemState = .MEASURING := by rw [a1, if_pos n0]
  have c1 : s1.config.weightThreshold = 100 := by rw [a2, c0]
  have w1 : s1.currentWeight = 150 := a3.trans w0
  have f1 : s1.thresholdExceeded = false := a4.trans f0
  -- second tick
  obtain ⟨b1, b2, b3, b4⟩ := updateStateMachine_measuring s1 e2 k1
  have k2 : s2.currentSystemState = .THRESHOLD_EXCEEDED := by
    rw [b1, if_pos]
    refine ⟨?_, f1⟩
    rw [w1, c1]
    norm_num
  have w2 : s2.currentWeight = 150 := b3.trans w1
  -- the command
  have e3' : s3 = (s2.emit (commandLog
      { command := "SET_THRESHOLD", value := "200", timestamp := timestamp })).setWeightThreshold
        (toFloat "200") :=
    onEdgeCommandReceived_set_threshold s2 e3 toFloat _ rfl
  have c3 : s3.config.weightThreshold = 200 := by
    rw [e3', ← hparse]
    rfl
  have k3 : s3.currentSystemState = .THRESHOLD_EXCEEDED := by
    rw [e3']
    exact k2
  have w3 : s3.currentWeight = 150 := by
    rw [e3']
    exact w2
  -- last tick
  obtain ⟨d1, -, -, -⟩ := updateStateMachine_exceeded s3 e4 k3
  refine ⟨k1, k2, c3, k3, w3, ?_⟩
  rw [d1, if_pos]
  rw [w3, c3]
  norm_num

/-- C7 at a concrete input: the example system in `IDLE`, its sensor read 50 ms ago. -/
theorem threshold_scenario_witness :
    exampleIdle.currentSystemState = .IDLE ∧
    exampleIdle.config.weightThreshold = 100 ∧
    exampleIdle.thresholdExceeded = false ∧
    exampleIdle.weightSensor.hasNewData exampleEnv = true ∧
    exampleToFloat "200" = 200 ∧
    (let s0 := exampleIdle.onWeightDataReceived exampleEnv 150
     let s1 := s0.updateStateMachine exampleEnv
     let s2 := s1.updateStateMachine exampleEnv
     let s3 := s2.onEdgeCommandReceived exampleToFloat exampleEnv
       { command := "SET_THRESHOLD", value := "200", timestamp := 6000 }
     let s4 := s3.updateStateMachine exampleEnv
     s1.currentSystemState = .MEASURING ∧
     s2.currentSystemState = .THRESHOLD_EXCEEDED ∧
     s3.config.weightThreshold = 200 ∧
     s3.currentSystemState = .THRESHOLD_EXCEEDED ∧
     s3.currentWeight = 150 ∧
     s4.currentSystemState = .MEASURING) :=
  have hnew : exampleIdle.weightSensor.hasNewData exampleEnv = true := by decide
  have hparse : exampleToFloat "200" = 200 := if_pos rfl
  ⟨rfl, rfl, rfl, hnew, hparse,
    threshold_scenario exampleIdle exampleToFloat exampleEnv exampleEnv exampleEnv exampleEnv
      exampleEnv 6000 rfl rfl rfl hnew hparse⟩

/-! ## C8: `MAINTENANCE` is held against ticks and samples -/

/-- C8. A `MAINTENANCE` command puts the system in `MAINTENANCE` (from every state, so
from `MEASURING`); from `MAINTENANCE` every state-machine tick and every sensor sample
leaves the state `MAINTENANCE`, for every system (weight, threshold, sensor, adapter) and
every `Env` (time, connectivity); and so does every sequence of ticks and samples after
the command. -/
theorem maintenance_held_against_ticks_and_samples (sys : TavoloSystem) (toFloat : String → ℚ)
    (env : Env) (cmd : EdgeCommand) (hc : cmd.command = "MAINTENANCE") :
    (sys.onEdgeCommandReceived toFloat env cmd).currentSystemState = .MAINTENANCE ∧
    (∀ (t : TavoloSystem) (e : Env) (w : ℚ), t.currentSystemState = .MAINTENANCE →
      (t.updateStateMachine e).currentSystemState = .MAINTENANCE ∧
      (t.onWeightDataReceived e w).currentSystemState = .MAINTENANCE) ∧
    (∀ events : List Event, (∀ ev ∈ events, ev.isTickOrSample = true) →
      ((sys.onEdgeCommandReceived toFloat env cmd).run toFloat events).currentSystemState =
        .MAINTENANCE) := by
  have enter : (sys.onEdgeCommandReceived toFloat env cmd).currentSystemState =
      .MAINTENANCE := by
    rw [onEdgeCommandReceived_currentSystemState, hc]
    simp
  have hold : ∀ (t : TavoloSystem) (e : Env) (w : ℚ), t.currentSystemState = .MAINTENANCE →
      (t.updateStateMachine e).currentSystemState = .MAINTENANCE ∧
      (t.onWeightDataReceived e w).currentSystemState = .MAINTENANCE := by
    intro t e w ht
    constructor
    · rw [updateStateMachine_maintenance t e ht, ht]
    · rw [onWeightDataReceived_currentSystemState, ht]
  refine ⟨enter, hold, ?_⟩
  intro events
  generalize sys.onEdgeCommandReceived toFloat env cmd = t at enter
  induction events generalizing t with
  | nil =>
    intro _
    exact enter
  | cons ev rest ih =>
    intro hall
    have hev : ev.isTickOrSample = true := hall ev (List.mem_cons_self ev rest)
    have hrest : ∀ x ∈ rest, x.isTickOrSample = true :=
      fun x hx => hall x (List.mem_cons_of_mem ev hx)
    show ((t.step toFloat ev).run toFloat rest).currentSystemState = .MAINTENANCE
    apply ih _ _ hrest
    cases ev with
    | tick e => exact (hold t e 0 enter).1
    | weightData e w => exact (hold t e w enter).2
    | command e c => exact absurd hev (by simp [Event.isTickOrSample])
    | connectionState e c => exact absurd hev (by simp [Event.isTickOrSample])
    | startMeasurement e => exact absurd hev (by simp [Event.isTickOrSample])
    | stopMeasurement e => exact absurd hev (by simp [Event.isTickOrSample])
    | calibrate e => exact absurd hev (by simp [Event.isTickOrSample])
    | tare e => exact absurd hev (by simp [Event.isTickOrSample])
    | setWeightThreshold x => exact absurd hev (by simp [Event.isTickOrSample])

/-- C8 at a concrete input: the command arrives in `MEASURING`; a tick, a sample of 500
and another tick follow. -/
theorem maintenance_held_against_ticks_and_samples_witness :
    exampleMeasuring.currentSystemState = .MEASURING ∧
    (exampleCommand "MAINTENANCE" "").command = "MAINTENANCE" ∧
    (exampleMeasuring.onEdgeCommandReceived exampleToFloat exampleEnv
      (exampleCommand "MAINTENANCE" "")).currentSystemState = .MAINTENANCE ∧
    ((exampleMeasuring.onEdgeCommandReceived exampleToFloat exampleEnv
      (exampleCommand "MAINTENANCE" "")).run exampleToFloat
        [.tick exampleEnv, .weightData exampleEnv 500, .tick exampleEnv]).currentSystemState =
      .MAINTENANCE :=
  have h := maintenance_held_against_ticks_and_samples exampleMeasuring exampleToFloat
    exampleEnv (exampleCommand "MAINTENANCE" "") rfl
  ⟨rfl, rfl, h.1,
    h.2.2 [.tick exampleEnv, .weightData exampleEnv 500, .tick exampleEnv] (by decide)⟩

/-! ## C9: commands received in `MAINTENANCE` -/

/-- C9 fails as stated: the example system is in `MAINTENANCE`, the tag `CALIBRATE` is
not `RESUME`, and handling the command changes the state to `CALIBRATING`. -/
theorem calibrate_command_leaves_maintenance :
    exampleMaintenance.currentSystemState = .MAINTENANCE ∧
    (exampleCommand "CALIBRATE" "").command ≠ "RESUME" ∧
    (exampleMaintenance.onEdgeCommandReceived exampleToFloat exampleEnv
      (exampleCommand "CALIBRATE" "")).currentSystemState = .CALIBRATING ∧
    (exampleMaintenance.onEdgeCommandReceived exampleToFloat exampleEnv
      (exampleCommand "CALIBRATE" "")).currentSystemState ≠
        exampleMaintenance.currentSystemState := by
  have h : (exampleMaintenance.onEdgeCommandReceived exampleToFloat exampleEnv
      (exampleCommand "CALIBRATE" "")).currentSystemState = .CALIBRATING :=
    (onEdgeCommandReceived_currentSystemState exampleMaintenance exampleEnv exampleToFloat
      (exampleCommand "CALIBRATE" "")).trans (if_pos rfl)
  refine ⟨rfl, by decide, h, ?_⟩
  rw [h]
  decide

/-- C9 as amended. From `MAINTENANCE`, handling a command changes the system state if and
only if the tag is `RESUME` or `CALIBRATE`: the new state is `IDLE` for `RESUME` and
`CALIBRATING` for `CALIBRATE`; every other tag leaves the state `MAINTENANCE`. -/
theorem maintenance_left_only_by_resume_or_calibrate (sys : TavoloSystem)
    (toFloat : String → ℚ) (env : Env) (cmd : EdgeCommand)
    (hs : sys.currentSystemState = .MAINTENANCE) :
    ((sys.onEdgeCommandReceived toFloat env cmd).currentSystemState ≠ sys.currentSystemState ↔
      cmd.command = "RESUME" ∨ cmd.command = "CALIBRATE") ∧
    (cmd.command = "RESUME" →
      (sys.onEdgeCommandReceived toFloat env cmd).currentSystemState = .IDLE) ∧
    (cmd.command = "CALIBRATE" →
      (sys.onEdgeCommandReceived toFloat env cmd).currentSystemState = .CALIBRATING) ∧
    (cmd.command ≠ "RESUME" → cmd.command ≠ "CALIBRATE" →
      (sys.onEdgeCommandReceived toFloat env cmd).currentSystemState = .MAINTENANCE) := by
  rw [onEdgeCommandReceived_currentSystemState, hs]
  by_cases h5 : cmd.command = "CALIBRATE"
  · simp [h5]
  by_cases h6 : cmd.command = "MAINTENANCE"
  · simp [h6]
  by_cases h7 : cmd.command = "RESUME"
  · simp [h7]
  simp [h5, h6, h7]

/-- C9 as amended, at a concrete input: `RESUME` received in `MAINTENANCE`. -/
theorem maintenance_left_only_by_resume_or_calibrate_witness :
    exampleMaintenance.currentSystemState = .MAINTENANCE ∧
    (exampleCommand "RESUME" "").command = "RESUME" ∧
    (exampleMaintenance.onEdgeCommandReceived exampleToFloat exampleEnv
      (exampleCommand "RESUME" "")).currentSystemState = .IDLE :=
  ⟨rfl, rfl,
    (maintenance_left_only_by_resume_or_calibrate exampleMaintenance exampleToFloat exampleEnv
      (exampleCommand "RESUME" "") rfl).2.1 rfl⟩

/-! ## C10: command-driven transitions go through `changeSystemState` -/

/-- C10. For every system state, handling a command with tag `CALIBRATE`, `MAINTENANCE`
or `RESUME` is the receipt log followed by `changeSystemState` to the target `X`
(`CALIBRATING`, `MAINTENANCE`, `IDLE`): the target state is reached from any state; every
member variable ends as a direct call `changeSystemState(X)` leaves it; and the effects
sent are the receipt log followed by exactly the effects the direct call sends (exit
action of the old state, entry action of the target, transition log). -/
theorem command_transition_is_changeSystemState (sys : TavoloSystem) (toFloat : String → ℚ)
    (env : Env) (cmd : EdgeCommand) (X : SystemState)
    (hX : (cmd.command = "CALIBRATE" ∧ X = .CALIBRATING) ∨
          (cmd.command = "MAINTENANCE" ∧ X = .MAINTENANCE) ∨
          (cmd.command = "RESUME" ∧ X = .IDLE)) :
    sys.onEdgeCommandReceived toFloat env cmd =
      (sys.emit (commandLog cmd)).changeSystemState env X ∧
    (sys.onEdgeCommandReceived toFloat env cmd).currentSystemState = X ∧
    ({ sys.onEdgeCommandReceived toFloat env cmd with effects := [] } : TavoloSystem) =
      { sys.changeSystemState env X with effects := [] } ∧
    ∃ sent : List Effect,
      (sys.changeSystemState env X).effects = sys.effects ++ sent ∧
      (sys.onEdgeCommandReceived toFloat env cmd).effects =
        sys.effects ++ commandLog cmd ++ sent := by
  have step : sys.onEdgeCommandReceived toFloat env cmd =
      (sys.emit (commandLog cmd)).changeSystemState env X := by
    unfold TavoloSystem.onEdgeCommandReceived TavoloSystem.calibrate
    dsimp only
    rcases hX with ⟨hc, hx⟩ | ⟨hc, hx⟩ | ⟨hc, hx⟩ <;> subst hx <;> simp [hc]
  have direct := changeSystemState_effects_prefix sys env X sys.effects
  have logged := changeSystemState_effects_prefix sys env X (sys.effects ++ commandLog cmd)
  have direct2 : sys.changeSystemState env X = _ := direct
  have logged2 : (sys.emit (commandLog cmd)).changeSystemState env X = _ := logged
  refine ⟨step, ?_, ?_, ?_⟩
  · rw [step]
    exact changeSystemState_currentSystemState _ env X
  · rw [step, logged2, direct2]
  · refine ⟨(({ sys with effects := [] } : TavoloSystem).changeSystemState env X).effects,
      ?_, ?_⟩
    · rw [direct2]
    · rw [step, logged2]

/-- C10 at a concrete input: `MAINTENANCE` received in `THRESHOLD_EXCEEDED`, the state
with an exit action. -/
theorem command_transition_is_changeSystemState_witness :
    (exampleCommand "MAINTENANCE" "").command = "MAINTENANCE" ∧
    (exampleDeadBand .THRESHOLD_EXCEEDED).onEdgeCommandReceived exampleToFloat exampleEnv
        (exampleCommand "MAINTENANCE" "") =
      ((exampleDeadBand .THRESHOLD_EXCEEDED).emit
        (commandLog (exampleCommand "MAINTENANCE" ""))).changeSystemState exampleEnv
          .MAINTENANCE ∧
    ((exampleDeadBand .THRESHOLD_EXCEEDED).onEdgeCommandReceived exampleToFloat exampleEnv
        (exampleCommand "MAINTENANCE" "")).currentSystemState = .MAINTENANCE :=
  have h := command_transition_is_changeSystemState (exampleDeadBand .THRESHOLD_EXCEEDED)
    exampleToFloat exampleEnv (exampleCommand "MAINTENANCE" "") .MAINTENANCE
    (Or.inr (Or.inl ⟨rfl, rfl⟩))
  ⟨rfl, h.1, h.2.1⟩

/-! ## C11: the command `SET_THRESHOLD` -/

/-- C11. For every system and every command with tag `SET_THRESHOLD` and value `v`,
after `onEdgeCommandReceived` the configured `weightThreshold` is `toFloat v`; the system
state, the `thresholdExceeded` flag, the rest of the measurement snapshot, the other
config fields, the LED actuator, the device, the display, the sensor and the adapter are
unchanged: the system differs only in the threshold and in the serial lines printed. -/
theorem set_threshold_command_frame (sys : TavoloSystem) (toFloat : String → ℚ) (env : Env)
    (cmd : EdgeCommand) (h : cmd.command = "SET_THRESHOLD") :
    sys.onEdgeCommandReceived toFloat env cmd =
      { sys with
        config := { sys.config with weightThreshold := toFloat cmd.value }
        effects := sys.effects ++ commandLog cmd ++
          [Effect.print "Weight threshold updated to: ", Effect.printFloat (toFloat cmd.value),
            Effect.println "g"] } ∧
    (sys.onEdgeCommandReceived toFloat env cmd).config.weightThreshold = toFloat cmd.value ∧
    (sys.onEdgeCommandReceived toFloat env cmd).currentSystemState = sys.currentSystemState ∧
    (sys.onEdgeCommandReceived toFloat env cmd).thresholdExceeded = sys.thresholdExceeded ∧
    (sys.onEdgeCommandReceived toFloat env cmd).currentWeight = sys.currentWeight ∧
    (sys.onEdgeCommandReceived toFloat env cmd).lastReportedWeight = sys.lastReportedWeight ∧
    (sys.onEdgeCommandReceived toFloat env cmd).lastMeasurementTime = sys.lastMeasurementTime ∧
    (sys.onEdgeCommandReceived toFloat env cmd).lastReportTime = sys.lastReportTime ∧
    (sys.onEdgeCommandReceived toFloat env cmd).config.measurementInterval =
      sys.config.measurementInterval ∧
    (sys.onEdgeCommandReceived toFloat env cmd).config.calibrationFactor =
      sys.config.calibrationFactor ∧
    (sys.onEdgeCommandReceived toFloat env cmd).config.autoTare = sys.config.autoTare ∧
    (sys.onEdgeCommandReceived toFloat env cmd).ledActuator.currentPattern =
      sys.ledActuator.currentPattern ∧
    (sys.onEdgeCommandReceived toFloat env cmd).currentState = sys.currentState := by
  rw [onEdgeCommandReceived_set_threshold sys env toFloat cmd h]
  exact ⟨rfl, rfl, rfl, rfl, rfl, rfl, rfl, rfl, rfl, rfl, rfl, rfl, rfl⟩

/-- C11 at a concrete input: `SET_THRESHOLD` with value 200 received in
`THRESHOLD_EXCEEDED`. -/
theorem set_threshold_command_frame_witness :
    (exampleCommand "SET_THRESHOLD" "200").command = "SET_THRESHOLD" ∧
    ((exampleDeadBand .THRESHOLD_EXCEEDED).onEdgeCommandReceived exampleToFloat exampleEnv
      (exampleCommand "SET_THRESHOLD" "200")).config.weightThreshold =
        exampleToFloat (exampleCommand "SET_THRESHOLD" "200").value ∧
    ((exampleDeadBand .THRESHOLD_EXCEEDED).onEdgeCommandReceived exampleToFloat exampleEnv
      (exampleCommand "SET_THRESHOLD" "200")).currentSystemState =
        (exampleDeadBand .THRESHOLD_EXCEEDED).currentSystemState :=
  have h := set_threshold_command_frame (exampleDeadBand .THRESHOLD_EXCEEDED) exampleToFloat
    exampleEnv (exampleCommand "SET_THRESHOLD" "200") rfl
  ⟨rfl, h.2.1, h.2.2.1⟩

/-! ## C12: unrecognised commands -/

/-- C12. For every system and every command whose tag is none of `SET_THRESHOLD`,
`LED_ON`, `LED_OFF`, `TARE`, `CALIBRATE`, `MAINTENANCE`, `RESUME`, handling the command
only prints the receipt line: every member variable (system state, config, measurement
snapshot, LED actuator, display, device, sensor, adapter) is unchanged. -/
theorem unrecognised_command_is_ignored (sys : TavoloSystem) (toFloat : String → ℚ)
    (env : Env) (cmd : EdgeCommand)
    (h1 : cmd.command ≠ "SET_THRESHOLD") (h2 : cmd.command ≠ "LED_ON")
    (h3 : cmd.command ≠ "LED_OFF") (h4 : cmd.command ≠ "TARE")
    (h5 : cmd.command ≠ "CALIBRATE") (h6 : cmd.command ≠ "MAINTENANCE")
    (h7 : cmd.command ≠ "RESUME") :
    sys.onEdgeCommandReceived toFloat env cmd =
      { sys with effects := sys.effects ++ commandLog cmd } ∧
    ({ sys.onEdgeCommandReceived toFloat env cmd with effects := [] } : TavoloSystem) =
      { sys with effects := [] } := by
  have h : sys.onEdgeCommandReceived toFloat env cmd =
      { sys with effects := sys.effects ++ commandLog cmd } := by
    unfold TavoloSystem.onEdgeCommandReceived
    dsimp only
    rw [if_neg h1, if_neg h2, if_neg h3, if_neg h4, if_neg h5, if_neg h6, if_neg h7]
    rfl
  exact ⟨h, by rw [h]⟩

/-- C12 at concrete inputs: the tag `set_threshold`, which differs from `SET_THRESHOLD`
in letter case only, and the empty tag. -/
theorem unrecognised_command_is_ignored_witness :
    ({ exampleMeasuring.onEdgeCommandReceived exampleToFloat exampleEnv
        (exampleCommand "set_threshold" "200") with effects := [] } : TavoloSystem) =
      { exampleMeasuring with effects := [] } ∧
    ({ exampleMeasuring.onEdgeCommandReceived exampleToFloat exampleEnv
        (exampleCommand "" "") with effects := [] } : TavoloSystem) =
      { exampleMeasuring with effects := [] } :=
  ⟨(unrecognised_command_is_ignored exampleMeasuring exampleToFloat exampleEnv
      (exampleCommand "set_threshold" "200") (by decide) (by decide) (by decide) (by decide)
      (by decide) (by decide) (by decide)).2,
   (unrecognised_command_is_ignored exampleMeasuring exampleToFloat exampleEnv
      (exampleCommand "" "") (by decide) (by decide) (by decide) (by decide)
      (by decide) (by decide) (by decide)).2⟩

/-! ## C13: events outside the transition table -/

/-- C13. From every system state, each of these events leaves the system state as it
was: a sensor weight sample, a connection notification `DISCONNECTED` or `CONNECTING`, a
`CONNECTED` notification when the state is not `COMMUNICATION_ERROR`, an `ERROR`
notification when the state is `COMMUNICATION_ERROR`, and the commands `LED_ON`,
`LED_OFF` and `TARE`. -/
theorem events_outside_the_table_keep_the_state (sys : TavoloSystem) (toFloat : String → ℚ)
    (env : Env) :
    (∀ w : ℚ, (sys.onWeightDataReceived env w).currentSystemState = sys.currentSystemState) ∧
    (sys.onConnectionStateChanged env .DISCONNECTED).currentSystemState =
      sys.currentSystemState ∧
    (sys.onConnectionStateChanged env .CONNECTING).currentSystemState =
      sys.currentSystemState ∧
    (sys.currentSystemState ≠ .COMMUNICATION_ERROR →
      (sys.onConnectionStateChanged env .CONNECTED).currentSystemState =
        sys.currentSystemState) ∧
    (sys.currentSystemState = .COMMUNICATION_ERROR →
      (sys.onConnectionStateChanged env .ERROR).currentSystemState =
        sys.currentSystemState) ∧
    (∀ cmd : EdgeCommand,
      cmd.command = "LED_ON" ∨ cmd.command = "LED_OFF" ∨ cmd.command = "TARE" →
      (sys.onEdgeCommandReceived toFloat env cmd).currentSystemState =
        sys.currentSystemState) := by
  refine ⟨fun w => onWeightDataReceived_currentSystemState sys env w, rfl, rfl, ?_, ?_, ?_⟩
  · intro h
    unfold TavoloSystem.onConnectionStateChanged
    rw [if_neg (by decide), if_pos rfl, if_neg h]
  · intro h
    unfold TavoloSystem.onConnectionStateChanged
    rw [if_pos rfl, if_neg (not_not.mpr h)]
  · intro cmd hc
    rw [onEdgeCommandReceived_currentSystemState]
    rcases hc with hc | hc | hc <;> simp [hc]

/-- C13 at concrete inputs: `CONNECTED` received in `MEASURING`, `ERROR` received in
`COMMUNICATION_ERROR`, and `TARE` received in `MAINTENANCE`. -/
theorem events_outside_the_table_keep_the_state_witness :
    (exampleMeasuring.currentSystemState ≠ .COMMUNICATION_ERROR ∧
      (exampleMeasuring.onConnectionStateChanged exampleEnv .CONNECTED).currentSystemState =
        exampleMeasuring.currentSystemState) ∧
    (exampleCommError.currentSystemState = .COMMUNICATION_ERROR ∧
      (exampleCommError.onConnectionStateChanged exampleEnv .ERROR).currentSystemState =
        exampleCommError.currentSystemState) ∧
    (exampleMaintenance.onEdgeCommandReceived exampleToFloat exampleEnv
      (exampleCommand "TARE" "")).currentSystemState = exampleMaintenance.currentSystemState :=
  ⟨⟨by decide,
    (events_outside_the_table_keep_the_state exampleMeasuring exampleToFloat
      exampleEnv).2.2.2.1 (by decide)⟩,
   ⟨rfl,
    (events_outside_the_table_keep_the_state exampleCommError exampleToFloat
      exampleEnv).2.2.2.2.1 rfl⟩,
   (events_outside_the_table_keep_the_state exampleMaintenance exampleToFloat
      exampleEnv).2.2.2.2.2 (exampleCommand "TARE" "") (Or.inr (Or.inr rfl))⟩

/-! ## C14: the reporting condition -/

/-- Unsigned 32-bit subtraction is the difference of the integers modulo 2^32. -/
theorem ulongSub_eq_emod (a b : Nat) :
    ((ulongSub a b : Nat) : ℤ) = ((a : ℤ) - (b : ℤ)) % 4294967296 := by
  unfold ulongSub ULONG_MODULUS
  omega

/-- The reporting condition as the code computes it: the elapsed time on the 32-bit clock
is at least 5000, or the `float` difference of the two weights is at least 5 in absolute
value. -/
theorem shouldReportWeight_eq_true_iff (sys : TavoloSystem) (env : Env) :
    sys.shouldReportWeight env = true ↔
      (ulongSub env.now sys.lastReportTime ≥ 5000 ∨
        |floatSub sys.currentWeight sys.lastReportedWeight| ≥ 5) := by
  unfold TavoloSystem.shouldReportWeight REPORT_INTERVAL WEIGHT_REPORT_THRESHOLD
  dsimp only
  by_cases ht : ulongSub env.now sys.lastReportTime ≥ 5000
  · simp [ht]
  · rw [if_neg ht]
    by_cases hw : |floatSub sys.currentWeight sys.lastReportedWeight| ≥ 5
    · simp [hw]
    · simp [hw, ht]

/-- The `float` difference of 5.00000048 and 6.00000021e-07 is 5: the exact difference,
5 - 2166704 * 2^(-44), lies less than half a unit in the last place below 5. -/
theorem floatSub_rounds_up_to_five :
    floatSub (10485761 / 2097152) (659707 / 1099511627776) = 5 := by
  unfold floatSub
  rw [roundBinary32_eq _ 2 10485760 (by norm_num [abs_of_pos]) (by norm_num [abs_of_pos])
    (by norm_num) (by
      have := roundHalfEven_of_gt_half
        ((10485761 / 2097152 - 659707 / 1099511627776) / 2 ^ ((2 : ℤ) - 23)) 10485759
        (by norm_num) (by norm_num)
      rw [this]
      norm_num)]
  norm_num

/-- C14 fails as stated, with the difference taken exactly. The current weight is the
`float` 5.00000048 and the last reported weight the `float` 6.00000021e-07, reported at
6000 ms; at 7000 ms the elapsed time is 1000 < 5000 and the exact difference is below 5,
yet `shouldReportWeight` returns true, because the `float` subtraction rounds the
difference to 5. -/
theorem float_difference_reaches_five_below_exact_five :
    roundBinary32 exampleRounding.currentWeight = exampleRounding.currentWeight ∧
    roundBinary32 exampleRounding.lastReportedWeight = exampleRounding.lastReportedWeight ∧
    (((onlineAt 7000).now : ℤ) - (exampleRounding.lastReportTime : ℤ)) % 4294967296 < 5000 ∧
    |exampleRounding.currentWeight - exampleRounding.lastReportedWeight| < 5 ∧
    floatSub exampleRounding.currentWeight exampleRounding.lastReportedWeight = 5 ∧
    exampleRounding.shouldReportWeight (onlineAt 7000) = true := by
  have hd : floatSub exampleRounding.currentWeight exampleRounding.lastReportedWeight = 5 :=
    floatSub_rounds_up_to_five
  refine ⟨?_, ?_, by decide, ?_, hd, ?_⟩
  · exact roundBinary32_of_multiple (10485761 / 2097152) 2 10485761 (by norm_num [abs_of_pos])
      (by norm_num [abs_of_pos]) (by norm_num) (by norm_num)
  · exact roundBinary32_of_multiple (659707 / 1099511627776) (-21) 10555312
      (by norm_num [abs_of_pos]) (by norm_num [abs_of_pos]) (by norm_num) (by norm_num)
  · show |(10485761 / 2097152 : ℚ) - 659707 / 1099511627776| < 5
    rw [abs_lt]
    constructor <;> norm_num
  · rw [shouldReportWeight_eq_true_iff, hd]
    right
    norm_num

/-- C14, amended. For every current time, `lastReportTime`, `currentWeight` and
`lastReportedWeight`, `shouldReportWeight` returns true if and only if the difference
`now - lastReportTime` modulo 2^32 is at least 5000 or the difference
`currentWeight - lastReportedWeight` as the code computes it, rounded to `float`, is at
least 5 in absolute value; so it returns false when the elapsed time is below 5000 and
that rounded difference below 5. It returns true whenever the exact difference is at
least 5 in absolute value, since rounding does not take such a difference below 5. -/
theorem shouldReportWeight_iff (sys : TavoloSystem) (env : Env) :
    (sys.shouldReportWeight env = true ↔
      (((env.now : ℤ) - (sys.lastReportTime : ℤ)) % 4294967296 ≥ 5000 ∨
        |floatSub sys.currentWeight sys.lastReportedWeight| ≥ 5)) ∧
    ((((env.now : ℤ) - (sys.lastReportTime : ℤ)) % 4294967296 < 5000 ∧
        |floatSub sys.currentWeight sys.lastReportedWeight| < 5) →
      sys.shouldReportWeight env = false) ∧
    (|sys.currentWeight - sys.lastReportedWeight| ≥ 5 →
      sys.shouldReportWeight env = true) := by
  have key : sys.shouldReportWeight env = true ↔
      (((env.now : ℤ) - (sys.lastReportTime : ℤ)) % 4294967296 ≥ 5000 ∨
        |floatSub sys.currentWeight sys.lastReportedWeight| ≥ 5) := by
    rw [← ulongSub_eq_emod, shouldReportWeight_eq_true_iff]
    constructor
    · rintro (h | h)
      · exact Or.inl (by exact_mod_cast h)
      · exact Or.inr h
    · rintro (h | h)
      · exact Or.inl (by exact_mod_cast h)
      · exact Or.inr h
  refine ⟨key, ?_, ?_⟩
  · intro h
    cases hb : sys.shouldReportWeight env
    · rfl
    · rcases key.mp hb with h1 | h1
      · exact absurd h1 (not_le.mpr h.1)
      · exact absurd h1 (not_le.mpr h.2)
  · intro h
    exact key.mpr (Or.inr (five_le_abs_floatSub _ _ h))

/-- C14 as amended, at concrete inputs, across the wrap of the 32-bit clock: the last
report was at 4294963296 ms with weight 0 and the weight is 2; at clock value 100 (4100 ms
later) no report is due, at clock value 2000 (6000 ms later) one is. -/
theorem shouldReportWeight_iff_witness :
    ((((exampleEnvWrapped.now : ℤ) - (exampleReporting.lastReportTime : ℤ)) % 4294967296 <
        5000 ∧
      |floatSub exampleReporting.currentWeight exampleReporting.lastReportedWeight| < 5) ∧
      exampleReporting.shouldReportWeight exampleEnvWrapped = false) ∧
    (((exampleEnvLate.now : ℤ) - (exampleReporting.lastReportTime : ℤ)) % 4294967296 ≥ 5000 ∧
      exampleReporting.shouldReportWeight exampleEnvLate = true) :=
  have h1 : ((exampleEnvWrapped.now : ℤ) - (exampleReporting.lastReportTime : ℤ)) %
      4294967296 < 5000 := by decide
  have h2 : |floatSub exampleReporting.currentWeight exampleReporting.lastReportedWeight| <
      5 := by
    show |floatSub 2 0| < 5
    rw [floatSub_zero_right 2 roundBinary32_two.1]
    norm_num
  have h3 : ((exampleEnvLate.now : ℤ) - (exampleReporting.lastReportTime : ℤ)) %
      4294967296 ≥ 5000 := by decide
  ⟨⟨⟨h1, h2⟩, (shouldReportWeight_iff exampleReporting exampleEnvWrapped).2.1 ⟨h1, h2⟩⟩,
   ⟨h3, (shouldReportWeight_iff exampleReporting exampleEnvLate).1.mpr (Or.inl h3)⟩⟩

/-! ## C15: a report updates both fields or neither -/

/-- C15. For every system, `reportWeightData` either sends with success (the adapter is
connected and the publish succeeds) and then `lastReportedWeight` is the current weight
and `lastReportTime` the current time, which is the value `millis()` returns after the
send, or does not (adapter not connected, or publish
failed) and then both are unchanged; no other member variable changes. The flag
`sendWeightData` returns is true exactly in the first case. -/
theorem reportWeightData_updates_both_or_neither (sys : TavoloSystem) (env : Env) :
    ((sys.edgeCommunication.sendWeightData env
        { weight := sys.currentWeight, timestamp := env.now, deviceId := sys.deviceId }).1 = true ↔
      (sys.edgeCommunication.isConnected env = true ∧ env.publishOk = true)) ∧
    (sys.edgeCommunication.isConnected env = true ∧ env.publishOk = true →
      (sys.reportWeightData env).lastReportedWeight = sys.currentWeight ∧
      (sys.reportWeightData env).lastReportTime = env.nowAfterSend) ∧
    (sys.edgeCommunication.isConnected env = false ∨ env.publishOk = false →
      (sys.reportWeightData env).lastReportedWeight = sys.lastReportedWeight ∧
      (sys.reportWeightData env).lastReportTime = sys.lastReportTime) ∧
    ({ sys.reportWeightData env with
        lastReportedWeight := sys.lastReportedWeight
        lastReportTime := sys.lastReportTime
        effects := sys.effects } : TavoloSystem) = sys := by
  unfold TavoloSystem.reportWeightData EdgeCommunication.sendWeightData
  cases hc : sys.edgeCommunication.isConnected env <;> cases hp : env.publishOk <;>
    simp [TavoloSystem.emit]

/-- C15 at concrete inputs: the adapter of the example system is in `CONNECTED`; with the
MQTT client connected the report is sent, with the client disconnected it is not. -/
theorem reportWeightData_updates_both_or_neither_witness :
    ((exampleReporting.edgeCommunication.isConnected exampleEnv = true ∧
        exampleEnv.publishOk = true) ∧
      (exampleReporting.reportWeightData exampleEnv).lastReportedWeight =
        exampleReporting.currentWeight ∧
      (exampleReporting.reportWeightData exampleEnv).lastReportTime =
        exampleEnv.nowAfterSend) ∧
    (exampleReporting.edgeCommunication.isConnected exampleEnvOffline = false ∧
      (exampleReporting.reportWeightData exampleEnvOffline).lastReportedWeight =
        exampleReporting.lastReportedWeight ∧
      (exampleReporting.reportWeightData exampleEnvOffline).lastReportTime =
        exampleReporting.lastReportTime) :=
  ⟨⟨⟨rfl, rfl⟩,
    (reportWeightData_updates_both_or_neither exampleReporting exampleEnv).2.1 ⟨rfl, rfl⟩⟩,
   ⟨rfl,
    (reportWeightData_updates_both_or_neither exampleReporting exampleEnvOffline).2.2.1
      (Or.inl rfl)⟩⟩

/-! ## C16: the reporting throttle -/

@[simp] theorem weightPublishes_append (a b : List Effect) :
    weightPublishes (a ++ b) = weightPublishes a ++ weightPublishes b := by
  simp [weightPublishes, List.filterMap_append]

/-- A weight sample while the adapter is connected and publishes succeed: when the
report is due it is published, stamped with the clock value before the send, and both
report fields are updated, the time to the clock value after the send; otherwise nothing
is published and both fields stay; the device and the adapter are unchanged. -/
theorem onWeightDataReceived_report (sys : TavoloSystem) (env : Env) (w : ℚ)
    (hc : sys.edgeCommunication.isConnected env = true) (hp : env.publishOk = true) :
    ((ulongSub env.now sys.lastReportTime ≥ 5000 ∨
        |floatSub w sys.lastReportedWeight| ≥ 5) →
      (sys.onWeightDataReceived env w).lastReportedWeight = w ∧
      (sys.onWeightDataReceived env w).lastReportTime = env.nowAfterSend ∧
      weightPublishes (sys.onWeightDataReceived env w).effects =
        weightPublishes sys.effects ++
          [{ weight := w, timestamp := env.now, deviceId := sys.deviceId }]) ∧
    (¬ (ulongSub env.now sys.lastReportTime ≥ 5000 ∨
        |floatSub w sys.lastReportedWeight| ≥ 5) →
      (sys.onWeightDataReceived env w).lastReportedWeight = sys.lastReportedWeight ∧
      (sys.onWeightDataReceived env w).lastReportTime = sys.lastReportTime ∧
      weightPublishes (sys.onWeightDataReceived env w).effects =
        weightPublishes sys.effects) ∧
    (sys.onWeightDataReceived env w).deviceId = sys.deviceId := by
  unfold TavoloSystem.onWeightDataReceived TavoloSystem.shouldReportWeight
    TavoloSystem.reportWeightData EdgeCommunication.sendWeightData
    REPORT_INTERVAL WEIGHT_REPORT_THRESHOLD
  by_cases ht : ulongSub env.now sys.lastReportTime ≥ 5000 <;>
    by_cases hw : |floatSub w sys.lastReportedWeight| ≥ 5 <;>
    cases hcb : sys.onWeightChangeCallback <;>
    simp [TavoloSystem.emit, hc, hp, ht, hw, hcb, weightPublishes]

/-- Two samples in a row, neither of them due when measured against the last report
before them: neither is published. -/
theorem samples_not_due_are_not_sent (sys : TavoloSystem) (e1 e2 : Env) (w1 w2 : ℚ)
    (hc1 : sys.edgeCommunication.isConnected e1 = true) (hp1 : e1.publishOk = true)
    (hc2 : sys.edgeCommunication.isConnected e2 = true) (hp2 : e2.publishOk = true)
    (hn1 : ¬ (ulongSub e1.now sys.lastReportTime ≥ 5000 ∨
      |floatSub w1 sys.lastReportedWeight| ≥ 5))
    (hn2 : ¬ (ulongSub e2.now sys.lastReportTime ≥ 5000 ∨
      |floatSub w2 sys.lastReportedWeight| ≥ 5)) :
    weightPublishes (sys.onWeightDataReceived e1 w1).effects = weightPublishes sys.effects ∧
    weightPublishes ((sys.onWeightDataReceived e1 w1).onWeightDataReceived e2 w2).effects =
      weightPublishes sys.effects := by
  obtain ⟨-, a, -⟩ := onWeightDataReceived_report sys e1 w1 hc1 hp1
  obtain ⟨a1, a2, a3⟩ := a hn1
  have hc2' : (sys.onWeightDataReceived e1 w1).edgeCommunication.isConnected e2 = true := by
    rw [onWeightDataReceived_edgeCommunication]
    exact hc2
  obtain ⟨-, b, -⟩ := onWeightDataReceived_report (sys.onWeightDataReceived e1 w1) e2 w2 hc2' hp2
  rw [a1, a2] at b
  obtain ⟨-, -, b3⟩ := b hn2
  exact ⟨a3, b3.trans a3⟩

/-- Three samples with the adapter connected and publishes succeeding, the first due, the
second not due against the report of the first, the third not due either: only the first
is published. -/
theorem first_sample_only (sys : TavoloSystem) (e1 e2 e3 : Env) (w1 w2 w3 : ℚ)
    (hconn : sys.edgeCommunication.currentState = .CONNECTED)
    (hm1 : e1.mqttConnected = true) (hp1 : e1.publishOk = true)
    (hm2 : e2.mqttConnected = true) (hp2 : e2.publishOk = true)
    (hm3 : e3.mqttConnected = true) (hp3 : e3.publishOk = true)
    (h1 : ulongSub e1.now sys.lastReportTime ≥ 5000 ∨
      |floatSub w1 sys.lastReportedWeight| ≥ 5)
    (h2 : ¬ (ulongSub e2.now e1.nowAfterSend ≥ 5000 ∨ |floatSub w2 w1| ≥ 5))
    (h3 : ¬ (ulongSub e3.now e1.nowAfterSend ≥ 5000 ∨ |floatSub w3 w1| ≥ 5)) :
    weightPublishes (sys.onWeightDataReceived e1 w1).effects = weightPublishes sys.effects ++
      [{ weight := w1, timestamp := e1.now, deviceId := sys.deviceId }] ∧
    (sys.onWeightDataReceived e1 w1).lastReportTime = e1.nowAfterSend ∧
    weightPublishes ((sys.onWeightDataReceived e1 w1).onWeightDataReceived e2 w2).effects =
      weightPublishes (sys.onWeightDataReceived e1 w1).effects ∧
    weightPublishes (((sys.onWeightDataReceived e1 w1).onWeightDataReceived e2
      w2).onWeightDataReceived e3 w3).effects =
      weightPublishes (sys.onWeightDataReceived e1 w1).effects := by
  have conn : ∀ (t : TavoloSystem) (e : Env), e.mqttConnected = true →
      t.edgeCommunication = sys.edgeCommunication →
      t.edgeCommunication.isConnected e = true := by
    intro t e hm ht
    rw [ht]
    simp [EdgeCommunication.isConnected, hconn, hm]
  obtain ⟨a, -, -⟩ := onWeightDataReceived_report sys e1 w1 (conn sys e1 hm1 rfl) hp1
  obtain ⟨a1, a2, a3⟩ := a h1
  have ae : (sys.onWeightDataReceived e1 w1).edgeCommunication = sys.edgeCommunication :=
    onWeightDataReceived_edgeCommunication sys e1 w1
  have h := samples_not_due_are_not_sent (sys.onWeightDataReceived e1 w1) e2 e3 w2 w3
    (conn _ e2 hm2 ae) hp2 (conn _ e3 hm3 ae) hp3 (by rw [a1, a2]; exact h2)
    (by rw [a1, a2]; exact h3)
  exact ⟨a3, a2, h.1, h.2⟩

/-- C16 fails as stated, in two ways, both from the initial snapshot (last reported weight
0 at time 0) with the adapter connected and publishes succeeding.

The first sample is not always sent: with the 32-bit clock at 1000 (4294968296 ms after
boot), a first sample of weight 2 is not sent (1000 < 5000 and the difference 2 is below
5), and neither is the second sample of weight 4 at clock value 1500.

The third sample is not always sent: the first sample, weight 10 at 6000 ms, is sent and
the send returns 2 ms later, so the report time stored is 6002; the second sample, weight
12 at 6500 ms, is not sent; the third sample, weight 10 at 6000 + 5001 ms, comes 4999 ms
after the stored report time and is not sent. -/
theorem throttle_first_or_third_sample_is_not_sent :
    exampleConnected.lastReportedWeight = 0 ∧ exampleConnected.lastReportTime = 0 ∧
    exampleConnected.edgeCommunication.currentState = .CONNECTED ∧
    ((onlineAt 4294968296).now = 1000 ∧ (onlineAt 4294968796).now = 1500 ∧
      |(4 : ℚ) - 2| = 2 ∧
      weightPublishes (exampleConnected.onWeightDataReceived (onlineAt 4294968296) 2).effects =
        weightPublishes exampleConnected.effects ∧
      weightPublishes ((exampleConnected.onWeightDataReceived (onlineAt 4294968296)
        2).onWeightDataReceived (onlineAt 4294968796) 4).effects =
        weightPublishes exampleConnected.effects) ∧
    ((6000 ≤ 6500 ∧ 6500 ≤ 6000 + 1000 ∧ |(12 : ℚ) - 10| = 2) ∧
      weightPublishes (exampleConnected.onWeightDataReceived (sendingAt 6000 2) 10).effects =
        weightPublishes exampleConnected.effects ++
          [{ weight := 10, timestamp := 6000, deviceId := exampleConnected.deviceId }] ∧
      (exampleConnected.onWeightDataReceived (sendingAt 6000 2) 10).lastReportTime = 6002 ∧
      weightPublishes ((exampleConnected.onWeightDataReceived (sendingAt 6000 2)
        10).onWeightDataReceived (onlineAt 6500) 12).effects =
        weightPublishes (exampleConnected.onWeightDataReceived (sendingAt 6000 2)
          10).effects ∧
      weightPublishes (((exampleConnected.onWeightDataReceived (sendingAt 6000 2)
        10).onWeightDataReceived (onlineAt 6500) 12).onWeightDataReceived
        (onlineAt (6000 + 5001)) 10).effects =
        weightPublishes (exampleConnected.onWeightDataReceived (sendingAt 6000 2)
          10).effects) := by
  have f2 : |floatSub (2 : ℚ) 0| = 2 := by
    rw [floatSub_zero_right 2 roundBinary32_two.1]
    norm_num
  have f4 : |floatSub (4 : ℚ) 0| = 4 := by
    rw [floatSub_zero_right 4 roundBinary32_four_ten.1]
    norm_num
  have f10 : |floatSub (10 : ℚ) 0| = 10 := by
    rw [floatSub_zero_right 10 roundBinary32_four_ten.2]
    norm_num
  have f12 : |floatSub (12 : ℚ) 10| = 2 := floatSub_of_abs_eq_two 12 10 (by norm_num)
  have f00 : |floatSub (10 : ℚ) 10| = 0 := by
    unfold floatSub roundBinary32
    norm_num
  have hn1 : ¬ (ulongSub (onlineAt 4294968296).now exampleConnected.lastReportTime ≥ 5000 ∨
      |floatSub 2 exampleConnected.lastReportedWeight| ≥ 5) := by
    show ¬ (ulongSub 1000 0 ≥ 5000 ∨ |floatSub (2 : ℚ) 0| ≥ 5)
    rw [f2]
    norm_num [ulongSub, ULONG_MODULUS]
  have hn2 : ¬ (ulongSub (onlineAt 4294968796).now exampleConnected.lastReportTime ≥ 5000 ∨
      |floatSub 4 exampleConnected.lastReportedWeight| ≥ 5) := by
    show ¬ (ulongSub 1500 0 ≥ 5000 ∨ |floatSub (4 : ℚ) 0| ≥ 5)
    rw [f4]
    norm_num [ulongSub, ULONG_MODULUS]
  have early := samples_not_due_are_not_sent exampleConnected (onlineAt 4294968296)
    (onlineAt 4294968796) 2 4 rfl rfl rfl rfl hn1 hn2
  have hd1 : ulongSub (sendingAt 6000 2).now exampleConnected.lastReportTime ≥ 5000 ∨
      |floatSub 10 exampleConnected.lastReportedWeight| ≥ 5 := by
    right
    show |floatSub (10 : ℚ) 0| ≥ 5
    rw [f10]
    norm_num
  have hd2 : ¬ (ulongSub (onlineAt 6500).now (sendingAt 6000 2).nowAfterSend ≥ 5000 ∨
      |floatSub (12 : ℚ) 10| ≥ 5) := by
    show ¬ (ulongSub 6500 6002 ≥ 5000 ∨ |floatSub (12 : ℚ) 10| ≥ 5)
    rw [f12]
    norm_num [ulongSub, ULONG_MODULUS]
  have hd3 : ¬ (ulongSub (onlineAt (6000 + 5001)).now (sendingAt 6000 2).nowAfterSend ≥ 5000 ∨
      |floatSub (10 : ℚ) 10| ≥ 5) := by
    show ¬ (ulongSub 11001 6002 ≥ 5000 ∨ |floatSub (10 : ℚ) 10| ≥ 5)
    rw [f00]
    norm_num [ulongSub, ULONG_MODULUS]
  have late := first_sample_only exampleConnected (sendingAt 6000 2) (onlineAt 6500)
    (onlineAt (6000 + 5001)) 10 12 10 rfl rfl rfl rfl rfl rfl rfl hd1 hd2 hd3
  exact ⟨rfl, rfl, rfl, ⟨rfl, rfl, by norm_num, early.1, early.2⟩,
    ⟨⟨by decide, by decide, by norm_num⟩, late.1, late.2.1, late.2.2.1, late.2.2.2⟩⟩

/-- C16 as amended. With a connected adapter whose sends succeed and the initial
snapshot (last reported weight 0 at time 0): for every first sample that is due, that is
with `t1` modulo 2^32 at least 5000 or `|w1| ≥ 5` (`w1` a `float`), whose send returns
`d1` ms later, every second sample at `t2` with `t1 + d1 ≤ t2 ≤ t1 + 1000` and
`|w2 - w1| = 2`, and every third sample at a time `t3` at least 5000 ms and less than
2^32 ms after `t1 + d1`, with any weight, `onWeightDataReceived` publishes the first
sample, does not publish the second, and publishes the third. The report time stored is
the clock value after the send. -/
theorem reporting_throttle (sys : TavoloSystem) (t1 d1 t2 d2 t3 d3 : Nat) (w1 w2 w3 : ℚ)
    (hconn : sys.edgeCommunication.currentState = .CONNECTED)
    (h0w : sys.lastReportedWeight = 0) (h0t : sys.lastReportTime = 0)
    (hf : roundBinary32 w1 = w1)
    (hdue : t1 % 4294967296 ≥ 5000 ∨ |w1| ≥ 5)
    (h12 : t1 + d1 ≤ t2) (h21 : t2 ≤ t1 + 1000) (hw : |w2 - w1| = 2)
    (h3a : t1 + d1 + 5000 ≤ t3) (h3b : t3 < t1 + d1 + 4294967296) :
    let s1 := sys.onWeightDataReceived (sendingAt t1 d1) w1
    let s2 := s1.onWeightDataReceived (sendingAt t2 d2) w2
    let s3 := s2.onWeightDataReceived (sendingAt t3 d3) w3
    weightPublishes s1.effects = weightPublishes sys.effects ++
      [{ weight := w1, timestamp := t1 % 4294967296, deviceId := sys.deviceId }] ∧
    weightPublishes s2.effects = weightPublishes s1.effects ∧
    weightPublishes s3.effects = weightPublishes s2.effects ++
      [{ weight := w3, timestamp := t3 % 4294967296, deviceId := sys.deviceId }] ∧
    (s1.lastReportedWeight = w1 ∧ s1.lastReportTime = (t1 + d1) % 4294967296) ∧
    (s2.lastReportedWeight = w1 ∧ s2.lastReportTime = (t1 + d1) % 4294967296) ∧
    (s3.lastReportedWeight = w3 ∧ s3.lastReportTime = (t3 + d3) % 4294967296) := by
  intro s1 s2 s3
  have conn : ∀ (t : TavoloSystem) (m d : Nat), t.edgeCommunication = sys.edgeCommunication →
      t.edgeCommunication.isConnected (sendingAt m d) = true := by
    intro t m d ht
    rw [ht]
    simp [EdgeCommunication.isConnected, hconn, sendingAt]
  have now : ∀ m d : Nat, (sendingAt m d).now = m % 4294967296 := fun m d => rfl
  have after : ∀ m d : Nat, (sendingAt m d).nowAfterSend = (m + d) % 4294967296 :=
    fun m d => rfl
  -- first sample
  obtain ⟨a, -, ad⟩ := onWeightDataReceived_report sys (sendingAt t1 d1) w1
    (conn sys t1 d1 rfl) rfl
  rw [h0w, h0t, now, after, floatSub_zero_right w1 hf] at a
  obtain ⟨a1, a2, a3⟩ := a (by
    rcases hdue with h | h
    · left
      unfold ulongSub ULONG_MODULUS
      omega
    · exact Or.inr h)
  have ae : s1.edgeCommunication = sys.edgeCommunication :=
    onWeightDataReceived_edgeCommunication sys (sendingAt t1 d1) w1
  -- second sample
  obtain ⟨-, b, bd⟩ := onWeightDataReceived_report s1 (sendingAt t2 d2) w2
    (conn s1 t2 d2 ae) rfl
  rw [a1, a2, now] at b
  obtain ⟨b1, b2, b3⟩ := b (by
    intro h
    rcases h with h | h
    · unfold ulongSub ULONG_MODULUS at h
      omega
    · rw [floatSub_of_abs_eq_two w2 w1 hw] at h
      norm_num at h)
  have be : s2.edgeCommunication = sys.edgeCommunication :=
    (onWeightDataReceived_edgeCommunication s1 (sendingAt t2 d2) w2).trans ae
  -- third sample
  obtain ⟨c, -, -⟩ := onWeightDataReceived_report s2 (sendingAt t3 d3) w3
    (conn s2 t3 d3 be) rfl
  rw [b1, b2, now, after] at c
  obtain ⟨c1, c2, c3⟩ := c (by
    left
    unfold ulongSub ULONG_MODULUS
    omega)
  have d2' : s2.deviceId = sys.deviceId := bd.trans ad
  rw [d2'] at c3
  exact ⟨a3, b3, c3, ⟨a1, a2⟩, ⟨b1, b2⟩, ⟨c1, c2⟩⟩

/-- C16 as amended, at a concrete input across the wrap of the 32-bit clock: first
sample of weight 2 at 4294967000 ms, sent within 1 ms; second of weight 4 at
4294967800 ms; third of weight 4 at 4294967000 + 5001 ms. -/
theorem reporting_throttle_witness :
    exampleConnected.edgeCommunication.currentState = .CONNECTED ∧
    exampleConnected.lastReportedWeight = 0 ∧ exampleConnected.lastReportTime = 0 ∧
    roundBinary32 2 = 2 ∧
    (4294967000 % 4294967296 ≥ 5000 ∨ |(2 : ℚ)| ≥ 5) ∧
    4294967000 + 1 ≤ 4294967800 ∧ 4294967800 ≤ 4294967000 + 1000 ∧ |(4 : ℚ) - 2| = 2 ∧
    4294967000 + 1 + 5000 ≤ 4294967000 + 5001 ∧
    4294967000 + 5001 < 4294967000 + 1 + 4294967296 ∧
    (let s1 := exampleConnected.onWeightDataReceived (sendingAt 4294967000 1) 2
     let s2 := s1.onWeightDataReceived (sendingAt 4294967800 1) 4
     let s3 := s2.onWeightDataReceived (sendingAt (4294967000 + 5001) 1) 4
     weightPublishes s1.effects = weightPublishes exampleConnected.effects ++
       [{ weight := 2, timestamp := 4294967000 % 4294967296,
          deviceId := exampleConnected.deviceId }] ∧
     weightPublishes s2.effects = weightPublishes s1.effects ∧
     weightPublishes s3.effects = weightPublishes s2.effects ++
       [{ weight := 4, timestamp := (4294967000 + 5001) % 4294967296,
          deviceId := exampleConnected.deviceId }] ∧
     (s1.lastReportedWeight = 2 ∧ s1.lastReportTime = (4294967000 + 1) % 4294967296) ∧
     (s2.lastReportedWeight = 2 ∧ s2.lastReportTime = (4294967000 + 1) % 4294967296) ∧
     (s3.lastReportedWeight = 4 ∧
       s3.lastReportTime = (4294967000 + 5001 + 1) % 4294967296)) :=
  have hdue : 4294967000 % 4294967296 ≥ 5000 ∨ |(2 : ℚ)| ≥ 5 := Or.inl (by decide)
  have hw : |(4 : ℚ) - 2| = 2 := by norm_num
  ⟨rfl, rfl, rfl, roundBinary32_two.1, hdue, by decide, by decide, hw, by decide, by decide,
    reporting_throttle exampleConnected 4294967000 1 4294967800 1 (4294967000 + 5001) 1 2 4 4
      rfl rfl rfl roundBinary32_two.1 hdue (by decide) (by decide) hw (by decide) (by decide)⟩

/-! ## C18: the tick in `CALIBRATING` -/

/-- One tick in `CALIBRATING`: the state moves to `IDLE` exactly when `millis()` is
above 5000. -/
theorem updateStateMachine_calibrating (sys : TavoloSystem) (env : Env)
    (h : sys.currentSystemState = .CALIBRATING) :
    (sys.updateStateMachine env).currentSystemState =
      (if env.now > 5000 then SystemState.IDLE else SystemState.CALIBRATING) := by
  unfold TavoloSystem.updateStateMachine
  rw [h]
  dsimp only
  split <;> simp [h]

/-- C18 fails as stated: at an elapsed time of exactly 5000 ms the tick leaves the
example system in `CALIBRATING`. -/
theorem calibrating_tick_at_5000_stays :
    exampleCalibrating.currentSystemState = .CALIBRATING ∧
    (onlineAt 5000).now = 5000 ∧
    (exampleCalibrating.updateStateMachine (onlineAt 5000)).currentSystemState =
      .CALIBRATING ∧
    (exampleCalibrating.updateStateMachine (onlineAt 5000)).currentSystemState ≠ .IDLE := by
  have h : (exampleCalibrating.updateStateMachine (onlineAt 5000)).currentSystemState =
      .CALIBRATING :=
    (updateStateMachine_calibrating exampleCalibrating (onlineAt 5000) rfl).trans
      (if_neg (by decide))
  refine ⟨rfl, rfl, h, ?_⟩
  rw [h]
  decide

/-- C18 as amended. In every tick in `CALIBRATING`: the state after the tick is `IDLE`
if the elapsed time since boot (`millis()`) is above 5000 ms, and it stays `CALIBRATING`
if the elapsed time is 5000 ms or below. -/
theorem calibrating_tick (sys : TavoloSystem) (env : Env)
    (h : sys.currentSystemState = .CALIBRATING) :
    (env.now > 5000 → (sys.updateStateMachine env).currentSystemState = .IDLE) ∧
    (env.now ≤ 5000 → (sys.updateStateMachine env).currentSystemState = .CALIBRATING) := by
  rw [updateStateMachine_calibrating sys env h]
  constructor
  · intro ht
    rw [if_pos ht]
  · intro ht
    rw [if_neg (not_lt.mpr ht)]

/-- C18 as amended, at concrete inputs: 5001 ms and 5000 ms. -/
theorem calibrating_tick_witness :
    exampleCalibrating.currentSystemState = .CALIBRATING ∧
    ((onlineAt 5001).now > 5000 ∧
      (exampleCalibrating.updateStateMachine (onlineAt 5001)).currentSystemState = .IDLE) ∧
    ((onlineAt 5000).now ≤ 5000 ∧
      (exampleCalibrating.updateStateMachine (onlineAt 5000)).currentSystemState =
        .CALIBRATING) :=
  ⟨rfl,
   ⟨by decide, (calibrating_tick exampleCalibrating (onlineAt 5001) rfl).1 (by decide)⟩,
   ⟨by decide, (calibrating_tick exampleCalibrating (onlineAt 5000) rfl).2 (by decide)⟩⟩

/-! ## C19: LED pattern and device state after a transition -/

theorem setPattern_currentPattern (led : LedActuator) (env : Env) (p : BlinkPattern) :
    (led.setPattern env p).1.currentPattern = p := by
  unfold LedActuator.setPattern
  split
  · cases p <;> rfl
  · rename_i h
    exact not_not.mp h

theorem setState_currentState (d : Device) (st : DeviceState) :
    (d.setState st).1.currentState = st := by
  unfold Device.setState
  dsimp only
  split
  · rfl
  · rename_i h
    exact not_not.mp h

/-- C19. For every pair of distinct states, after `changeSystemState(new)` the LED
pattern is `FAST_BLINK` if `new` is `INITIALIZING`, `PULSE` if `CALIBRATING`, `OFF` if
`IDLE`, `ON` if `THRESHOLD_EXCEEDED`, `FAST_BLINK` if `COMMUNICATION_ERROR`, `SLOW_BLINK`
if `MAINTENANCE`, and unchanged if `MEASURING`; and the device state is `INITIALIZING` if
`new` is `INITIALIZING`, `READY` if `IDLE`, `ACTIVE` if `MEASURING`, `ERROR` if
`COMMUNICATION_ERROR`, `MAINTENANCE` if `MAINTENANCE`, and unchanged if `CALIBRATING` or
`THRESHOLD_EXCEEDED`. -/
theorem transition_sets_led_pattern_and_device_state (sys : TavoloSystem) (env : Env)
    (new : SystemState) (h : sys.currentSystemState ≠ new) :
    (sys.changeSystemState env new).ledActuator.currentPattern =
      (match new with
        | .INITIALIZING => BlinkPattern.FAST_BLINK
        | .CALIBRATING => BlinkPattern.PULSE
        | .IDLE => BlinkPattern.OFF
        | .MEASURING => sys.ledActuator.currentPattern
        | .THRESHOLD_EXCEEDED => BlinkPattern.ON
        | .COMMUNICATION_ERROR => BlinkPattern.FAST_BLINK
        | .MAINTENANCE => BlinkPattern.SLOW_BLINK) ∧
    (sys.changeSystemState env new).currentState =
      (match new with
        | .INITIALIZING => DeviceState.INITIALIZING
        | .CALIBRATING => sys.currentState
        | .IDLE => DeviceState.READY
        | .MEASURING => DeviceState.ACTIVE
        | .THRESHOLD_EXCEEDED => sys.currentState
        | .COMMUNICATION_ERROR => DeviceState.ERROR
        | .MAINTENANCE => DeviceState.MAINTENANCE) := by
  have hx : ∀ st, (sys.handleStateExit st).ledActuator = sys.ledActuator ∧
      (sys.handleStateExit st).toDevice = sys.toDevice := by
    intro st
    cases st <;> simp [TavoloSystem.handleStateExit]
    split <;> exact ⟨rfl, rfl⟩
  unfold TavoloSystem.changeSystemState
  rw [if_pos h]
  dsimp only
  obtain ⟨x1, x2⟩ := hx sys.currentSystemState
  cases new <;>
    simp only [TavoloSystem.handleStateEntry, TavoloSystem.ledActuator_setPattern,
      TavoloSystem.setState, TavoloSystem.displayManager_showStatusMessage,
      TavoloSystem.displayManager_showErrorMessage, TavoloSystem.tare,
      TavoloSystem.weightSensor_tare, TavoloSystem.emit, setPattern_currentPattern,
      setState_currentState, x1, x2] <;>
    (try split) <;>
    (try simp [setPattern_currentPattern, setState_currentState, x1, x2])

/-- C19 at concrete inputs: from `MEASURING` (LED `OFF`, device `INITIALIZING`) to
`THRESHOLD_EXCEEDED` and to `MAINTENANCE`. -/
theorem transition_sets_led_pattern_and_device_state_witness :
    exampleMeasuring.currentSystemState ≠ .THRESHOLD_EXCEEDED ∧
    exampleMeasuring.currentSystemState ≠ .MAINTENANCE ∧
    ((exampleMeasuring.changeSystemState exampleEnv .THRESHOLD_EXCEEDED).ledActuator.currentPattern =
        .ON ∧
      (exampleMeasuring.changeSystemState exampleEnv .THRESHOLD_EXCEEDED).currentState =
        exampleMeasuring.currentState) ∧
    ((exampleMeasuring.changeSystemState exampleEnv .MAINTENANCE).ledActuator.currentPattern =
        .SLOW_BLINK ∧
      (exampleMeasuring.changeSystemState exampleEnv .MAINTENANCE).currentState =
        .MAINTENANCE) :=
  ⟨by decide, by decide,
   transition_sets_led_pattern_and_device_state exampleMeasuring exampleEnv
     .THRESHOLD_EXCEEDED (by decide),
   transition_sets_led_pattern_and_device_state exampleMeasuring exampleEnv
     .MAINTENANCE (by decide)⟩

/-! ## C20: threshold events -/

@[simp] theorem thresholdEvents_append (a b : List Effect) :
    thresholdEvents (a ++ b) = thresholdEvents a ++ thresholdEvents b := by
  simp [thresholdEvents, List.filterMap_append]

@[simp] theorem thresholdEvents_nil : thresholdEvents [] = [] := rfl

@[simp] theorem thresholdEvents_cons_threshold (b : Bool) (es : List Effect) :
    thresholdEvents (Effect.thresholdStateChange b :: es) = b :: thresholdEvents es := rfl

@[simp] theorem thresholdEvents_setPattern (led : LedActuator) (env : Env) (p : BlinkPattern) :
    thresholdEvents (led.setPattern env p).2 = [] := by
  unfold LedActuator.setPattern
  split
  · cases p <;> simp [thresholdEvents, LedActuator.writeLed]
  · rfl

@[simp] theorem thresholdEvents_setState (d : Device) (st : DeviceState) :
    thresholdEvents (d.setState st).2 = [] := by
  unfold Device.setState Device.notifyStateChange
  dsimp only
  split
  · split <;> simp [thresholdEvents]
  · rfl

@[simp] theorem thresholdEvents_setMode (dm : DisplayManager) (mode : DisplayMode) :
    thresholdEvents (dm.setMode mode).2 = [] := by
  unfold DisplayManager.setMode
  split <;> simp [thresholdEvents]

@[simp] theorem thresholdEvents_showStatusMessage (dm : DisplayManager) (env : Env)
    (message : String) (timeout : Nat) :
    thresholdEvents (dm.showStatusMessage env message timeout).2 = [] := by
  simp [DisplayManager.showStatusMessage]

@[simp] theorem thresholdEvents_showErrorMessage (dm : DisplayManager) (env : Env)
    (message : String) (timeout : Nat) :
    thresholdEvents (dm.showErrorMessage env message timeout).2 = [] := by
  simp [DisplayManager.showErrorMessage]

@[simp] theorem thresholdEvents_sensor_tare (ws : WeightSensor) :
    thresholdEvents ws.tare.2 = [] := by
  unfold WeightSensor.tare
  split <;> simp [thresholdEvents]

@[simp] theorem thresholdEvents_transitionLog (a b : SystemState) :
    thresholdEvents (transitionLog a b) = [] := by
  simp [thresholdEvents, transitionLog]

theorem changeSystemState_thresholdEvents (sys : TavoloSystem) (env : Env) (new : SystemState)
    (hcb : sys.onThresholdStateChangeCallback = true) :
    thresholdEvents (sys.changeSystemState env new).effects =
      thresholdEvents sys.effects ++ thresholdEventsOfChange sys.currentSystemState new := by
  obtain ⟨dev, ws, led, dm, ec, S, cfg, cw, lrw, lmt, lrt, te, cb1, cb2, es⟩ := sys
  simp only at hcb
  subst hcb
  by_cases h : S = new
  · subst h
    simp [TavoloSystem.changeSystemState, thresholdEventsOfChange]
  · cases new <;> cases S <;> first
    | exact absurd rfl h
    | (simp [TavoloSystem.changeSystemState, TavoloSystem.handleStateExit,
        TavoloSystem.handleStateEntry, TavoloSystem.ledActuator_setPattern,
        TavoloSystem.setState, TavoloSystem.displayManager_showStatusMessage,
        TavoloSystem.displayManager_showErrorMessage, TavoloSystem.tare,
        TavoloSystem.weightSensor_tare, TavoloSystem.emit, thresholdEventsOfChange] <;>
       (try split) <;> (try simp))

theorem updateStateMachine_thresholdEvents (sys : TavoloSystem) (env : Env)
    (hcb : sys.onThresholdStateChangeCallback = true) :
    thresholdEvents (sys.updateStateMachine env).effects =
      thresholdEvents sys.effects ++
        thresholdEventsOfChange sys.currentSystemState
          (sys.updateStateMachine env).currentSystemState := by
  have same : thresholdEvents sys.effects =
      thresholdEvents sys.effects ++
        thresholdEventsOfChange sys.currentSystemState sys.currentSystemState := by
    simp [thresholdEventsOfChange]
  have change : ∀ X, thresholdEvents (sys.changeSystemState env X).effects =
      thresholdEvents sys.effects ++
        thresholdEventsOfChange sys.currentSystemState
          (sys.changeSystemState env X).currentSystemState := by
    intro X
    rw [changeSystemState_currentSystemState]
    exact changeSystemState_thresholdEvents sys env X hcb
  unfold TavoloSystem.updateStateMachine
  split
  · split
    · exact change _
    · exact same
  · split
    · exact change _
    · exact same
  · split
    · exact change _
    · exact same
  · unfold TavoloSystem.checkThreshold
    dsimp only
    split
    · split
      · rw [changeSystemState_currentSystemState]
        exact changeSystemState_thresholdEvents
          { sys with thresholdExceeded := decide (sys.currentWeight > sys.config.weightThreshold) }
          env _ hcb
      · split
        · rw [changeSystemState_currentSystemState]
          exact changeSystemState_thresholdEvents
            { sys with thresholdExceeded := decide (sys.currentWeight > sys.config.weightThreshold) }
            env _ hcb
        · exact same
    · exact same
  · split
    · exact change _
    · exact same
  · split
    · exact change _
    · exact same
  · exact same

/-- The effects a transition adds, and the threshold events among them. -/
theorem changeSystemState_added (sys : TavoloSystem) (env : Env) (new : SystemState)
    (hcb : sys.onThresholdStateChangeCallback = true) :
    ∃ added : List Effect,
      (sys.changeSystemState env new).effects = sys.effects ++ added ∧
      thresholdEvents added = thresholdEventsOfChange sys.currentSystemState new := by
  refine ⟨(({ sys with effects := [] } : TavoloSystem).changeSystemState env new).effects,
    ?_, ?_⟩
  · have h := changeSystemState_effects_prefix sys env new sys.effects
    have h2 : sys.changeSystemState env new = _ := h
    rw [h2]
  · have h := changeSystemState_thresholdEvents ({ sys with effects := [] } : TavoloSystem)
      env new hcb
    simpa using h

/-- The effects a tick adds, and the threshold events among them. -/
theorem updateStateMachine_added (sys : TavoloSystem) (env : Env)
    (hcb : sys.onThresholdStateChangeCallback = true) :
    ∃ added : List Effect,
      (sys.updateStateMachine env).effects = sys.effects ++ added ∧
      thresholdEvents added =
        thresholdEventsOfChange sys.currentSystemState
          (sys.updateStateMachine env).currentSystemState := by
  have same : ∃ added : List Effect, sys.effects = sys.effects ++ added ∧
      thresholdEvents added =
        thresholdEventsOfChange sys.currentSystemState sys.currentSystemState :=
    ⟨[], by simp, by simp [thresholdEventsOfChange]⟩
  have change : ∀ X, ∃ added : List Effect,
      (sys.changeSystemState env X).effects = sys.effects ++ added ∧
      thresholdEvents added =
        thresholdEventsOfChange sys.currentSystemState
          (sys.changeSystemState env X).currentSystemState := by
    intro X
    rw [changeSystemState_currentSystemState]
    exact changeSystemState_added sys env X hcb
  have flagged : ∀ (t : TavoloSystem), t.effects = sys.effects →
      t.currentSystemState = sys.currentSystemState →
      t.onThresholdStateChangeCallback = true → ∀ X, ∃ added : List Effect,
      (t.changeSystemState env X).effects = sys.effects ++ added ∧
      thresholdEvents added =
        thresholdEventsOfChange sys.currentSystemState
          (t.changeSystemState env X).currentSystemState := by
    intro t h1 h2 h3 X
    rw [changeSystemState_currentSystemState, ← h1, ← h2]
    exact changeSystemState_added t env X h3
  unfold TavoloSystem.updateStateMachine
  split
  · split
    · exact change _
    · exact same
  · split
    · exact change _
    · exact same
  · split
    · exact change _
    · exact same
  · unfold TavoloSystem.checkThreshold
    dsimp only
    split
    · split
      · apply flagged
        · rfl
        · rfl
        · exact hcb
      · split
        · apply flagged
          · rfl
          · rfl
          · exact hcb
        · exact same
    · exact same
  · split
    · exact change _
    · exact same
  · split
    · exact change _
    · exact same
  · exact same

/-- C20. With a threshold-state-changed callback registered, for every call
`changeSystemState(new)` and for every state-machine tick, the threshold events among the
effects the call adds are those of the change of state it makes: `true`, once, exactly
when the state changes into `THRESHOLD_EXCEEDED`; `false`, once, exactly when it changes
out of `THRESHOLD_EXCEEDED`; none otherwise, in particular none when the state does not
change. -/
theorem threshold_event_once_per_change (sys : TavoloSystem) (env : Env) (new : SystemState)
    (hcb : sys.onThresholdStateChangeCallback = true) :
    (∃ added : List Effect,
      (sys.changeSystemState env new).effects = sys.effects ++ added ∧
      thresholdEvents added = thresholdEventsOfChange sys.currentSystemState new) ∧
    (∃ added : List Effect,
      (sys.updateStateMachine env).effects = sys.effects ++ added ∧
      thresholdEvents added =
        thresholdEventsOfChange sys.currentSystemState
          (sys.updateStateMachine env).currentSystemState) ∧
    (∀ a b : SystemState,
      (a ≠ .THRESHOLD_EXCEEDED ∧ b = .THRESHOLD_EXCEEDED →
        thresholdEventsOfChange a b = [true]) ∧
      (a = .THRESHOLD_EXCEEDED ∧ b ≠ .THRESHOLD_EXCEEDED →
        thresholdEventsOfChange a b = [false]) ∧
      (¬ (a ≠ .THRESHOLD_EXCEEDED ∧ b = .THRESHOLD_EXCEEDED) ∧
        ¬ (a = .THRESHOLD_EXCEEDED ∧ b ≠ .THRESHOLD_EXCEEDED) →
        thresholdEventsOfChange a b = []) ∧
      thresholdEventsOfChange a a = []) := by
  refine ⟨changeSystemState_added sys env new hcb, updateStateMachine_added sys env hcb, ?_⟩
  intro a b
  cases a <;> cases b <;> simp [thresholdEventsOfChange]

/-- C20 at a concrete input: with the callback registered, the transition from
`MEASURING` to `THRESHOLD_EXCEEDED` adds exactly one threshold event, `true`. -/
theorem threshold_event_once_per_change_witness :
    exampleWatched.onThresholdStateChangeCallback = true ∧
    exampleWatched.currentSystemState = .MEASURING ∧
    thresholdEventsOfChange .MEASURING .THRESHOLD_EXCEEDED = [true] ∧
    (∃ added : List Effect,
      (exampleWatched.changeSystemState exampleEnv .THRESHOLD_EXCEEDED).effects =
        exampleWatched.effects ++ added ∧
      thresholdEvents added =
        thresholdEventsOfChange exampleWatched.currentSystemState .THRESHOLD_EXCEEDED) :=
  ⟨rfl, rfl, by decide,
    (threshold_event_once_per_change exampleWatched exampleEnv .THRESHOLD_EXCEEDED rfl).1⟩

/-! ## C17: a pending report and the passes of `loop` -/

@[simp] theorem weightPublishes_nil : weightPublishes [] = [] := rfl

@[simp] theorem weightPublishes_cons (e : Effect) (es : List Effect) :
    weightPublishes (e :: es) =
      (match e with
        | .publishWeight _ data => [data]
        | _ => []) ++ weightPublishes es := by
  cases e <;> rfl

@[simp] theorem weightPublishes_setPattern (led : LedActuator) (env : Env) (p : BlinkPattern) :
    weightPublishes (led.setPattern env p).2 = [] := by
  unfold LedActuator.setPattern
  split
  · cases p <;> simp [LedActuator.writeLed]
  · rfl

@[simp] theorem weightPublishes_setState (d : Device) (st : DeviceState) :
    weightPublishes (d.setState st).2 = [] := by
  unfold Device.setState Device.notifyStateChange
  dsimp only
  split
  · split <;> simp
  · rfl

@[simp] theorem weightPublishes_setMode (dm : DisplayManager) (mode : DisplayMode) :
    weightPublishes (dm.setMode mode).2 = [] := by
  unfold DisplayManager.setMode
  split <;> simp

@[simp] theorem weightPublishes_showStatusMessage (dm : DisplayManager) (env : Env)
    (message : String) (timeout : Nat) :
    weightPublishes (dm.showStatusMessage env message timeout).2 = [] := by
  simp [DisplayManager.showStatusMessage]

@[simp] theorem weightPublishes_showErrorMessage (dm : DisplayManager) (env : Env)
    (message : String) (timeout : Nat) :
    weightPublishes (dm.showErrorMessage env message timeout).2 = [] := by
  simp [DisplayManager.showErrorMessage]

@[simp] theorem weightPublishes_showWeightData (dm : DisplayManager)
    (formatFloat : ℚ → Nat → String) (w : ℚ) (status : String) :
    weightPublishes (dm.showWeightData formatFloat w status).2 = [] := by
  simp [DisplayManager.showWeightData]

@[simp] theorem weightPublishes_sensor_tare (ws : WeightSensor) :
    weightPublishes ws.tare.2 = [] := by
  unfold WeightSensor.tare
  split <;> simp

@[simp] theorem weightPublishes_transitionLog (a b : SystemState) :
    weightPublishes (transitionLog a b) = [] := by
  simp [transitionLog]

@[simp] theorem weightPublishes_commandLog (c : EdgeCommand) :
    weightPublishes (commandLog c) = [] := by
  simp [commandLog]

@[simp] theorem weightPublishes_led_update (led : LedActuator) (env : Env) :
    weightPublishes (led.update env).2 = [] := by
  unfold LedActuator.update LedActuator.updateBlinkPattern LedActuator.updatePulsePattern
  dsimp only
  repeat' split
  all_goals simp [LedActuator.writeLed, LedActuator.writeLedPWM]

@[simp] theorem weightPublishes_display_update (dm : DisplayManager) (env : Env) :
    weightPublishes (dm.update env).2 = [] := by
  unfold DisplayManager.update
  dsimp only
  repeat' split
  all_goals simp [DisplayManager.updateDisplay]

theorem SameReports.refl (a : TavoloSystem) : SameReports a a := ⟨rfl, rfl, rfl⟩

theorem SameReports.trans {a b c : TavoloSystem} (h1 : SameReports a b) (h2 : SameReports b c) :
    SameReports a c :=
  ⟨h2.1.trans h1.1, h2.2.1.trans h1.2.1, h2.2.2.trans h1.2.2⟩

theorem sameReports_emit (sys : TavoloSystem) (es : List Effect)
    (h : weightPublishes es = []) : SameReports sys (sys.emit es) := by
  refine ⟨rfl, rfl, ?_⟩
  simp [TavoloSystem.emit, h]

theorem changeSystemState_weightPublishes (sys : TavoloSystem) (env : Env) (new : SystemState) :
    weightPublishes (sys.changeSystemState env new).effects = weightPublishes sys.effects := by
  obtain ⟨dev, ws, led, dm, ec, S, cfg, cw, lrw, lmt, lrt, te, cb1, cb2, es⟩ := sys
  by_cases h : S = new
  · subst h
    simp [TavoloSystem.changeSystemState]
  · cases new <;> cases S <;> first
    | exact absurd rfl h
    | (simp [TavoloSystem.changeSystemState, TavoloSystem.handleStateExit,
        TavoloSystem.handleStateEntry, TavoloSystem.ledActuator_setPattern,
        TavoloSystem.setState, TavoloSystem.displayManager_showStatusMessage,
        TavoloSystem.displayManager_showErrorMessage, TavoloSystem.tare,
        TavoloSystem.weightSensor_tare, TavoloSystem.emit] <;>
       (try split) <;> (try split) <;> (try simp))

theorem sameReports_changeSystemState (sys : TavoloSystem) (env : Env) (new : SystemState) :
    SameReports sys (sys.changeSystemState env new) :=
  ⟨congrArg Core.lastReportedWeight (changeSystemState_core sys env new),
   congrArg Core.lastReportTime (changeSystemState_core sys env new),
   changeSystemState_weightPublishes sys env new⟩

theorem sameReports_updateStateMachine (sys : TavoloSystem) (env : Env) :
    SameReports sys (sys.updateStateMachine env) := by
  unfold TavoloSystem.updateStateMachine
  split
  · split
    · exact sameReports_changeSystemState sys env _
    · exact SameReports.refl sys
  · split
    · exact sameReports_changeSystemState sys env _
    · exact SameReports.refl sys
  · split
    · exact sameReports_changeSystemState sys env _
    · exact SameReports.refl sys
  · unfold TavoloSystem.checkThreshold
    dsimp only
    split
    · split
      · exact sameReports_changeSystemState _ env _
      · split
        · exact sameReports_changeSystemState _ env _
        · exact ⟨rfl, rfl, rfl⟩
    · exact ⟨rfl, rfl, rfl⟩
  · split
    · exact sameReports_changeSystemState sys env _
    · exact SameReports.refl sys
  · split
    · exact sameReports_changeSystemState sys env _
    · exact SameReports.refl sys
  · exact SameReports.refl sys

theorem sameReports_onConnectionStateChanged (sys : TavoloSystem) (env : Env)
    (state : ConnectionState) : SameReports sys (sys.onConnectionStateChanged env state) := by
  unfold TavoloSystem.onConnectionStateChanged
  repeat' split
  all_goals first
    | exact sameReports_changeSystemState sys env _
    | exact SameReports.refl sys

theorem sameReports_ledActuator_setPattern (sys : TavoloSystem) (env : Env) (p : BlinkPattern) :
    SameReports sys (sys.ledActuator_setPattern env p) := by
  refine ⟨rfl, rfl, ?_⟩
  simp [TavoloSystem.ledActuator_setPattern]

theorem sameReports_tare (sys : TavoloSystem) (env : Env) :
    SameReports sys (sys.tare env) := by
  refine ⟨rfl, rfl, ?_⟩
  simp [TavoloSystem.tare, TavoloSystem.weightSensor_tare,
    TavoloSystem.displayManager_showStatusMessage]

theorem sameReports_onEdgeCommandReceived (sys : TavoloSystem) (toFloat : String → ℚ)
    (env : Env) (cmd : EdgeCommand) :
    SameReports sys (sys.onEdgeCommandReceived toFloat env cmd) := by
  have h0 : SameReports sys (sys.emit (commandLog cmd)) := sameReports_emit sys _ (by simp)
  unfold TavoloSystem.onEdgeCommandReceived TavoloSystem.calibrate
  dsimp only
  repeat' split
  · refine h0.trans ⟨rfl, rfl, ?_⟩
    simp [TavoloSystem.setWeightThreshold, TavoloSystem.emit]
  · exact h0.trans (sameReports_ledActuator_setPattern _ env _)
  · exact h0.trans (sameReports_ledActuator_setPattern _ env _)
  · exact h0.trans (sameReports_tare _ env)
  · exact h0.trans (sameReports_changeSystemState _ env _)
  · exact h0.trans (sameReports_changeSystemState _ env _)
  · exact h0.trans (sameReports_changeSystemState _ env _)
  · exact h0

theorem sameReports_ledActuator_update (sys : TavoloSystem) (env : Env) :
    SameReports sys (sys.ledActuator_update env) := by
  refine ⟨rfl, rfl, ?_⟩
  simp [TavoloSystem.ledActuator_update]

theorem sameReports_displayManager_update (sys : TavoloSystem) (env : Env) :
    SameReports sys (sys.displayManager_update env) := by
  refine ⟨rfl, rfl, ?_⟩
  simp [TavoloSystem.displayManager_update]

theorem sameReports_updateDisplay (sys : TavoloSystem) (formatFloat : ℚ → Nat → String) :
    SameReports sys (sys.updateDisplay formatFloat) := by
  unfold TavoloSystem.updateDisplay
  split
  · refine ⟨rfl, rfl, ?_⟩
    simp
  · exact SameReports.refl sys

theorem sameReports_ite {a x y : TavoloSystem} {c : Prop} [Decidable c]
    (h1 : SameReports a x) (h2 : SameReports a y) : SameReports a (if c then x else y) := by
  split
  · exact h1
  · exact h2

theorem sameReports_setConnectionState (sys : TavoloSystem) (env : Env)
    (newState : ConnectionState) :
    SameReports sys (sys.edgeCommunication_setConnectionState env newState) := by
  unfold TavoloSystem.edgeCommunication_setConnectionState
  refine sameReports_ite ?_ (SameReports.refl sys)
  refine sameReports_ite ?_ ?_
  · refine SameReports.trans ?_ (sameReports_onConnectionStateChanged _ env newState)
    exact ⟨rfl, rfl, by simp⟩
  · exact ⟨rfl, rfl, by simp⟩

theorem sameReports_sendStatusUpdate (sys : TavoloSystem) (env : Env) (status : String) :
    SameReports sys (sys.edgeCommunication_sendStatusUpdate env status) := by
  unfold TavoloSystem.edgeCommunication_sendStatusUpdate
  split
  · exact SameReports.refl sys
  · exact sameReports_emit sys _ (by simp)

theorem sameReports_connect (sys : TavoloSystem) (env : LoopEnv) :
    SameReports sys (sys.edgeCommunication_connect env).1 := by
  unfold TavoloSystem.edgeCommunication_connect
  dsimp only
  split
  · exact (sameReports_emit sys _ (by simp)).trans (sameReports_setConnectionState _ _ _)
  · have h1 := sameReports_setConnectionState sys env.toEnv .CONNECTING
    have h2 := h1.trans (sameReports_emit _ [Effect.print "Connecting to MQTT broker: ",
      Effect.println (sys.edgeCommunication_setConnectionState env.toEnv
        .CONNECTING).edgeCommunication.mqttServer,
      Effect.mqttConnect (sys.edgeCommunication_setConnectionState env.toEnv
        .CONNECTING).edgeCommunication.clientId] (by simp))
    split
    · dsimp only
      refine SameReports.trans ?_ (sameReports_sendStatusUpdate _ _ _)
      refine SameReports.trans ?_ (sameReports_setConnectionState _ _ _)
      have h3 := h2.trans (sameReports_emit _ [Effect.println "Connected to MQTT broker",
        Effect.mqttSubscribe ((sys.edgeCommunication_setConnectionState env.toEnv
          .CONNECTING).emit [Effect.print "Connecting to MQTT broker: ",
            Effect.println (sys.edgeCommunication_setConnectionState env.toEnv
              .CONNECTING).edgeCommunication.mqttServer,
            Effect.mqttConnect (sys.edgeCommunication_setConnectionState env.toEnv
              .CONNECTING).edgeCommunication.clientId]).edgeCommunication.commandTopic]
        (by simp))
      split
      · exact h3.trans (sameReports_emit _ _ (by simp))
      · exact h3
    · dsimp only
      exact (h2.trans (sameReports_emit _ _ (by simp))).trans
        (sameReports_setConnectionState _ _ _)

theorem sameReports_onMqttMessage (sys : TavoloSystem) (toFloat : String → ℚ) (env : Env)
    (message : MqttMessage) :
    SameReports sys (sys.edgeCommunication_onMqttMessage toFloat env message) := by
  have h1 := sameReports_emit sys [Effect.print "Received MQTT message on topic: ",
    Effect.println message.topic, Effect.print "Message: ", Effect.println message.payload]
    (by simp)
  unfold TavoloSystem.edgeCommunication_onMqttMessage
  dsimp only
  split
  · exact h1.trans (sameReports_emit _ _ (by simp))
  · exact sameReports_ite (h1.trans (sameReports_onEdgeCommandReceived _ _ _ _)) h1

theorem sameReports_messages (toFloat : String → ℚ) (env : Env) (messages : List MqttMessage)
    (sys : TavoloSystem) :
    SameReports sys (messages.foldl
      (fun s message => s.edgeCommunication_onMqttMessage toFloat env message) sys) := by
  induction messages generalizing sys with
  | nil => exact SameReports.refl sys
  | cons m rest ih =>
    exact (sameReports_onMqttMessage sys toFloat env m).trans (ih _)

theorem sameReports_edgeCommunication_update (sys : TavoloSystem) (toFloat : String → ℚ)
    (env : LoopEnv) : SameReports sys (sys.edgeCommunication_update toFloat env).1 := by
  unfold TavoloSystem.edgeCommunication_update
  dsimp only
  split
  · have h1 := sameReports_messages toFloat env.toEnv env.incoming sys
    split
    · exact h1.trans ⟨rfl, rfl, by simp [TavoloSystem.edgeCommunication_sendHeartbeat,
        TavoloSystem.emit]⟩
    · exact h1
  · have h1 := sameReports_setConnectionState sys env.toEnv .DISCONNECTED
    split
    · have h2 := h1.trans (sameReports_emit _
        [Effect.println "Attempting to reconnect to MQTT..."] (by simp))
      have h3 := h2.trans (sameReports_connect _ env)
      exact h3.trans ⟨rfl, rfl, rfl⟩
    · exact h1

/-- Everything `loop` does after the sensor update leaves the reporting memory alone. -/
theorem sameReports_after_sensor (sys : TavoloSystem) (toFloat : String → ℚ)
    (formatFloat : ℚ → Nat → String) (env : LoopEnv) (r : TavoloSystem × Bool)
    (hr : r = ((sys.ledActuator_update env.toEnv).displayManager_update
      env.toEnv).edgeCommunication_update toFloat env) :
    SameReports sys
      ((r.1.updateStateMachine { env.toEnv with mqttConnected := r.2 }).updateDisplay
        formatFloat) := by
  refine SameReports.trans ?_ (sameReports_updateDisplay _ _)
  refine SameReports.trans ?_ (sameReports_updateStateMachine _ _)
  rw [hr]
  refine SameReports.trans ?_ (sameReports_edgeCommunication_update _ _ _)
  exact (sameReports_ledActuator_update sys _).trans (sameReports_displayManager_update _ _)

@[simp] theorem weightPublishes_read (ws : WeightSensor) (env : LoopEnv) :
    weightPublishes (ws.read env).2 = [] := by
  unfold WeightSensor.read
  repeat' split
  all_goals simp

/-- A sensor update that delivers no sample leaves the reporting memory alone. -/
theorem sameReports_weightSensor_update (sys : TavoloSystem) (env : LoopEnv)
    (h : sys.sampleDelivered env = false) : SameReports sys (sys.weightSensor_update env) := by
  unfold TavoloSystem.sampleDelivered at h
  unfold TavoloSystem.weightSensor_update
  dsimp only
  by_cases h1 : ulongSub env.now sys.weightSensor.lastReadTime ≥ READ_INTERVAL_MS
  · rw [if_pos h1]
    by_cases h2 : (sys.weightSensor.isReady && env.scaleReady) = true
    · rw [if_pos h2]
      by_cases h3 : sys.weightSensor.shouldTriggerCallback (sys.weightSensor.read env).1 = true
      · have h4 : sys.weightSensor.onDataCallback = false := by
          simpa [h1, h2, h3] using h
        refine ⟨?_, ?_, ?_⟩ <;> simp [TavoloSystem.emit, h3, h4]
      · refine ⟨?_, ?_, ?_⟩ <;> simp [TavoloSystem.emit, h3]
    · rw [if_neg h2]
      exact SameReports.refl sys
  · rw [if_neg h1]
    exact SameReports.refl sys

theorem sameReports_loop (sys : TavoloSystem) (toFloat : String → ℚ)
    (formatFloat : ℚ → Nat → String) (env : LoopEnv)
    (h : sys.sampleDelivered env = false) :
    SameReports sys (sys.loop toFloat formatFloat env) := by
  unfold TavoloSystem.loop
  exact (sameReports_weightSensor_update sys env h).trans
    (sameReports_after_sensor _ toFloat formatFloat env _ rfl)

/-- A sensor update that delivers a sample is `onWeightDataReceived` of the reading,
up to the sensor's own members. -/
theorem weightSensor_update_delivers (sys : TavoloSystem) (env : LoopEnv)
    (h : sys.sampleDelivered env = true) :
    ∃ s3 : TavoloSystem,
      s3.lastReportedWeight = sys.lastReportedWeight ∧
      s3.lastReportTime = sys.lastReportTime ∧
      weightPublishes s3.effects = weightPublishes sys.effects ∧
      s3.edgeCommunication = sys.edgeCommunication ∧
      s3.deviceId = sys.deviceId ∧
      SameReports (s3.onWeightDataReceived env.toEnv (sys.weightSensor.read env).1)
        (sys.weightSensor_update env) := by
  unfold TavoloSystem.sampleDelivered at h
  simp only [Bool.and_eq_true, decide_eq_true_eq] at h
  obtain ⟨⟨⟨h1, h2⟩, h3⟩, h4⟩ := h
  have h2' : (sys.weightSensor.isReady && env.scaleReady) = true := by
    simp [h2.1, h2.2]
  refine ⟨{ sys.emit (sys.weightSensor.read env).2 with
      weightSensor := { sys.weightSensor with lastWeight := (sys.weightSensor.read env).1 } },
    rfl, rfl, ?_, rfl, rfl, ?_⟩
  · simp [TavoloSystem.emit]
  · unfold TavoloSystem.weightSensor_update
    dsimp only
    rw [if_pos h1, if_pos h2']
    simp only [TavoloSystem.emit, h3, h4, if_true]
    exact ⟨rfl, rfl, rfl⟩

theorem loop_with_sample (sys : TavoloSystem) (toFloat : String → ℚ)
    (formatFloat : ℚ → Nat → String) (env : LoopEnv)
    (h : sys.sampleDelivered env = true)
    (hc : sys.edgeCommunication.isConnected env.toEnv = true) (hp : env.publishOk = true)
    (hdue : ulongSub env.now sys.lastReportTime ≥ 5000 ∨
      |(sys.weightSensor.read env).1 - sys.lastReportedWeight| ≥ 5 ∨
      |floatSub (sys.weightSensor.read env).1 sys.lastReportedWeight| ≥ 5) :
    (sys.loop toFloat formatFloat env).lastReportedWeight = (sys.weightSensor.read env).1 ∧
    (sys.loop toFloat formatFloat env).lastReportTime = env.nowAfterSend ∧
    weightPublishes (sys.loop toFloat formatFloat env).effects =
      weightPublishes sys.effects ++
        [{ weight := (sys.weightSensor.read env).1, timestamp := env.now,
           deviceId := sys.deviceId }] := by
  obtain ⟨s3, a1, a2, a3, a4, a5, a6⟩ := weightSensor_update_delivers sys env h
  obtain ⟨b, -, -⟩ := onWeightDataReceived_report s3 env.toEnv (sys.weightSensor.read env).1
    (by rw [a4]; exact hc) hp
  rw [a1, a2, a3, a5] at b
  obtain ⟨b1, b2, b3⟩ := b (by
    rcases hdue with h | h | h
    · exact Or.inl h
    · exact Or.inr (five_le_abs_floatSub _ _ h)
    · exact Or.inr h)
  have hl : SameReports (sys.weightSensor_update env) (sys.loop toFloat formatFloat env) := by
    unfold TavoloSystem.loop
    exact sameReports_after_sensor _ toFloat formatFloat env _ rfl
  obtain ⟨c1, c2, c3⟩ := a6.trans hl
  exact ⟨c1.trans b1, c2.trans b2, c3.trans b3⟩

/-- A sample received while the adapter is not connected leaves the reporting memory
alone. -/
theorem sameReports_onWeightDataReceived_offline (sys : TavoloSystem) (env : Env) (w : ℚ)
    (h : sys.edgeCommunication.isConnected env = false) :
    SameReports sys (sys.onWeightDataReceived env w) := by
  unfold TavoloSystem.onWeightDataReceived TavoloSystem.reportWeightData
  dsimp only
  cases hcb : sys.onWeightChangeCallback <;>
    refine ⟨?_, ?_, ?_⟩ <;> split <;> simp [TavoloSystem.emit, h, hcb]

/-- A report is due once 5000 ms have passed since the last one. -/
theorem shouldReportWeight_of_elapsed (sys : TavoloSystem) (env : Env)
    (h : ulongSub env.now sys.lastReportTime ≥ 5000) : sys.shouldReportWeight env = true := by
  unfold TavoloSystem.shouldReportWeight REPORT_INTERVAL
  dsimp only
  rw [if_pos h]

/-- No sample is delivered while the HX711 has no conversion ready. -/
theorem sampleDelivered_of_scale_not_ready (sys : TavoloSystem) (env : LoopEnv)
    (h : env.scaleReady = false) : sys.sampleDelivered env = false := by
  simp [TavoloSystem.sampleDelivered, h]

/-- C17 fails as stated. The example system (nothing reported yet) receives a sample of
50 at 6000 ms while the MQTT client is disconnected: the report is due and is not sent.
In the next pass of `loop`, at 6050 ms, the adapter is connected, the report is still
due and the sensor delivers no sample: the pass publishes no weight message and leaves
`lastReportedWeight` and `lastReportTime` at 0. -/
theorem pending_report_is_not_retried_by_loop :
    ulongSub exampleEnvOffline.now exampleConnected.lastReportTime ≥ 5000 ∧
    exampleConnected.edgeCommunication.isConnected exampleEnvOffline = false ∧
    (exampleConnected.onWeightDataReceived exampleEnvOffline 50).currentWeight = 50 ∧
    (exampleConnected.onWeightDataReceived exampleEnvOffline 50).edgeCommunication.isConnected
      exampleLoopEnv.toEnv = true ∧
    (exampleConnected.onWeightDataReceived exampleEnvOffline 50).shouldReportWeight
      exampleLoopEnv.toEnv = true ∧
    (exampleConnected.onWeightDataReceived exampleEnvOffline 50).sampleDelivered
      exampleLoopEnv = false ∧
    ((exampleConnected.onWeightDataReceived exampleEnvOffline 50).loop exampleToFloat
      exampleFormatFloat exampleLoopEnv).lastReportedWeight = 0 ∧
    ((exampleConnected.onWeightDataReceived exampleEnvOffline 50).loop exampleToFloat
      exampleFormatFloat exampleLoopEnv).lastReportTime = 0 ∧
    weightPublishes ((exampleConnected.onWeightDataReceived exampleEnvOffline 50).loop
      exampleToFloat exampleFormatFloat exampleLoopEnv).effects = [] :=
  have h1 := sameReports_onWeightDataReceived_offline exampleConnected exampleEnvOffline 50 rfl
  have hs := sampleDelivered_of_scale_not_ready
    (exampleConnected.onWeightDataReceived exampleEnvOffline 50) exampleLoopEnv rfl
  have h2 := sameReports_loop (exampleConnected.onWeightDataReceived exampleEnvOffline 50)
    exampleToFloat exampleFormatFloat exampleLoopEnv hs
  have hc : (exampleConnected.onWeightDataReceived exampleEnvOffline
      50).edgeCommunication.isConnected exampleLoopEnv.toEnv = true :=
    (congrArg (fun ec => EdgeCommunication.isConnected ec exampleLoopEnv.toEnv)
      (onWeightDataReceived_edgeCommunication exampleConnected exampleEnvOffline 50)).trans rfl
  have hd : (exampleConnected.onWeightDataReceived exampleEnvOffline 50).shouldReportWeight
      exampleLoopEnv.toEnv = true :=
    shouldReportWeight_of_elapsed _ _ (by rw [h1.2.1]; decide)
  ⟨by decide, rfl, onWeightDataReceived_currentWeight _ _ _, hc, hd, hs,
    (h1.trans h2).1.trans rfl, (h1.trans h2).2.1.trans rfl, (h1.trans h2).2.2.trans rfl⟩

/-- C17 as amended. A pass of `loop` in which the sensor delivers no sample publishes no
weight message and leaves `lastReportedWeight` and `lastReportTime` unchanged, whether
or not a report is due and whether or not the adapter is connected. The reporting
condition is re-evaluated when the sensor delivers a sample: in a pass in which it
delivers one while the adapter is connected and publishes succeed, and the condition
holds for that sample (5000 ms have passed on the 32-bit clock, or the weights differ by 5
or more, exactly or as the `float` difference the code computes), the report is published
and both fields are updated, the report time to the clock value after the send. -/
theorem loop_reports_only_with_a_sample (sys : TavoloSystem) (toFloat : String → ℚ)
    (formatFloat : ℚ → Nat → String) (env : LoopEnv) :
    (sys.sampleDelivered env = false →
      (sys.loop toFloat formatFloat env).lastReportedWeight = sys.lastReportedWeight ∧
      (sys.loop toFloat formatFloat env).lastReportTime = sys.lastReportTime ∧
      weightPublishes (sys.loop toFloat formatFloat env).effects =
        weightPublishes sys.effects) ∧
    (sys.sampleDelivered env = true →
      sys.edgeCommunication.isConnected env.toEnv = true → env.publishOk = true →
      (ulongSub env.now sys.lastReportTime ≥ 5000 ∨
        |(sys.weightSensor.read env).1 - sys.lastReportedWeight| ≥ 5 ∨
        |floatSub (sys.weightSensor.read env).1 sys.lastReportedWeight| ≥ 5) →
      (sys.loop toFloat formatFloat env).lastReportedWeight = (sys.weightSensor.read env).1 ∧
      (sys.loop toFloat formatFloat env).lastReportTime = env.nowAfterSend ∧
      weightPublishes (sys.loop toFloat formatFloat env).effects =
        weightPublishes sys.effects ++
          [{ weight := (sys.weightSensor.read env).1, timestamp := env.now,
             deviceId := sys.deviceId }]) :=
  ⟨fun h => sameReports_loop sys toFloat formatFloat env h,
   fun h hc hp hdue => loop_with_sample sys toFloat formatFloat env h hc hp hdue⟩

/-- C17 as amended, at concrete inputs: the system holds a weight of 50 that was never
reported. A pass at 6050 ms without a conversion ready sends nothing; a pass at 6050 ms
in which the sensor delivers 60 sends the report. -/
theorem loop_reports_only_with_a_sample_witness :
    (examplePending.sampleDelivered exampleLoopEnv = false ∧
      (examplePending.loop exampleToFloat exampleFormatFloat exampleLoopEnv).lastReportTime =
        examplePending.lastReportTime) ∧
    (examplePending.sampleDelivered exampleLoopEnvReady = true ∧
      examplePending.edgeCommunication.isConnected exampleLoopEnvReady.toEnv = true ∧
      exampleLoopEnvReady.publishOk = true ∧
      ulongSub exampleLoopEnvReady.now examplePending.lastReportTime ≥ 5000 ∧
      (examplePending.loop exampleToFloat exampleFormatFloat
        exampleLoopEnvReady).lastReportTime = exampleLoopEnvReady.nowAfterSend) :=
  have hn : examplePending.sampleDelivered exampleLoopEnv = false :=
    sampleDelivered_of_scale_not_ready examplePending exampleLoopEnv rfl
  have hy : examplePending.sampleDelivered exampleLoopEnvReady = true := by
    simp [TavoloSystem.sampleDelivered, WeightSensor.shouldTriggerCallback, WeightSensor.read,
      WeightSensor.isReady, examplePending, exampleConnected, exampleSystem,
      TavoloSystem.construct, WeightSensor.construct, exampleLoopEnvReady, exampleLoopEnv,
      Env.now, ulongSub, ULONG_MODULUS, READ_INTERVAL_MS]
    have hf : floatSub (60 : ℚ) 50 = 10 := by
      unfold floatSub
      rw [show (60 : ℚ) - 50 = 10 by norm_num]
      exact roundBinary32_four_ten.2
    rw [if_neg (by norm_num), hf]
    norm_num
  have ht : ulongSub exampleLoopEnvReady.now examplePending.lastReportTime ≥ 5000 := by
    decide
  ⟨⟨hn, ((loop_reports_only_with_a_sample examplePending exampleToFloat exampleFormatFloat
      exampleLoopEnv).1 hn).2.1⟩,
   ⟨hy, rfl, rfl, ht,
    ((loop_reports_only_with_a_sample examplePending exampleToFloat exampleFormatFloat
      exampleLoopEnvReady).2 hy rfl rfl (Or.inl ht)).2.1⟩⟩

/-! ## C25: entering `MEASURING` keeps the LED pattern -/

/-- Entering `MEASURING` leaves the LED actuator, all its members, as it was. -/
theorem changeSystemState_measuring_ledActuator (sys : TavoloSystem) (env : Env) :
    (sys.changeSystemState env .MEASURING).ledActuator = sys.ledActuator := by
  obtain ⟨dev, ws, led, dm, ec, S, cfg, cw, lrw, lmt, lrt, te, cb1, cb2, es⟩ := sys
  cases S <;>
    simp [TavoloSystem.changeSystemState, TavoloSystem.handleStateExit,
      TavoloSystem.handleStateEntry, TavoloSystem.setState, TavoloSystem.emit]
  all_goals (try split)
  all_goals rfl

/-- Entering `THRESHOLD_EXCEEDED` from another state sets the LED pattern `ON`. -/
theorem changeSystemState_exceeded_pattern (sys : TavoloSystem) (env : Env)
    (h : sys.currentSystemState ≠ .THRESHOLD_EXCEEDED) :
    (sys.changeSystemState env .THRESHOLD_EXCEEDED).ledActuator.currentPattern = .ON := by
  unfold TavoloSystem.changeSystemState
  rw [if_pos h]
  unfold TavoloSystem.handleStateEntry
  dsimp only
  split <;> exact setPattern_currentPattern _ _ _

/-- C25. `changeSystemState(MEASURING)` leaves the LED actuator, and so its pattern, exactly
as it was before the call, from every old state (also from `MEASURING` itself, where the
call does nothing). In particular: once `THRESHOLD_EXCEEDED` was entered from another state
the pattern is `ON`, and when a later tick relaxes it to `MEASURING` because the weight is
below 0.9 times the threshold, the pattern after the tick is still `ON`. -/
theorem measuring_entry_keeps_led_pattern (sys : TavoloSystem) (env tickEnv : Env) :
    (sys.changeSystemState env .MEASURING).ledActuator.currentPattern =
      sys.ledActuator.currentPattern ∧
    (sys.currentSystemState = .THRESHOLD_EXCEEDED →
      sys.currentWeight < sys.config.weightThreshold * (9 / 10) →
      (sys.updateStateMachine tickEnv).currentSystemState = .MEASURING ∧
      (sys.updateStateMachine tickEnv).ledActuator.currentPattern =
        sys.ledActuator.currentPattern) ∧
    (sys.currentSystemState ≠ .THRESHOLD_EXCEEDED →
      sys.currentWeight < sys.config.weightThreshold * (9 / 10) →
      (sys.changeSystemState env .THRESHOLD_EXCEEDED).ledActuator.currentPattern = .ON ∧
      ((sys.changeSystemState env .THRESHOLD_EXCEEDED).updateStateMachine
        tickEnv).currentSystemState = .MEASURING ∧
      ((sys.changeSystemState env .THRESHOLD_EXCEEDED).updateStateMachine
        tickEnv).ledActuator.currentPattern = .ON) := by
  have relax : ∀ t : TavoloSystem, t.currentSystemState = .THRESHOLD_EXCEEDED →
      t.currentWeight < t.config.weightThreshold * (9 / 10) →
      t.updateStateMachine tickEnv = t.changeSystemState tickEnv .MEASURING := by
    intro t hs hw
    unfold TavoloSystem.updateStateMachine
    rw [hs]
    dsimp only
    rw [if_pos hw]
  refine ⟨by rw [changeSystemState_measuring_ledActuator], ?_, ?_⟩
  · intro hs hw
    rw [relax sys hs hw, changeSystemState_measuring_ledActuator]
    exact ⟨changeSystemState_currentSystemState sys tickEnv _, rfl⟩
  · intro hs hw
    have hon := changeSystemState_exceeded_pattern sys env hs
    have hst : (sys.changeSystemState env .THRESHOLD_EXCEEDED).currentSystemState =
        .THRESHOLD_EXCEEDED := changeSystemState_currentSystemState sys env _
    have hw2 : (sys.changeSystemState env .THRESHOLD_EXCEEDED).currentWeight <
        (sys.changeSystemState env .THRESHOLD_EXCEEDED).config.weightThreshold * (9 / 10) := by
      simpa using hw
    rw [relax _ hst hw2, changeSystemState_measuring_ledActuator]
    exact ⟨hon, changeSystemState_currentSystemState _ tickEnv _, hon⟩

/-- The example system in `MEASURING` with weight 80 (below 0.9 times its threshold 100)
enters `THRESHOLD_EXCEEDED`, which turns the LED on, and the next tick relaxes it to
`MEASURING` with the LED pattern still `ON`. -/
theorem measuring_entry_keeps_led_pattern_witness :
    exampleRelaxing.currentSystemState ≠ .THRESHOLD_EXCEEDED ∧
    exampleRelaxing.currentWeight < exampleRelaxing.config.weightThreshold * (9 / 10) ∧
    (exampleRelaxing.changeSystemState exampleEnv .THRESHOLD_EXCEEDED).ledActuator.currentPattern
      = .ON ∧
    ((exampleRelaxing.changeSystemState exampleEnv .THRESHOLD_EXCEEDED).updateStateMachine
      exampleEnv).currentSystemState = .MEASURING ∧
    ((exampleRelaxing.changeSystemState exampleEnv .THRESHOLD_EXCEEDED).updateStateMachine
      exampleEnv).ledActuator.currentPattern = .ON :=
  have hs : exampleRelaxing.currentSystemState ≠ .THRESHOLD_EXCEEDED := by decide
  have hw : exampleRelaxing.currentWeight < exampleRelaxing.config.weightThreshold * (9 / 10) := by
    show (80 : ℚ) < 100 * (9 / 10)
    norm_num
  ⟨hs, hw, (measuring_entry_keeps_led_pattern exampleRelaxing exampleEnv exampleEnv).2.2 hs hw⟩

/-! ## C22: `hasNewData` reports a recent read, not a new sample -/

/-- A sensor update that reads the HX711 but finds the reading within the notification
threshold of the last delivered weight: only `lastReadTime` changes, and nothing is
printed or handed to the data callback. -/
theorem weightSensor_update_quiet (sys : TavoloSystem) (env : LoopEnv)
    (h1 : ulongSub env.now sys.weightSensor.lastReadTime ≥ READ_INTERVAL_MS)
    (h2 : sys.weightSensor.isReady = true) (h3 : env.scaleReady = true)
    (h4 : sys.weightSensor.shouldTriggerCallback (sys.weightSensor.read env).1 = false) :
    sys.weightSensor_update env =
      { sys with
        weightSensor := { sys.weightSensor with lastReadTime := env.now }
        effects := sys.effects ++ (sys.weightSensor.read env).2 } ∧
    (sys.weightSensor.read env).2 = [] := by
  constructor
  · unfold TavoloSystem.weightSensor_update
    dsimp only
    rw [if_pos h1, if_pos (by simp [h2, h3])]
    simp [TavoloSystem.emit, h4]
  · unfold WeightSensor.isReady at h2
    simp only [Bool.and_eq_true] at h2
    unfold WeightSensor.read
    simp [h2.1, h2.2, h3]

/-- C22. `WeightSensor::hasNewData` returns true exactly when the sensor is initialised and
calibrated and fewer than 100 ms, modulo 2^32, have passed since `lastReadTime`. So it can
be true without a new sample: when `WeightSensor::update` reads the HX711 (interval
elapsed, sensor and chip ready) and the reading is within the notification threshold of
the last delivered weight (by the `float` difference the sensor computes), no sample is
delivered (weight, measurement time, last delivered
weight and effects of the system are what they were), yet `hasNewData` is true at every
call less than 100 ms later, and a tick in `IDLE` at such a call moves to `MEASURING`. -/
theorem hasNewData_is_recent_read_not_new_sample :
    (∀ (ws : WeightSensor) (env : Env),
      ws.hasNewData env = true ↔
        (ws.initialized = true ∧ ws.calibrated = true ∧
          ((env.now : ℤ) - (ws.lastReadTime : ℤ)) % 4294967296 < 100)) ∧
    (∀ (sys : TavoloSystem) (env : LoopEnv) (tickEnv : Env),
      ulongSub env.now sys.weightSensor.lastReadTime ≥ READ_INTERVAL_MS →
      sys.weightSensor.isReady = true → env.scaleReady = true →
      |floatSub (sys.weightSensor.read env).1 sys.weightSensor.lastWeight| <
        sys.weightSensor.weightThreshold →
      ulongSub tickEnv.now env.now < READ_INTERVAL_MS →
      sys.currentSystemState = .IDLE →
        sys.sampleDelivered env = false ∧
        (sys.weightSensor_update env).currentWeight = sys.currentWeight ∧
        (sys.weightSensor_update env).lastMeasurementTime = sys.lastMeasurementTime ∧
        (sys.weightSensor_update env).weightSensor.lastWeight = sys.weightSensor.lastWeight ∧
        (sys.weightSensor_update env).effects = sys.effects ∧
        (sys.weightSensor_update env).currentSystemState = .IDLE ∧
        (sys.weightSensor_update env).weightSensor.hasNewData tickEnv = true ∧
        ((sys.weightSensor_update env).updateStateMachine tickEnv).currentSystemState =
          .MEASURING) := by
  constructor
  · intro ws env
    rw [← ulongSub_eq_emod]
    unfold WeightSensor.hasNewData READ_INTERVAL_MS
    simp only [Bool.and_eq_true, decide_eq_true_eq]
    constructor
    · rintro ⟨⟨h1, h2⟩, h3⟩
      exact ⟨h2, h3, by exact_mod_cast h1⟩
    · rintro ⟨h2, h3, h1⟩
      exact ⟨⟨by exact_mod_cast h1, h2⟩, h3⟩
  · intro sys env tickEnv h1 h2 h3 hq h5 h6
    have h4 : sys.weightSensor.shouldTriggerCallback (sys.weightSensor.read env).1 = false := by
      simp [WeightSensor.shouldTriggerCallback, hq]
    obtain ⟨e, r⟩ := weightSensor_update_quiet sys env h1 h2 h3 h4
    have hs : (sys.weightSensor_update env).currentSystemState = .IDLE := by
      rw [e]
      exact h6
    have hn : (sys.weightSensor_update env).weightSensor.hasNewData tickEnv = true := by
      rw [e]
      unfold WeightSensor.isReady at h2
      simp only [Bool.and_eq_true] at h2
      simp [WeightSensor.hasNewData, h5, h2.1, h2.2]
    refine ⟨?_, ?_, ?_, ?_, ?_, hs, hn, ?_⟩
    · simp [TavoloSystem.sampleDelivered, h4]
    · rw [e]
    · rw [e]
    · rw [e]
    · rw [e, r]
      simp
    · rw [(updateStateMachine_idle _ tickEnv hs).1, if_pos hn]

/-- The example system in `IDLE`, sensor begun, last read at 5950 ms with last delivered
weight 0: the pass at 6050 ms reads 0.5 g, which is within the notification threshold 1.0,
so no sample is delivered; at 6060 ms `hasNewData` is true and the tick moves to
`MEASURING`. -/
theorem hasNewData_is_recent_read_not_new_sample_witness :
    exampleIdle.sampleDelivered exampleQuietRead = false ∧
    (exampleIdle.weightSensor_update exampleQuietRead).currentWeight =
      exampleIdle.currentWeight ∧
    (exampleIdle.weightSensor_update exampleQuietRead).lastMeasurementTime =
      exampleIdle.lastMeasurementTime ∧
    (exampleIdle.weightSensor_update exampleQuietRead).weightSensor.lastWeight =
      exampleIdle.weightSensor.lastWeight ∧
    (exampleIdle.weightSensor_update exampleQuietRead).effects = exampleIdle.effects ∧
    (exampleIdle.weightSensor_update exampleQuietRead).currentSystemState = .IDLE ∧
    (exampleIdle.weightSensor_update exampleQuietRead).weightSensor.hasNewData
      (onlineAt 6060) = true ∧
    ((exampleIdle.weightSensor_update exampleQuietRead).updateStateMachine
      (onlineAt 6060)).currentSystemState = .MEASURING :=
  hasNewData_is_recent_read_not_new_sample.2 exampleIdle exampleQuietRead (onlineAt 6060)
    (by decide) rfl rfl
    (by
      have hr : (exampleIdle.weightSensor.read exampleQuietRead).1 = 1 / 2 := by
        simp [WeightSensor.read, exampleIdle, exampleQuietRead, exampleLoopEnv]
      rw [hr]
      show |floatSub (1 / 2 : ℚ) 0| < 1
      rw [floatSub_zero_right (1 / 2) roundBinary32_half]
      norm_num [abs_lt])
    (by decide) rfl

/-! ## C21: message timeouts of the display -/

theorem setMode_currentMode (dm : DisplayManager) (mode : DisplayMode) :
    (dm.setMode mode).1.currentMode = mode := by
  unfold DisplayManager.setMode
  split
  · rfl
  · rename_i h
    exact not_not.mp h

theorem setMode_messageTimeout (dm : DisplayManager) (mode : DisplayMode) :
    (dm.setMode mode).1.messageTimeout = dm.messageTimeout := by
  unfold DisplayManager.setMode
  split <;> rfl

/-- What `showStatusMessage` and `showErrorMessage` leave in the mode and in
`messageTimeout`: the sum `millis() + timeout` as an `unsigned long`. -/
theorem showMessage_mode_timeout (dm : DisplayManager) (env : Env) (message : String)
    (timeout : Nat) :
    (dm.showStatusMessage env message timeout).1.currentMode = .STATUS_MESSAGE ∧
    (dm.showStatusMessage env message timeout).1.messageTimeout = ulongAdd env.now timeout ∧
    (dm.showErrorMessage env message timeout).1.currentMode = .ERROR_MESSAGE ∧
    (dm.showErrorMessage env message timeout).1.messageTimeout = ulongAdd env.now timeout :=
  ⟨setMode_currentMode _ _, rfl, setMode_currentMode _ _, rfl⟩

/-- The mode and `messageTimeout` after `DisplayManager::update`: the weight screen and 0
when a timeout is stored and the clock has reached it, unchanged otherwise. -/
theorem update_mode_timeout (dm : DisplayManager) (env : Env) :
    (dm.update env).1.currentMode =
      (if dm.messageTimeout > 0 ∧ env.now ≥ dm.messageTimeout then DisplayMode.WEIGHT_DISPLAY
       else dm.currentMode) ∧
    (dm.update env).1.messageTimeout =
      (if dm.messageTimeout > 0 ∧ env.now ≥ dm.messageTimeout then 0
       else dm.messageTimeout) := by
  unfold DisplayManager.update
  dsimp only
  by_cases h : dm.messageTimeout > 0 ∧ env.now ≥ dm.messageTimeout
  · rw [if_pos h, if_pos h, if_pos h]
    split
    · exact ⟨setMode_currentMode _ _, setMode_messageTimeout _ _⟩
    · exact ⟨setMode_currentMode _ _, setMode_messageTimeout _ _⟩
  · rw [if_neg h, if_neg h, if_neg h]
    split <;> exact ⟨rfl, rfl⟩

/-- A message shown with a timeout `t > 0` whose deadline `t0 + t` does not wrap: an update
before the deadline keeps the message mode and the stored deadline, an update at or after
it switches to the weight screen. -/
theorem timed_message_reverts_at_deadline (dm : DisplayManager) (env later : Env)
    (message : String) (t : Nat) (ht : 0 < t) (hfit : env.now + t < ULONG_MODULUS) :
    (later.now < env.now + t →
      ((dm.showStatusMessage env message t).1.update later).1.currentMode = .STATUS_MESSAGE ∧
      ((dm.showStatusMessage env message t).1.update later).1.messageTimeout = env.now + t ∧
      ((dm.showErrorMessage env message t).1.update later).1.currentMode = .ERROR_MESSAGE ∧
      ((dm.showErrorMessage env message t).1.update later).1.messageTimeout = env.now + t) ∧
    (later.now ≥ env.now + t →
      ((dm.showStatusMessage env message t).1.update later).1.currentMode = .WEIGHT_DISPLAY ∧
      ((dm.showErrorMessage env message t).1.update later).1.currentMode =
        .WEIGHT_DISPLAY) := by
  obtain ⟨m1, t1, m2, t2⟩ := showMessage_mode_timeout dm env message t
  have hsum : ulongAdd env.now t = env.now + t := Nat.mod_eq_of_lt hfit
  have u1 := update_mode_timeout (dm.showStatusMessage env message t).1 later
  have u2 := update_mode_timeout (dm.showErrorMessage env message t).1 later
  rw [t1, m1, hsum] at u1
  rw [t2, m2, hsum] at u2
  constructor
  · intro hl
    have hn : ¬(env.now + t > 0 ∧ later.now ≥ env.now + t) := fun h => absurd h.2 (by omega)
    rw [if_neg hn, if_neg hn] at u1 u2
    exact ⟨u1.1, u1.2, u2.1, u2.2⟩
  · intro hl
    have hp : env.now + t > 0 ∧ later.now ≥ env.now + t := ⟨by omega, hl⟩
    rw [if_pos hp] at u1 u2
    exact ⟨u1.1, u2.1⟩

/-- A message shown with timeout 0 while the clock is not 0 stores the clock value itself
as its deadline, so an update at that or any later clock value switches to the weight
screen. -/
theorem zero_timeout_message_reverts (dm : DisplayManager) (env later : Env)
    (message : String) (hpos : 0 < env.now) (hl : env.now ≤ later.now) :
    (dm.showStatusMessage env message 0).1.messageTimeout = env.now ∧
    ((dm.showStatusMessage env message 0).1.update later).1.currentMode = .WEIGHT_DISPLAY ∧
    ((dm.showErrorMessage env message 0).1.update later).1.currentMode = .WEIGHT_DISPLAY := by
  obtain ⟨m1, t1, m2, t2⟩ := showMessage_mode_timeout dm env message 0
  have hlt : env.now < ULONG_MODULUS := Nat.mod_lt _ (by decide)
  have hsum : ulongAdd env.now 0 = env.now := Nat.mod_eq_of_lt hlt
  have u1 := update_mode_timeout (dm.showStatusMessage env message 0).1 later
  have u2 := update_mode_timeout (dm.showErrorMessage env message 0).1 later
  rw [t1, m1, hsum] at u1
  rw [t2, m2, hsum] at u2
  have hp : env.now > 0 ∧ later.now ≥ env.now := ⟨hpos, hl⟩
  rw [if_pos hp] at u1 u2
  rw [t1, hsum]
  exact ⟨rfl, u1.1, u2.1⟩

/-- The deadline is compared as stored: when the sum `t0 + t` wraps past 2^32 the stored
deadline is small, and an update right after the message was shown already switches to
the weight screen. At 4294966296 ms with a timeout of 3000 ms the stored deadline is
2000, and the update at 4294966306 ms reverts. -/
theorem timed_message_near_wrap_reverts_early (dm : DisplayManager) (message : String) :
    (dm.showStatusMessage (onlineAt 4294966296) message 3000).1.messageTimeout = 2000 ∧
    ((dm.showStatusMessage (onlineAt 4294966296) message 3000).1.update
      (onlineAt 4294966306)).1.currentMode = .WEIGHT_DISPLAY := by
  obtain ⟨m1, t1, -, -⟩ := showMessage_mode_timeout dm (onlineAt 4294966296) message 3000
  have hsum : ulongAdd (onlineAt 4294966296).now 3000 = 2000 := by decide
  have u1 := update_mode_timeout (dm.showStatusMessage (onlineAt 4294966296) message 3000).1
    (onlineAt 4294966306)
  rw [t1, m1, hsum] at u1
  have hp : 2000 > 0 ∧ (onlineAt 4294966306).now ≥ 2000 := by decide
  rw [if_pos hp] at u1
  rw [t1, hsum]
  exact ⟨rfl, u1.1⟩

/-- Entering `MAINTENANCE` from another state shows "Maintenance Mode" with timeout 0 on
the display the system had. -/
theorem changeSystemState_maintenance_display (sys : TavoloSystem) (env : Env)
    (h : sys.currentSystemState ≠ .MAINTENANCE) :
    (sys.changeSystemState env .MAINTENANCE).displayManager =
      (sys.displayManager.showStatusMessage env "Maintenance Mode" 0).1 := by
  obtain ⟨dev, ws, led, dm, ec, S, cfg, cw, lrw, lmt, lrt, te, cb1, cb2, es⟩ := sys
  simp only at h
  unfold TavoloSystem.changeSystemState
  rw [if_pos h]
  cases S
  all_goals first
    | exact absurd rfl h
    | (simp only [TavoloSystem.handleStateExit]
       try split
       all_goals rfl)

/-- The display of a system that enters `MAINTENANCE` while the clock is not 0 is in the
status-message mode, and the next `displayManager->update()` of the loop, the state still
`MAINTENANCE`, puts it in the weight-screen mode. -/
theorem maintenance_message_reverts (sys : TavoloSystem) (env later : Env)
    (h : sys.currentSystemState ≠ .MAINTENANCE) (hpos : 0 < env.now)
    (hl : env.now ≤ later.now) :
    (sys.changeSystemState env .MAINTENANCE).displayManager.currentMode = .STATUS_MESSAGE ∧
    (sys.changeSystemState env .MAINTENANCE).displayManager.messageTimeout = env.now ∧
    ((sys.changeSystemState env .MAINTENANCE).displayManager_update later).currentSystemState =
      .MAINTENANCE ∧
    ((sys.changeSystemState env .MAINTENANCE).displayManager_update
      later).displayManager.currentMode = .WEIGHT_DISPLAY := by
  have hd := changeSystemState_maintenance_display sys env h
  have hz := zero_timeout_message_reverts sys.displayManager env later "Maintenance Mode" hpos hl
  refine ⟨?_, ?_, changeSystemState_currentSystemState sys env _, ?_⟩
  · rw [hd]
    exact (showMessage_mode_timeout _ _ _ _).1
  · rw [hd]
    exact hz.1
  · show ((sys.changeSystemState env .MAINTENANCE).displayManager.update later).1.currentMode = _
    rw [hd]
    exact hz.2.1

/-- C21. The message of `MAINTENANCE`, shown with timeout 0, is not persistent: the example
system enters `MAINTENANCE` at 6000 ms, which puts the display in status-message mode with
`messageTimeout` 6000, and the `DisplayManager::update` of the loop pass at 6010 ms switches
the display to the weight screen while the system is still in `MAINTENANCE`. -/
theorem maintenance_message_with_timeout_zero_reverts :
    exampleMeasuring.currentSystemState ≠ .MAINTENANCE ∧
    (exampleMeasuring.changeSystemState (onlineAt 6000) .MAINTENANCE).displayManager.currentMode
      = .STATUS_MESSAGE ∧
    (exampleMeasuring.changeSystemState (onlineAt 6000) .MAINTENANCE).displayManager.messageTimeout
      = 6000 ∧
    ((exampleMeasuring.changeSystemState (onlineAt 6000) .MAINTENANCE).displayManager_update
      (onlineAt 6010)).currentSystemState = .MAINTENANCE ∧
    ((exampleMeasuring.changeSystemState (onlineAt 6000) .MAINTENANCE).displayManager_update
      (onlineAt 6010)).displayManager.currentMode = .WEIGHT_DISPLAY :=
  have hs : exampleMeasuring.currentSystemState ≠ .MAINTENANCE := by decide
  ⟨hs, maintenance_message_reverts exampleMeasuring (onlineAt 6000) (onlineAt 6010) hs
    (by decide) (by decide)⟩

/-! ## C23: entering `CALIBRATING` -/

@[simp] theorem sensorTares_append (a b : List Effect) :
    sensorTares (a ++ b) = sensorTares a ++ sensorTares b := by
  simp [sensorTares, List.filterMap_append]

@[simp] theorem sensorTares_nil : sensorTares [] = [] := rfl

@[simp] theorem sensorTares_setPattern (led : LedActuator) (env : Env) (p : BlinkPattern) :
    sensorTares (led.setPattern env p).2 = [] := by
  unfold LedActuator.setPattern
  split
  · cases p <;> simp [sensorTares, LedActuator.writeLed]
  · rfl

@[simp] theorem sensorTares_setMode (dm : DisplayManager) (mode : DisplayMode) :
    sensorTares (dm.setMode mode).2 = [] := by
  unfold DisplayManager.setMode
  split
  · cases mode <;> simp [sensorTares]
  · rfl

@[simp] theorem sensorTares_showStatusMessage (dm : DisplayManager) (env : Env)
    (message : String) (timeout : Nat) :
    sensorTares (dm.showStatusMessage env message timeout).2 = [] := by
  simp [DisplayManager.showStatusMessage]

@[simp] theorem sensorTares_transitionLog (a b : SystemState) :
    sensorTares (transitionLog a b) = [] := by
  cases b <;> simp [sensorTares, transitionLog, stateToString]

/-- A call of `WeightSensor::tare` is recorded once, with whether the sensor was
initialised. -/
@[simp] theorem sensorTares_sensor_tare (ws : WeightSensor) :
    sensorTares ws.tare.2 = [ws.initialized] := by
  unfold WeightSensor.tare
  cases ws.initialized <;> simp [sensorTares]

@[simp] theorem sensorTares_handleStateExit (sys : TavoloSystem) (state : SystemState) :
    sensorTares (sys.handleStateExit state).effects = sensorTares sys.effects := by
  unfold TavoloSystem.handleStateExit
  split
  · split
    · simp [TavoloSystem.emit, sensorTares]
    · rfl
  · rfl

theorem setMode_lines (dm : DisplayManager) (mode : DisplayMode) :
    (dm.setMode mode).1.line1Content = dm.line1Content ∧
    (dm.setMode mode).1.line2Content = dm.line2Content := by
  unfold DisplayManager.setMode
  split <;> exact ⟨rfl, rfl⟩

theorem showStatusMessage_lines (dm : DisplayManager) (env : Env) (message : String)
    (timeout : Nat) :
    (dm.showStatusMessage env message timeout).1.line1Content =
      DisplayManager.centerText "STATUS" 20 ∧
    (dm.showStatusMessage env message timeout).1.line2Content =
      DisplayManager.centerText (message.take 20) 20 := by
  unfold DisplayManager.showStatusMessage
  dsimp only
  rw [(setMode_lines _ _).1, (setMode_lines _ _).2]
  dsimp only
  exact ⟨rfl, rfl⟩

theorem displayManager_showStatusMessage_parts (sys : TavoloSystem) (env : Env)
    (message : String) (timeout : Nat) :
    (sys.displayManager_showStatusMessage env message timeout).displayManager =
      (sys.displayManager.showStatusMessage env message timeout).1 ∧
    (sys.displayManager_showStatusMessage env message timeout).ledActuator =
      sys.ledActuator :=
  ⟨rfl, rfl⟩

theorem tare_parts (sys : TavoloSystem) (env : Env) :
    (sys.tare env).displayManager =
      (sys.displayManager.showStatusMessage env "Tare Complete" 2000).1 ∧
    (sys.tare env).ledActuator = sys.ledActuator :=
  ⟨rfl, rfl⟩

theorem ledActuator_setPattern_ledActuator (sys : TavoloSystem) (env : Env)
    (p : BlinkPattern) :
    (sys.ledActuator_setPattern env p).ledActuator = (sys.ledActuator.setPattern env p).1 :=
  rfl

/-- What `handleStateEntry(CALIBRATING)` does when `autoTare` is off. -/
theorem handleStateEntry_calibrating_manual (t : TavoloSystem) (env : Env)
    (ha : t.config.autoTare = false) :
    t.handleStateEntry env .CALIBRATING =
      (t.ledActuator_setPattern env .PULSE).displayManager_showStatusMessage env
        "Calibrating..." 3000 := by
  unfold TavoloSystem.handleStateEntry
  dsimp only
  have hc : ((t.ledActuator_setPattern env .PULSE).displayManager_showStatusMessage env
      "Calibrating..." 3000).config.autoTare = false := ha
  rw [hc]
  rfl

/-- What `handleStateEntry(CALIBRATING)` does when `autoTare` is on. -/
theorem handleStateEntry_calibrating_auto (t : TavoloSystem) (env : Env)
    (ha : t.config.autoTare = true) :
    t.handleStateEntry env .CALIBRATING =
      ((t.ledActuator_setPattern env .PULSE).displayManager_showStatusMessage env
        "Calibrating..." 3000).tare env := by
  unfold TavoloSystem.handleStateEntry
  dsimp only
  have hc : ((t.ledActuator_setPattern env .PULSE).displayManager_showStatusMessage env
      "Calibrating..." 3000).config.autoTare = true := ha
  rw [hc]
  rfl

/-- Entering `CALIBRATING` from another state: the LED pattern is `PULSE` and the display
is in status-message mode. With `autoTare` off the message is "Calibrating..." with the
deadline 3000 ms ahead and the sensor's tare is not called; with `autoTare` on the
sensor's tare is called once and `TavoloSystem::tare` has replaced the message by
"Tare Complete" with the deadline 2000 ms ahead. -/
theorem handleStateEntry_calibrating (sys t : TavoloSystem) (env : Env)
    (hc : t.config = sys.config) (hw : t.weightSensor = sys.weightSensor)
    (he : sensorTares t.effects = sensorTares sys.effects) :
    (t.handleStateEntry env .CALIBRATING).ledActuator.currentPattern = .PULSE ∧
    (t.handleStateEntry env .CALIBRATING).displayManager.currentMode = .STATUS_MESSAGE ∧
    (t.handleStateEntry env .CALIBRATING).displayManager.line1Content =
      DisplayManager.centerText "STATUS" 20 ∧
    (t.handleStateEntry env .CALIBRATING).displayManager.line2Content =
      DisplayManager.centerText
        (if sys.config.autoTare then "Tare Complete" else "Calibrating...") 20 ∧
    (t.handleStateEntry env .CALIBRATING).displayManager.messageTimeout =
      ulongAdd env.now (if sys.config.autoTare then 2000 else 3000) ∧
    sensorTares (t.handleStateEntry env .CALIBRATING).effects =
      sensorTares sys.effects ++
        (if sys.config.autoTare then [sys.weightSensor.initialized] else []) := by
  have k1 : "Calibrating...".take 20 = "Calibrating..." := by decide
  have k2 : "Tare Complete".take 20 = "Tare Complete" := by decide
  cases ha : sys.config.autoTare
  · rw [handleStateEntry_calibrating_manual t env (by rw [hc]; exact ha)]
    simp only [Bool.false_eq_true, if_false]
    rw [(displayManager_showStatusMessage_parts _ _ _ _).1,
      (displayManager_showStatusMessage_parts _ _ _ _).2, ledActuator_setPattern_ledActuator,
      (showMessage_mode_timeout _ _ _ _).1, (showMessage_mode_timeout _ _ _ _).2.1,
      (showStatusMessage_lines _ _ _ _).1, (showStatusMessage_lines _ _ _ _).2, k1]
    refine ⟨setPattern_currentPattern _ _ _, rfl, rfl, rfl, rfl, ?_⟩
    simp [TavoloSystem.displayManager_showStatusMessage,
      TavoloSystem.ledActuator_setPattern, he]
  · rw [handleStateEntry_calibrating_auto t env (by rw [hc]; exact ha)]
    simp only [if_true]
    rw [(tare_parts _ _).1, (tare_parts _ _).2,
      (displayManager_showStatusMessage_parts _ _ _ _).2, ledActuator_setPattern_ledActuator,
      (showMessage_mode_timeout _ _ _ _).1, (showMessage_mode_timeout _ _ _ _).2.1,
      (showStatusMessage_lines _ _ _ _).1, (showStatusMessage_lines _ _ _ _).2, k2]
    refine ⟨setPattern_currentPattern _ _ _, rfl, rfl, rfl, rfl, ?_⟩
    · simp [TavoloSystem.tare, TavoloSystem.weightSensor_tare,
        TavoloSystem.displayManager_showStatusMessage, TavoloSystem.ledActuator_setPattern,
        he, hw]

theorem changeSystemState_calibrating (sys : TavoloSystem) (env : Env)
    (h : sys.currentSystemState ≠ .CALIBRATING) :
    (sys.changeSystemState env .CALIBRATING).ledActuator.currentPattern = .PULSE ∧
    (sys.changeSystemState env .CALIBRATING).displayManager.currentMode = .STATUS_MESSAGE ∧
    (sys.changeSystemState env .CALIBRATING).displayManager.line1Content =
      DisplayManager.centerText "STATUS" 20 ∧
    (sys.changeSystemState env .CALIBRATING).displayManager.line2Content =
      DisplayManager.centerText
        (if sys.config.autoTare then "Tare Complete" else "Calibrating...") 20 ∧
    (sys.changeSystemState env .CALIBRATING).displayManager.messageTimeout =
      ulongAdd env.now (if sys.config.autoTare then 2000 else 3000) ∧
    sensorTares (sys.changeSystemState env .CALIBRATING).effects =
      sensorTares sys.effects ++
        (if sys.config.autoTare then [sys.weightSensor.initialized] else []) := by
  have h1 : (sys.handleStateExit sys.currentSystemState).config = sys.config :=
    congrArg Core.config (handleStateExit_core sys _)
  have h2 : (sys.handleStateExit sys.currentSystemState).weightSensor = sys.weightSensor :=
    congrArg Core.weightSensor (handleStateExit_core sys _)
  have key := handleStateEntry_calibrating sys
    { sys.handleStateExit sys.currentSystemState with currentSystemState := .CALIBRATING }
    env h1 h2 (sensorTares_handleStateExit sys _)
  unfold TavoloSystem.changeSystemState
  rw [if_pos h]
  dsimp only
  refine ⟨key.1, key.2.1, key.2.2.1, key.2.2.2.1, key.2.2.2.2.1, ?_⟩
  simp only [TavoloSystem.emit, sensorTares_append, sensorTares_transitionLog,
    List.append_nil]
  exact key.2.2.2.2.2

/-- C23 as stated fails when `autoTare` is set. The example system (`autoTare` on, as the
constructor leaves it) enters `CALIBRATING` from `MEASURING` at 6000 ms: the second display
line is the centred "Tare Complete", not "Calibrating...", and the stored deadline is
8000 (2000 ms ahead), not 9000 (3000 ms ahead). -/
theorem calibrating_entry_with_autoTare_shows_tare_complete :
    exampleMeasuring.currentSystemState ≠ .CALIBRATING ∧
    exampleMeasuring.config.autoTare = true ∧
    (exampleMeasuring.changeSystemState exampleEnv .CALIBRATING).displayManager.currentMode =
      .STATUS_MESSAGE ∧
    (exampleMeasuring.changeSystemState exampleEnv .CALIBRATING).displayManager.line2Content =
      "   Tare Complete    " ∧
    (exampleMeasuring.changeSystemState exampleEnv .CALIBRATING).displayManager.line2Content ≠
      DisplayManager.centerText "Calibrating..." 20 ∧
    (exampleMeasuring.changeSystemState exampleEnv .CALIBRATING).displayManager.messageTimeout =
      8000 ∧
    (exampleMeasuring.changeSystemState exampleEnv .CALIBRATING).displayManager.messageTimeout ≠
      ulongAdd exampleEnv.now 3000 := by
  have hs : exampleMeasuring.currentSystemState ≠ .CALIBRATING := by decide
  have ha : exampleMeasuring.config.autoTare = true := rfl
  obtain ⟨-, hm, -, h2, ht, -⟩ := changeSystemState_calibrating exampleMeasuring exampleEnv hs
  rw [if_pos ha] at h2 ht
  have c1 : DisplayManager.centerText "Tare Complete" 20 = "   Tare Complete    " := by decide
  have c2 : "   Tare Complete    " ≠ DisplayManager.centerText "Calibrating..." 20 := by decide
  have t1 : ulongAdd exampleEnv.now 2000 = 8000 := by decide
  have t2 : (8000 : Nat) ≠ ulongAdd exampleEnv.now 3000 := by decide
  rw [c1] at h2
  rw [t1] at ht
  rw [h2, ht]
  exact ⟨hs, ha, hm, rfl, c2, rfl, t2⟩

/-- C23, amended. After `changeSystemState(CALIBRATING)` from any other state the LED
pattern is `PULSE` and the display is in status-message mode. The sensor's tare is called
exactly when `autoTare` is set (once, and it tares the HX711 only if the sensor is
initialised). With `autoTare` off the display shows "Calibrating..." with its deadline
3000 ms ahead; with `autoTare` on `TavoloSystem::tare` has replaced that message by
"Tare Complete" with the deadline 2000 ms ahead. -/
theorem calibrating_entry (sys : TavoloSystem) (env : Env)
    (h : sys.currentSystemState ≠ .CALIBRATING) :
    (sys.changeSystemState env .CALIBRATING).currentSystemState = .CALIBRATING ∧
    (sys.changeSystemState env .CALIBRATING).ledActuator.currentPattern = .PULSE ∧
    (sys.changeSystemState env .CALIBRATING).displayManager.currentMode = .STATUS_MESSAGE ∧
    (sys.changeSystemState env .CALIBRATING).displayManager.line1Content =
      DisplayManager.centerText "STATUS" 20 ∧
    (sys.config.autoTare = false →
      (sys.changeSystemState env .CALIBRATING).displayManager.line2Content =
        DisplayManager.centerText "Calibrating..." 20 ∧
      (sys.changeSystemState env .CALIBRATING).displayManager.messageTimeout =
        ulongAdd env.now 3000 ∧
      sensorTares (sys.changeSystemState env .CALIBRATING).effects =
        sensorTares sys.effects) ∧
    (sys.config.autoTare = true →
      (sys.changeSystemState env .CALIBRATING).displayManager.line2Content =
        DisplayManager.centerText "Tare Complete" 20 ∧
      (sys.changeSystemState env .CALIBRATING).displayManager.messageTimeout =
        ulongAdd env.now 2000 ∧
      sensorTares (sys.changeSystemState env .CALIBRATING).effects =
        sensorTares sys.effects ++ [sys.weightSensor.initialized]) := by
  obtain ⟨hp, hm, h1, h2, ht, he⟩ := changeSystemState_calibrating sys env h
  refine ⟨changeSystemState_currentSystemState sys env _, hp, hm, h1, ?_, ?_⟩
  · intro ha
    rw [ha] at h2 ht he
    exact ⟨h2, ht, by simpa using he⟩
  · intro ha
    rw [ha] at h2 ht he
    exact ⟨h2, ht, by simpa using he⟩

/-- The example system with `autoTare` off enters `CALIBRATING` from `MEASURING` at 6000 ms:
LED `PULSE`, status-message mode, "Calibrating..." with the deadline 3000 ms ahead, no
tare. With `autoTare` on, as in the example system itself, the sensor's tare is called
once. -/
theorem calibrating_entry_witness :
    exampleManualTare.currentSystemState ≠ .CALIBRATING ∧
    exampleManualTare.config.autoTare = false ∧
    (exampleManualTare.changeSystemState exampleEnv .CALIBRATING).ledActuator.currentPattern =
      .PULSE ∧
    (exampleManualTare.changeSystemState exampleEnv .CALIBRATING).displayManager.currentMode =
      .STATUS_MESSAGE ∧
    (exampleManualTare.changeSystemState exampleEnv .CALIBRATING).displayManager.line2Content =
      DisplayManager.centerText "Calibrating..." 20 ∧
    (exampleManualTare.changeSystemState exampleEnv .CALIBRATING).displayManager.messageTimeout =
      ulongAdd exampleEnv.now 3000 ∧
    sensorTares (exampleManualTare.changeSystemState exampleEnv .CALIBRATING).effects =
      sensorTares exampleManualTare.effects ∧
    exampleMeasuring.config.autoTare = true ∧
    sensorTares (exampleMeasuring.changeSystemState exampleEnv .CALIBRATING).effects =
      sensorTares exampleMeasuring.effects ++ [exampleMeasuring.weightSensor.initialized] :=
  have hs : exampleManualTare.currentSystemState ≠ .CALIBRATING := by decide
  have hs2 : exampleMeasuring.currentSystemState ≠ .CALIBRATING := by decide
  have k := calibrating_entry exampleManualTare exampleEnv hs
  ⟨hs, rfl, k.2.1, k.2.2.1, (k.2.2.2.2.1 rfl).1, (k.2.2.2.2.1 rfl).2.1,
    (k.2.2.2.2.1 rfl).2.2, rfl,
    ((calibrating_entry exampleMeasuring exampleEnv hs2).2.2.2.2.2 rfl).2.2⟩

/-! ## C24: in `THRESHOLD_EXCEEDED` the flag is set -/

/-- No command writes the `thresholdExceeded` flag. -/
theorem onEdgeCommandReceived_thresholdExceeded (sys : TavoloSystem) (toFloat : String → ℚ)
    (env : Env) (cmd : EdgeCommand) :
    (sys.onEdgeCommandReceived toFloat env cmd).thresholdExceeded = sys.thresholdExceeded := by
  unfold TavoloSystem.onEdgeCommandReceived TavoloSystem.calibrate
  dsimp only
  repeat' split
  all_goals first
    | rfl
    | exact changeSystemState_thresholdExceeded _ _ _

/-- `checkThreshold` ends in `THRESHOLD_EXCEEDED` only with the flag set, provided that held
before the call. -/
theorem checkThreshold_flag_of_exceeded (sys : TavoloSystem) (env : Env)
    (h : sys.currentSystemState = .THRESHOLD_EXCEEDED → sys.thresholdExceeded = true) :
    (sys.checkThreshold env).currentSystemState = .THRESHOLD_EXCEEDED →
      (sys.checkThreshold env).thresholdExceeded = true := by
  rw [(checkThreshold_frame sys env).2.2]
  unfold TavoloSystem.checkThreshold
  dsimp only
  split
  · split
    · rename_i hx
      intro _
      exact hx
    · split
      · intro hc
        rw [changeSystemState_currentSystemState] at hc
        exact absurd hc (by decide)
      · rename_i hne
        intro hc
        exact absurd hc hne
  · rename_i heq
    intro hc
    have := h hc
    rw [not_not.mp heq]
    exact this

/-- One event keeps: in `THRESHOLD_EXCEEDED` the flag is set. -/
theorem step_flag_of_exceeded (sys : TavoloSystem) (toFloat : String → ℚ) (ev : Event)
    (h : sys.currentSystemState = .THRESHOLD_EXCEEDED → sys.thresholdExceeded = true) :
    (sys.step toFloat ev).currentSystemState = .THRESHOLD_EXCEEDED →
      (sys.step toFloat ev).thresholdExceeded = true := by
  have moved : ∀ (t : TavoloSystem) (env : Env) (new : SystemState),
      new ≠ .THRESHOLD_EXCEEDED →
      (t.changeSystemState env new).currentSystemState = .THRESHOLD_EXCEEDED →
      (t.changeSystemState env new).thresholdExceeded = true := by
    intro t env new hn hc
    rw [changeSystemState_currentSystemState] at hc
    exact absurd hc hn
  cases ev with
  | tick env =>
    show (sys.updateStateMachine env).currentSystemState = .THRESHOLD_EXCEEDED →
      (sys.updateStateMachine env).thresholdExceeded = true
    unfold TavoloSystem.updateStateMachine
    split
    · split
      · exact moved _ _ _ (by decide)
      · exact h
    · split
      · exact moved _ _ _ (by decide)
      · exact h
    · split
      · exact moved _ _ _ (by decide)
      · exact h
    · exact checkThreshold_flag_of_exceeded sys env h
    · split
      · exact moved _ _ _ (by decide)
      · exact h
    · split
      · exact moved _ _ _ (by decide)
      · exact h
    · exact h
  | weightData env weight =>
    show (sys.onWeightDataReceived env weight).currentSystemState = .THRESHOLD_EXCEEDED →
      (sys.onWeightDataReceived env weight).thresholdExceeded = true
    rw [onWeightDataReceived_currentSystemState, onWeightDataReceived_thresholdExceeded]
    exact h
  | command env cmd =>
    show (sys.onEdgeCommandReceived toFloat env cmd).currentSystemState = .THRESHOLD_EXCEEDED →
      (sys.onEdgeCommandReceived toFloat env cmd).thresholdExceeded = true
    rw [onEdgeCommandReceived_currentSystemState, onEdgeCommandReceived_thresholdExceeded]
    split
    · intro hc
      exact absurd hc (by decide)
    · split
      · intro hc
        exact absurd hc (by decide)
      · split
        · intro hc
          exact absurd hc (by decide)
        · exact h
  | connectionState env state =>
    show (sys.onConnectionStateChanged env state).currentSystemState = .THRESHOLD_EXCEEDED →
      (sys.onConnectionStateChanged env state).thresholdExceeded = true
    unfold TavoloSystem.onConnectionStateChanged
    repeat' split
    all_goals first
      | exact h
      | exact moved _ _ _ (by decide)
  | startMeasurement env =>
    show (sys.startMeasurement env).currentSystemState = .THRESHOLD_EXCEEDED →
      (sys.startMeasurement env).thresholdExceeded = true
    unfold TavoloSystem.startMeasurement
    split
    · exact moved _ _ _ (by decide)
    · exact h
  | stopMeasurement env =>
    show (sys.stopMeasurement env).currentSystemState = .THRESHOLD_EXCEEDED →
      (sys.stopMeasurement env).thresholdExceeded = true
    unfold TavoloSystem.stopMeasurement
    split
    · exact moved _ _ _ (by decide)
    · exact h
  | calibrate env =>
    exact moved _ _ _ (by decide)
  | tare env =>
    exact h
  | setWeightThreshold threshold =>
    exact h

/-- A run keeps: in `THRESHOLD_EXCEEDED` the flag is set. -/
theorem run_flag_of_exceeded (toFloat : String → ℚ) (events : List Event) :
    ∀ sys : TavoloSystem,
      (sys.currentSystemState = .THRESHOLD_EXCEEDED → sys.thresholdExceeded = true) →
      (sys.run toFloat events).currentSystemState = .THRESHOLD_EXCEEDED →
      (sys.run toFloat events).thresholdExceeded = true := by
  induction events with
  | nil =>
    intro sys h
    exact h
  | cons ev rest ih =>
    intro sys h
    exact ih (sys.step toFloat ev) (step_flag_of_exceeded sys toFloat ev h)

/-- With the flag set, the weight screen written by `updateDisplay` in `THRESHOLD_EXCEEDED`
carries the status text "OVER LIMIT". -/
theorem updateDisplay_over_limit (sys : TavoloSystem) (formatFloat : ℚ → Nat → String)
    (hs : sys.currentSystemState = .THRESHOLD_EXCEEDED) (hf : sys.thresholdExceeded = true) :
    (sys.updateDisplay formatFloat).displayManager.currentMode = .WEIGHT_DISPLAY ∧
    (sys.updateDisplay formatFloat).displayManager.line3Content =
      DisplayManager.centerText "Status: OVER LIMIT" 20 := by
  have k : "Status: " ++ "OVER LIMIT" = "Status: OVER LIMIT" := by decide
  unfold TavoloSystem.updateDisplay
  rw [if_pos (Or.inr (Or.inl hs))]
  dsimp only
  rw [hf]
  unfold DisplayManager.showWeightData
  dsimp only
  refine ⟨setMode_currentMode _ _, ?_⟩
  rw [if_pos rfl, k]
  unfold DisplayManager.setMode
  split <;> rfl

/-- A way into `THRESHOLD_EXCEEDED` and out of it with the flag left set: `RESUME`,
`startMeasurement`, a sample above the threshold and a tick end in `THRESHOLD_EXCEEDED`
with the flag true; `stopMeasurement` then ends in `IDLE` with the flag still true. -/
theorem resume_start_sample_tick_stop (sys : TavoloSystem) (toFloat : String → ℚ)
    (e1 e2 e3 e4 e5 : Env) (cmd : EdgeCommand) (w : ℚ)
    (hcmd : cmd.command = "RESUME") (hf : sys.thresholdExceeded = false)
    (hw : w > sys.config.weightThreshold) :
    (sys.run toFloat [.command e1 cmd, .startMeasurement e2, .weightData e3 w,
      .tick e4]).currentSystemState = .THRESHOLD_EXCEEDED ∧
    (sys.run toFloat [.command e1 cmd, .startMeasurement e2, .weightData e3 w,
      .tick e4]).thresholdExceeded = true ∧
    (sys.run toFloat [.command e1 cmd, .startMeasurement e2, .weightData e3 w, .tick e4,
      .stopMeasurement e5]).currentSystemState = .IDLE ∧
    (sys.run toFloat [.command e1 cmd, .startMeasurement e2, .weightData e3 w, .tick e4,
      .stopMeasurement e5]).thresholdExceeded = true := by
  have hrun4 : sys.run toFloat [.command e1 cmd, .startMeasurement e2, .weightData e3 w,
      .tick e4] = (((sys.onEdgeCommandReceived toFloat e1 cmd).startMeasurement
        e2).onWeightDataReceived e3 w).updateStateMachine e4 := rfl
  have hrun5 : sys.run toFloat [.command e1 cmd, .startMeasurement e2, .weightData e3 w,
      .tick e4, .stopMeasurement e5] = ((((sys.onEdgeCommandReceived toFloat e1
        cmd).startMeasurement e2).onWeightDataReceived e3 w).updateStateMachine
        e4).stopMeasurement e5 := rfl
  rw [hrun4, hrun5]
  have r1 : sys.onEdgeCommandReceived toFloat e1 cmd =
      (sys.emit (commandLog cmd)).changeSystemState e1 .IDLE := by
    simp [TavoloSystem.onEdgeCommandReceived, hcmd]
  have a1 : (sys.onEdgeCommandReceived toFloat e1 cmd).currentSystemState = .IDLE := by
    rw [r1]
    exact changeSystemState_currentSystemState _ _ _
  have a2 : (sys.onEdgeCommandReceived toFloat e1 cmd).config = sys.config := by
    rw [r1]
    simp
  have a3 : (sys.onEdgeCommandReceived toFloat e1 cmd).thresholdExceeded = false := by
    rw [onEdgeCommandReceived_thresholdExceeded]
    exact hf
  generalize sys.onEdgeCommandReceived toFloat e1 cmd = s1 at a1 a2 a3 ⊢
  have r2 : s1.startMeasurement e2 = s1.changeSystemState e2 .MEASURING := by
    unfold TavoloSystem.startMeasurement
    rw [if_pos a1]
  have b1 : (s1.startMeasurement e2).currentSystemState = .MEASURING := by
    rw [r2]
    exact changeSystemState_currentSystemState _ _ _
  have b2 : (s1.startMeasurement e2).config = sys.config := by
    rw [r2, changeSystemState_config]
    exact a2
  have b3 : (s1.startMeasurement e2).thresholdExceeded = false := by
    rw [r2, changeSystemState_thresholdExceeded]
    exact a3
  generalize s1.startMeasurement e2 = s2 at b1 b2 b3 ⊢
  obtain ⟨c1, c2, c3, c4, -, -⟩ := onWeightDataReceived_frame s2 e3 w
  rw [b1] at c1
  rw [b2] at c2
  rw [b3] at c4
  generalize s2.onWeightDataReceived e3 w = s3 at c1 c2 c3 c4 ⊢
  obtain ⟨d1, -, -, d4⟩ := updateStateMachine_measuring s3 e4 c1
  have hw3 : s3.currentWeight > s3.config.weightThreshold := by
    rw [c2, c3]
    exact hw
  rw [if_pos ⟨hw3, c4⟩] at d1
  rw [decide_eq_true hw3] at d4
  generalize s3.updateStateMachine e4 = s4 at d1 d4 ⊢
  have r5 : s4.stopMeasurement e5 = s4.changeSystemState e5 .IDLE := by
    unfold TavoloSystem.stopMeasurement
    rw [if_pos (Or.inr d1)]
  rw [r5, changeSystemState_currentSystemState, changeSystemState_thresholdExceeded]
  exact ⟨d1, d4, rfl, d4⟩

/-- C24. In every state reached from the constructed system (state `INITIALIZING`, flag
false) by any sequence of state-machine ticks, sensor samples, commands, connection
notifications and calls of `startMeasurement`, `stopMeasurement`, `calibrate`, `tare` and
`setWeightThreshold`: if the system state is `THRESHOLD_EXCEEDED` then the
`thresholdExceeded` flag is true, and the weight screen that `updateDisplay` then writes
carries the status text "OVER LIMIT". -/
theorem exceeded_state_implies_flag (macAddress : String)
    (weightDataPin weightClockPin ledPin : Int) (toFloat : String → ℚ)
    (formatFloat : ℚ → Nat → String) (events : List Event) :
    (TavoloSystem.construct macAddress weightDataPin weightClockPin
      ledPin).currentSystemState = .INITIALIZING ∧
    (TavoloSystem.construct macAddress weightDataPin weightClockPin
      ledPin).thresholdExceeded = false ∧
    (((TavoloSystem.construct macAddress weightDataPin weightClockPin ledPin).run toFloat
        events).currentSystemState = .THRESHOLD_EXCEEDED →
      ((TavoloSystem.construct macAddress weightDataPin weightClockPin ledPin).run toFloat
        events).thresholdExceeded = true ∧
      (((TavoloSystem.construct macAddress weightDataPin weightClockPin ledPin).run toFloat
        events).updateDisplay formatFloat).displayManager.currentMode = .WEIGHT_DISPLAY ∧
      (((TavoloSystem.construct macAddress weightDataPin weightClockPin ledPin).run toFloat
        events).updateDisplay formatFloat).displayManager.line3Content =
          DisplayManager.centerText "Status: OVER LIMIT" 20) := by
  refine ⟨rfl, rfl, ?_⟩
  intro hs
  have hf := run_flag_of_exceeded toFloat events
    (TavoloSystem.construct macAddress weightDataPin weightClockPin ledPin)
    (fun hc => absurd (show SystemState.INITIALIZING = SystemState.THRESHOLD_EXCEEDED from hc)
      (by decide)) hs
  exact ⟨hf, updateDisplay_over_limit _ formatFloat hs hf⟩

/-- The example system reaches `THRESHOLD_EXCEEDED` through `RESUME`, `startMeasurement`, a
sample of 150 g and a tick, and there the flag is true and the status text is
"OVER LIMIT". -/
theorem exceeded_state_implies_flag_witness :
    (exampleSystem.run exampleToFloat
      [.command exampleEnv (exampleCommand "RESUME" ""), .startMeasurement exampleEnv,
        .weightData exampleEnv 150, .tick exampleEnv]).currentSystemState =
      .THRESHOLD_EXCEEDED ∧
    (exampleSystem.run exampleToFloat
      [.command exampleEnv (exampleCommand "RESUME" ""), .startMeasurement exampleEnv,
        .weightData exampleEnv 150, .tick exampleEnv]).thresholdExceeded = true ∧
    ((exampleSystem.run exampleToFloat
      [.command exampleEnv (exampleCommand "RESUME" ""), .startMeasurement exampleEnv,
        .weightData exampleEnv 150, .tick exampleEnv]).updateDisplay
      exampleFormatFloat).displayManager.currentMode = .WEIGHT_DISPLAY ∧
    ((exampleSystem.run exampleToFloat
      [.command exampleEnv (exampleCommand "RESUME" ""), .startMeasurement exampleEnv,
        .weightData exampleEnv 150, .tick exampleEnv]).updateDisplay
      exampleFormatFloat).displayManager.line3Content =
        DisplayManager.centerText "Status: OVER LIMIT" 20 :=
  have hs := (resume_start_sample_tick_stop exampleSystem exampleToFloat exampleEnv exampleEnv
    exampleEnv exampleEnv exampleEnv (exampleCommand "RESUME" "") 150 rfl rfl
    (by
      show (150 : ℚ) > 100
      norm_num)).1
  ⟨hs, (exceeded_state_implies_flag "24:6F:28:AA:BB:CC" 4 5 2 exampleToFloat exampleFormatFloat
    [.command exampleEnv (exampleCommand "RESUME" ""), .startMeasurement exampleEnv,
      .weightData exampleEnv 150, .tick exampleEnv]).2.2 hs⟩

end Tavolo
